import Mathlib

/-!
# win32-screen-view: a verification development

Shallow embedding of the parts of the screen-view library that its specification
makes checkable statements about, followed by the theorems.

* `com_ptr.hpp`   : the reference-counting smart handle (`com_ptr`)
* `util.hpp`      : `clamp`, `check_windows_version`, `get_pixel_from_row`
* `view.cpp`      : `SV_CreateView` dispatch and the render-thread loop
* `renderer.hpp`  : `Renderer::updateCursorPosition`, `resize`, `reset`, `render`
* `duplication_source.cpp` : the modern source
* `seven_dwm_source.cpp`, `seven_dwm_injected.cpp` : the legacy source and its agent
* `logger.cpp`, `injection.cpp`, `win32.cpp` : the log sink, remote calls, window lifetime

Conventions: a raw pointer or handle is a natural number, `0` being `nullptr`/`NULL`;
calls into COM objects are recorded in explicit counters or traces; unsigned
machine arithmetic is written with an explicit `% 2^w`.
-/

set_option autoImplicit false

/-! ## com_ptr.hpp -/

/-- A raw COM interface pointer; `0` is `nullptr`. -/
abbrev Ptr := Nat

/-- What the wrapped COM objects have been asked to do so far: for every object the
number of `AddRef` and of `Release` calls it has received. -/
structure ComHeap where
  addRefs  : Ptr → Nat
  releases : Ptr → Nat

namespace ComHeap

/-- The method `IUnknown::AddRef` called on object `p`. -/
def AddRef (h : ComHeap) (p : Ptr) : ComHeap :=
  { h with addRefs := fun q => if q = p then h.addRefs q + 1 else h.addRefs q }

/-- The method `IUnknown::Release` called on object `p`. -/
def Release (h : ComHeap) (p : Ptr) : ComHeap :=
  { h with releases := fun q => if q = p then h.releases q + 1 else h.releases q }

/-- Net reference count change an object has seen: `AddRef` calls minus `Release` calls. -/
def refcount (h : ComHeap) (p : Ptr) : Int :=
  (h.addRefs p : Int) - (h.releases p : Int)

/-- The method `IUnknown::QueryInterface(iid, &out)` called on object `p`, under the COM
contract: when the object supplies the interface it adds a reference and hands out the
interface pointer, otherwise the out pointer is `nullptr`.  `supplies p iid` is the
answer of the (external) object. -/
def QueryInterface (supplies : Ptr → Nat → Bool) (h : ComHeap) (p : Ptr) (iid : Nat) :
    ComHeap × Ptr :=
  if supplies p iid then (h.AddRef p, p) else (h, 0)

end ComHeap

/-- The class template `com_ptr<T>`: its only data member is `m_ptr`, initialised to
`nullptr`.  The static interface type `T` carries no run-time state. -/
structure com_ptr where
  m_ptr : Ptr := 0
deriving DecidableEq, Repr

namespace com_ptr

/-- The private member `void ref()`. -/
def ref (h : ComHeap) (self : com_ptr) : ComHeap :=
  if self.m_ptr = 0 then h else h.AddRef self.m_ptr

/-- The private member `void release()`. -/
def release (h : ComHeap) (self : com_ptr) : ComHeap :=
  if self.m_ptr = 0 then h else h.Release self.m_ptr

/-- The member `void clear()`: `release(); m_ptr = nullptr;`. -/
def clear (h : ComHeap) (self : com_ptr) : ComHeap × com_ptr :=
  (release h self, { self with m_ptr := 0 })

/-- The destructor `~com_ptr()`: `clear();`, after which the handle is gone. -/
def destroy (h : ComHeap) (self : com_ptr) : ComHeap :=
  (clear h self).1

/-- The copy constructor `com_ptr(const com_ptr<T>& other) : m_ptr(other.m_ptr) { ref(); }`.
Returns the heap and the new handle. -/
def copy_construct (h : ComHeap) (other : com_ptr) : ComHeap × com_ptr :=
  let self : com_ptr := { m_ptr := other.m_ptr }
  (ref h self, self)

/-- The move constructor `com_ptr(com_ptr<T>&& other) { std::swap(m_ptr, other.m_ptr); }`.
Returns the new handle and `other` as it is left behind. -/
def move_construct (other : com_ptr) : com_ptr × com_ptr :=
  let self : com_ptr := {}
  ({ self with m_ptr := other.m_ptr }, { other with m_ptr := self.m_ptr })

/-- The upcasting copy constructor `com_ptr(const com_ptr<Tsub>& other)`. -/
def upcast_copy_construct (h : ComHeap) (other : com_ptr) : ComHeap × com_ptr :=
  let self : com_ptr := { m_ptr := other.m_ptr }
  (ref h self, self)

/-- The upcasting move constructor `com_ptr(com_ptr<Tsub>&& other)`. -/
def upcast_move_construct (other : com_ptr) : com_ptr × com_ptr :=
  let self : com_ptr := {}
  ({ self with m_ptr := other.m_ptr }, { other with m_ptr := self.m_ptr })

/-- The body of `operator=(com_ptr<T> other)`: `std::swap(m_ptr, other.m_ptr)`, then the
by-value parameter `other` is destroyed on return.  Returns the heap and `*this`. -/
def assign (h : ComHeap) (self other : com_ptr) : ComHeap × com_ptr :=
  let self1 : com_ptr := { self with m_ptr := other.m_ptr }
  let other1 : com_ptr := { other with m_ptr := self.m_ptr }
  (destroy h other1, self1)

/-- The body of the upcasting `operator=(com_ptr<Tsub> other)`. -/
def upcast_assign (h : ComHeap) (self other : com_ptr) : ComHeap × com_ptr :=
  let self1 : com_ptr := { self with m_ptr := other.m_ptr }
  let other1 : com_ptr := { other with m_ptr := self.m_ptr }
  (destroy h other1, self1)

/-- The static member `take(T *dumb)`: wrap without adding a reference. -/
def take (dumb : Ptr) : com_ptr :=
  let smart : com_ptr := {}
  { smart with m_ptr := dumb }

/-- The static member `ref(T *dumb)`: add a reference and wrap. -/
def ref_dumb (h : ComHeap) (dumb : Ptr) : ComHeap × com_ptr :=
  if dumb ≠ 0 then (h.AddRef dumb, take dumb) else (h, {})

/-- The member `T** pptr_cleared()`: `clear(); return &m_ptr;`. -/
def pptr_cleared (h : ComHeap) (self : com_ptr) : ComHeap × com_ptr :=
  clear h self

/-- The one permitted store through the pointer handed out by `pptr_cleared`:
`*pp = dumb`. -/
def store_pptr (self : com_ptr) (dumb : Ptr) : com_ptr :=
  { self with m_ptr := dumb }

/-- The member `com_ptr<T2> query<T2>()`. -/
def query (supplies : Ptr → Nat → Bool) (h : ComHeap) (self : com_ptr) (iid : Nat) :
    ComHeap × com_ptr :=
  if self.m_ptr = 0 then (h, take 0)
  else
    let r := h.QueryInterface supplies self.m_ptr iid
    (r.1, take r.2)

/-- The member `bool query<T2>(com_ptr<T2>& out)`.  Returns the heap, `out` and the
boolean result.  On success the temporary is moved into the parameter of `operator=`
and both temporaries are destroyed; on failure only the (null) temporary is. -/
def query_out (supplies : Ptr → Nat → Bool) (h : ComHeap) (self out : com_ptr) (iid : Nat) :
    ComHeap × com_ptr × Bool :=
  let r := query supplies h self iid
  let tmp := r.2
  if tmp.m_ptr ≠ 0 then
    let mv := move_construct tmp
    let a := assign r.1 out mv.1
    (destroy a.1 mv.2, a.2, true)
  else
    (destroy r.1 tmp, out, false)

end com_ptr

/-! ### Programs over handles -/

/-- One statement of a program that manipulates `com_ptr` variables.  Variables are
named by their position in the table of handles. -/
inductive HandleOp where
  /-- The statement `com_ptr<T> n(src);`. -/
  | copy_construct (src : Nat)
  /-- The statement `com_ptr<T> n(std::move(src));`. -/
  | move_construct (src : Nat)
  /-- The statement `com_ptr<Tbase> n(src);`. -/
  | upcast_copy (src : Nat)
  /-- The statement `com_ptr<Tbase> n(std::move(src));`. -/
  | upcast_move (src : Nat)
  /-- The statement `dst = src;`. -/
  | assign_copy (dst src : Nat)
  /-- The statement `dst = std::move(src);`. -/
  | assign_move (dst src : Nat)
  /-- The statement `dst = src;` with `src` of a derived interface type. -/
  | upcast_assign_copy (dst src : Nat)
  /-- The statement `dst = std::move(src);` with `src` of a derived interface type. -/
  | upcast_assign_move (dst src : Nat)
  /-- The statement `auto n = src.query<T2>();`. -/
  | query (src iid : Nat)
  /-- The statement `src.query(out);`. -/
  | query_out (src out iid : Nat)
  /-- The statement `v.clear();`. -/
  | clear (v : Nat)
  /-- The variable `v` goes out of scope. -/
  | destroy (v : Nat)

/-- A running program: the heap of COM objects and the table of handles, `none` for a
handle whose destructor has run. -/
structure HandleState where
  heap    : ComHeap
  handles : List (Option com_ptr)

namespace HandleState

/-- The live handle stored at position `i`, if there is one. -/
def live (s : HandleState) (i : Nat) : Option com_ptr :=
  (s.handles.getD i none)

/-- Number of live handles holding the (non-null) object `o`. -/
def liveCount (s : HandleState) (o : Ptr) : Nat :=
  s.handles.count (some { m_ptr := o })

/-- Execute one statement.  A statement that names a variable which is not live is not
a program and is skipped. -/
def step (supplies : Ptr → Nat → Bool) (s : HandleState) : HandleOp → HandleState
  | .copy_construct src =>
    match s.live src with
    | some p =>
      let r := com_ptr.copy_construct s.heap p
      { heap := r.1, handles := s.handles ++ [some r.2] }
    | none => s
  | .move_construct src =>
    match s.live src with
    | some p =>
      let r := com_ptr.move_construct p
      { heap := s.heap, handles := s.handles.set src (some r.2) ++ [some r.1] }
    | none => s
  | .upcast_copy src =>
    match s.live src with
    | some p =>
      let r := com_ptr.upcast_copy_construct s.heap p
      { heap := r.1, handles := s.handles ++ [some r.2] }
    | none => s
  | .upcast_move src =>
    match s.live src with
    | some p =>
      let r := com_ptr.upcast_move_construct p
      { heap := s.heap, handles := s.handles.set src (some r.2) ++ [some r.1] }
    | none => s
  | .assign_copy dst src =>
    match s.live dst, s.live src with
    | some d, some p =>
      let c := com_ptr.copy_construct s.heap p
      let a := com_ptr.assign c.1 d c.2
      { heap := a.1, handles := s.handles.set dst (some a.2) }
    | _, _ => s
  | .assign_move dst src =>
    match s.live dst, s.live src with
    | some _, some p =>
      let mv := com_ptr.move_construct p
      let hs := s.handles.set src (some mv.2)
      let d := (hs.getD dst none).getD {}
      let a := com_ptr.assign s.heap d mv.1
      { heap := a.1, handles := hs.set dst (some a.2) }
    | _, _ => s
  | .upcast_assign_copy dst src =>
    match s.live dst, s.live src with
    | some d, some p =>
      let c := com_ptr.copy_construct s.heap p
      let a := com_ptr.upcast_assign c.1 d c.2
      { heap := a.1, handles := s.handles.set dst (some a.2) }
    | _, _ => s
  | .upcast_assign_move dst src =>
    match s.live dst, s.live src with
    | some _, some p =>
      let mv := com_ptr.move_construct p
      let hs := s.handles.set src (some mv.2)
      let d := (hs.getD dst none).getD {}
      let a := com_ptr.upcast_assign s.heap d mv.1
      { heap := a.1, handles := hs.set dst (some a.2) }
    | _, _ => s
  | .query src iid =>
    match s.live src with
    | some p =>
      let r := com_ptr.query supplies s.heap p iid
      { heap := r.1, handles := s.handles ++ [some r.2] }
    | none => s
  | .query_out src out iid =>
    match s.live src, s.live out with
    | some p, some o =>
      let r := com_ptr.query_out supplies s.heap p o iid
      { heap := r.1, handles := s.handles.set out (some r.2.1) }
    | _, _ => s
  | .clear v =>
    match s.live v with
    | some p =>
      let r := com_ptr.clear s.heap p
      { heap := r.1, handles := s.handles.set v (some r.2) }
    | none => s
  | .destroy v =>
    match s.live v with
    | some p => { heap := com_ptr.destroy s.heap p, handles := s.handles.set v none }
    | none => s

/-- Execute a sequence of statements. -/
def run (supplies : Ptr → Nat → Bool) (s : HandleState) (ops : List HandleOp) : HandleState :=
  ops.foldl (step supplies) s

end HandleState

/-! ## util.hpp -/

namespace util

/-- The template `clamp(lower, n, upper)`: `std::max(lower, std::min(n, upper))`. -/
def clamp (lower n upper : Nat) : Nat :=
  max lower (min n upper)

/-- The fields of `OSVERSIONINFO` that `check_windows_version` reads (all `DWORD`). -/
structure OSVERSIONINFO where
  dwMajorVersion : Nat
  dwMinorVersion : Nat
  dwPlatformId   : Nat
deriving DecidableEq, Repr

/-- The Windows SDK constant `VER_PLATFORM_WIN32_NT`. -/
def VER_PLATFORM_WIN32_NT : Nat := 2

/-- The default comparator `std::greater_equal<DWORD>`. -/
def greater_equal (a b : Nat) : Bool := decide (a ≥ b)

/-- The comparator `std::equal_to<DWORD>`. -/
def equal_to (a b : Nat) : Bool := decide (a = b)

/-- The function `check_windows_version(major, minor, compare)`.  `GetVersionEx` is the answer
of the operating system: `none` when the call fails, otherwise the structure it filled in.
The compound version numbers are `DWORD`s. -/
def check_windows_version (GetVersionEx : Option OSVERSIONINFO) (major minor : Nat)
    (compare : Nat → Nat → Bool) : Bool :=
  match GetVersionEx with
  | none => false
  | some v =>
    if v.dwPlatformId ≠ VER_PLATFORM_WIN32_NT then false
    else
      let haveVersion :=
        ((clamp 0 v.dwMajorVersion 0xFFFF <<< 16) % 2 ^ 32) ||| clamp 0 v.dwMinorVersion 0xFFFF
      let wantVersion :=
        ((clamp 0 major 0xFFFF <<< 16) % 2 ^ 32) ||| clamp 0 minor 0xFFFF
      compare haveVersion wantVersion

/-- The template `get_pixel_from_row<bpp>(row, x)`: the row is the byte memory starting at
the row pointer; the result is a `uint8_t`.  `x` is the value of the `int` parameter, taken
not to be negative; its product with the `unsigned` `bpp` is formed in 32 bits. -/
def get_pixel_from_row (bpp : Nat) (row : Nat → Nat) (x : Nat) : Nat :=
  (((row (x * bpp % 2 ^ 32 / 8)) >>> (8 - bpp - (x % (8 / bpp)) * bpp)) &&& ((1 <<< bpp) - 1))
    % 256

end util

/-! ## view.cpp -/

/-- Which instantiation of `ViewWindow::create<TSource>` a view is made with. -/
inductive SourceKind where
  | DuplicationSource
  | SevenDwmSource
deriving DecidableEq, Repr

/-- The exported `SV_CreateView`, reduced to its dispatch: `some k` when it returns
`ViewWindow::create<k>(parent, x, y, w, h)`, `none` when it returns `NULL`. -/
def SV_CreateView (GetVersionEx : Option util.OSVERSIONINFO) : Option SourceKind :=
  if util.check_windows_version GetVersionEx 6 2 util.greater_equal then
    some SourceKind.DuplicationSource
  else if util.check_windows_version GetVersionEx 6 1 util.equal_to then
    some SourceKind.SevenDwmSource
  else
    none

/-- The render thread as far as timing goes: the millisecond clock read by
`util::milliseconds_now`, the local `last`, and the clock value at which every call of
`renderer.render()` started, oldest first. -/
structure RenderThread where
  clock    : Nat
  last     : Nat
  rendered : List Nat
deriving DecidableEq, Repr

namespace RenderThread

/-- State of `threadProc` when it enters the loop: `last = util::milliseconds_now()`. -/
def start (t0 : Nat) : RenderThread :=
  { clock := t0, last := t0 % 2 ^ 64, rendered := [] }

/-- One iteration of the loop of `threadProc` in which `PeekMessage` finds no message:
`renderer.render()` runs for `renderCost` ms, then the frame time is measured and the
remainder to 10 ms is slept; `Sleep(d)` advances the clock by exactly `d`. -/
def threadProc_idle (renderCost : Nat) (s : RenderThread) : RenderThread :=
  let started := s.clock
  let clock1 := s.clock + renderCost
  let previous := s.last
  let now := clock1 % 2 ^ 64
  let delta := (now + 2 ^ 64 - previous) % 2 ^ 64
  let clock2 :=
    if delta < 10 then clock1 + (10 + 2 ^ 32 - delta % 2 ^ 32) % 2 ^ 32 else clock1
  { clock := clock2, last := now, rendered := s.rendered ++ [started] }

/-- The loop of `threadProc` over a run of iterations without pending commands, one
render cost per frame. -/
def threadProc (s : RenderThread) (renderCosts : List Nat) : RenderThread :=
  renderCosts.foldl (fun st c => threadProc_idle c st) s

/-- Wall time between the start of the first and the start of the last rendered frame. -/
def elapsed (s : RenderThread) : Nat :=
  s.rendered.getLastD 0 - s.rendered.headD 0

end RenderThread

/-! ## renderer.hpp -/

/-- The vertex format `struct VERTEX { float x, y, z, u, v; }`, read over the rationals. -/
structure VERTEX where
  x : ℚ
  y : ℚ
  z : ℚ
  u : ℚ
  v : ℚ
deriving DecidableEq

/-- The data members of `Renderer` (the source `m_source` is carried next to it, the
factory, shaders, layout, sampler and blend state are not read after construction). -/
structure Renderer where
  m_device         : com_ptr := {}
  m_swap           : com_ptr := {}
  m_renderTarget   : com_ptr := {}
  m_desktopTexture : com_ptr := {}
  m_desktopSrv     : com_ptr := {}
  m_cursorTexture  : com_ptr := {}
  m_cursorSrv      : com_ptr := {}
  m_desktopVBuffer : com_ptr := {}
  m_cursorVBuffer : com_ptr := {}
  m_cursorVisible : Bool := true
  m_cursorWidth   : Nat := 0
  m_cursorHeight  : Nat := 0
  m_cursorX       : Int := 0
  m_cursorY       : Int := 0
  m_desktopWidth  : Int := 0
  m_desktopHeight : Int := 0

namespace Renderer

/-- The local `left` of `updateCursorPosition`. -/
def left (r : Renderer) : ℚ :=
  -1 + 2 * (r.m_cursorX : ℚ) / (r.m_desktopWidth : ℚ)

/-- The local `top` of `updateCursorPosition`. -/
def top (r : Renderer) : ℚ :=
  1 - 2 * (r.m_cursorY : ℚ) / (r.m_desktopHeight : ℚ)

/-- The local `right` of `updateCursorPosition`. -/
def right (r : Renderer) : ℚ :=
  r.left + 2 * (r.m_cursorWidth : ℚ) / (r.m_desktopWidth : ℚ)

/-- The local `bottom` of `updateCursorPosition`. -/
def bottom (r : Renderer) : ℚ :=
  r.top - 2 * (r.m_cursorHeight : ℚ) / (r.m_desktopHeight : ℚ)

/-- The member `updateCursorPosition`: the six vertices written into the mapped cursor
vertex buffer, or `none` when the function returns before writing (no vertex buffer, or
`Map` failed, `mapSucceeded = false`). -/
def updateCursorPosition (r : Renderer) (mapSucceeded : Bool) : Option (List VERTEX) :=
  if r.m_cursorVBuffer.m_ptr = 0 then none
  else
    let uleft : ℚ := 0
    let vtop : ℚ := 0
    let uright : ℚ := 1
    let vbottom : ℚ := 1
    if !mapSucceeded then none
    else some
      [ { x := r.left,  y := r.top,    z := 0, u := uleft,  v := vtop },
        { x := r.right, y := r.bottom, z := 0, u := uright, v := vbottom },
        { x := r.left,  y := r.bottom, z := 0, u := uleft,  v := vbottom },
        { x := r.left,  y := r.top,    z := 0, u := uleft,  v := vtop },
        { x := r.right, y := r.top,    z := 0, u := uright, v := vtop },
        { x := r.right, y := r.bottom, z := 0, u := uright, v := vbottom } ]

end Renderer

/-! ## Byte memory -/

/-- Byte-addressed memory seen through a base pointer: the byte at every offset. -/
abbrev Mem := Nat → Nat

namespace Mem

/-- The statement `p[a] = v`. -/
def write (m : Mem) (a v : Nat) : Mem :=
  fun x => if x = a then v else m x

/-- The call `memset(p, val, len)`. -/
def memset (m : Mem) (val len : Nat) : Mem :=
  fun x => if x < len then val else m x

/-- The call `memcpy(dst + d, src + s, len)`. -/
def memcpy (dst : Mem) (d : Nat) (src : Mem) (s len : Nat) : Mem :=
  fun x => if d ≤ x ∧ x < d + len then src (s + (x - d)) else dst x

end Mem

/-- The constant `CURSOR_TEX_SIZE` of both sources. -/
def CURSOR_TEX_SIZE : Nat := 256

/-- The four bytes of texel `(row, col)` of a mapped texture whose rows are `RowPitch`
bytes apart. -/
def texel (pData : Mem) (RowPitch row col : Nat) : List Nat :=
  [pData (row * RowPitch + col * 4), pData (row * RowPitch + col * 4 + 1),
   pData (row * RowPitch + col * 4 + 2), pData (row * RowPitch + col * 4 + 3)]

/-! ## duplication_source.cpp -/

/-- The Windows SDK constant `DXGI_OUTDUPL_POINTER_SHAPE_TYPE_MONOCHROME`. -/
def DXGI_OUTDUPL_POINTER_SHAPE_TYPE_MONOCHROME : Nat := 1

/-- The Windows SDK constant `DXGI_OUTDUPL_POINTER_SHAPE_TYPE_COLOR`. -/
def DXGI_OUTDUPL_POINTER_SHAPE_TYPE_COLOR : Nat := 2

/-- The Windows SDK constant `DXGI_OUTDUPL_POINTER_SHAPE_TYPE_MASKED_COLOR`. -/
def DXGI_OUTDUPL_POINTER_SHAPE_TYPE_MASKED_COLOR : Nat := 4

/-- The fields of `DXGI_OUTDUPL_POINTER_SHAPE_INFO` that the decoder reads (all `UINT`);
`ShapeType` is the member `Type`. -/
structure DXGI_OUTDUPL_POINTER_SHAPE_INFO where
  ShapeType : Nat
  Width  : Nat
  Height : Nat
  Pitch  : Nat
deriving DecidableEq, Repr

/-- The fields of `DXGI_OUTDUPL_FRAME_INFO` that the source reads. -/
structure DXGI_OUTDUPL_FRAME_INFO where
  LastPresentTime        : Nat := 0
  LastMouseUpdateTime    : Nat := 0
  PointerVisible         : Bool := false
  PointerX               : Int := 0
  PointerY               : Int := 0
  PointerShapeBufferSize : Nat := 0
deriving DecidableEq, Repr

/-- The Windows SDK constant `DXGI_ERROR_WAIT_TIMEOUT`, as the unsigned value of the `HRESULT`. -/
def DXGI_ERROR_WAIT_TIMEOUT : Nat := 0x887A0027

/-- The Windows SDK constant `DXGI_ERROR_ACCESS_LOST`, as the unsigned value of the `HRESULT`. -/
def DXGI_ERROR_ACCESS_LOST : Nat := 0x887A0026

/-- The macro `SUCCEEDED(hr)`: the `HRESULT` is non-negative, its sign bit is clear. -/
def SUCCEEDED (hr : Nat) : Bool := decide (hr % 2 ^ 32 < 2 ^ 31)

/-- The macro `FAILED(hr)`. -/
def FAILED (hr : Nat) : Bool := !SUCCEEDED hr

/-- One entry of the adapter's output list as `DuplicationSource::reinit` sees it: the output,
the `IDXGIOutput1` interface it supplies (`0` when it does not), its description, and what
`DuplicateOutput` answers. -/
structure DXGIOutput where
  output            : Ptr
  output1           : Ptr
  AttachedToDesktop : Bool
  left              : Int
  top               : Int
  right             : Int
  bottom            : Int
  duplicate_hr      : Nat
  duplication       : Ptr
deriving DecidableEq, Repr

/-- What `AcquireNextFrame` answers: the `HRESULT`, the frame info it writes (`none` when
it leaves the structure alone) and the resource pointer it stores through the out
parameter. -/
structure AcquireAnswer where
  hr       : Nat
  info     : Option DXGI_OUTDUPL_FRAME_INFO
  resource : Ptr
deriving DecidableEq, Repr

/-- The effects a source has on the outside: reference counting of the interfaces held in
its members, the log lines written, the `ReleaseFrame` and `AcquireNextFrame` calls
made on duplication handles and the `DuplicateOutput` calls made on outputs, oldest first. -/
structure Effects where
  heap          : ComHeap
  log           : List String
  releaseFrames : List Ptr
  acquires      : List Ptr
  /-- The `IDXGIOutput1` interfaces on which `DuplicateOutput` was called. -/
  duplicateCalls : List Ptr := []

/-- The class `DuplicationSource`. -/
structure DuplicationSource where
  m_dev              : Ptr := 0
  m_desktopWidth     : Int := 0
  m_desktopHeight    : Int := 0
  m_desktopX         : Int := 0
  m_desktopY         : Int := 0
  m_duplication      : com_ptr := {}
  m_frameAcquired    : Bool := false
  m_duplInfo         : DXGI_OUTDUPL_FRAME_INFO := {}
  m_duplDesktopImage : com_ptr := {}
deriving DecidableEq, Repr

namespace DuplicationSource

/-- The output search of `reinit`: walks the outputs from index `i`; `none` when the loop
ends without a match, otherwise the index and the output on which `DuplicateOutput` is
called. -/
def findOutput (x y w h : Int) : Nat → List DXGIOutput → Option (Nat × DXGIOutput)
  | _, [] => none
  | i, o :: rest =>
    if o.output1 = 0 then findOutput x y w h (i + 1) rest
    else if o.AttachedToDesktop && decide (o.left = x) && decide (o.top = y)
        && decide (o.right = x + w) && decide (o.bottom = y + h) then
      some (i, o)
    else findOutput x y w h (i + 1) rest

/-- The member `reinit(device, x, y, w, h)`.  `outputs` is the answer of the graphics runtime to
`QueryInterface<IDXGIDevice>`, `GetAdapter` and `EnumOutputs` on the device: `none` when
the adapter cannot be obtained.  The result is `none` when the function dereferences a
null pointer (`device`, `dev` or `adp`).  `describe` stands for `util::hresult_to_utf8`. -/
def reinit (describe : Nat → String) (outputs : Option (List DXGIOutput))
    (s : DuplicationSource) (e : Effects) (device : Ptr) (x y w h : Int) :
    Option (DuplicationSource × Effects) :=
  let log1 := e.log ++ ["(Re)initializing duplication source dev=" ++ toString device
    ++ " x=" ++ toString x ++ " y=" ++ toString y ++ " w=" ++ toString w ++ " h=" ++ toString h]
  let c1 := com_ptr.clear e.heap s.m_duplication
  let c2 := com_ptr.clear c1.1 s.m_duplDesktopImage
  let s1 : DuplicationSource :=
    { s with m_duplication := c1.2, m_duplDesktopImage := c2.2, m_frameAcquired := false,
             m_desktopWidth := w, m_desktopHeight := h, m_desktopX := x, m_desktopY := y,
             m_dev := device }
  if device = 0 then none
  else
    match outputs with
    | none => none
    | some outs =>
      match findOutput x y w h 0 outs with
      | some (i, o) =>
        let log2 := log1 ++ ["Attempting to duplicate display " ++ toString i]
        let p := com_ptr.pptr_cleared c2.1 s1.m_duplication
        let dup := com_ptr.store_pptr p.2 o.duplication
        let log3 :=
          if FAILED o.duplicate_hr then
            log2 ++ ["Attempted to duplicate display " ++ toString i ++ " but: "
              ++ describe o.duplicate_hr]
          else log2
        some ({ s1 with m_duplication := dup },
          { e with heap := p.1, log := log3,
                   duplicateCalls := e.duplicateCalls ++ [o.output1] })
      | none =>
        some (s1, { e with heap := c2.1, log := log1 ++
          ["WARNING: Couldn\x27t find display: x=" ++ toString x ++ " y=" ++ toString y
            ++ " w=" ++ toString w ++ " h=" ++ toString h] })

/-- The member `acquireFrame()`.  `answer` is what `AcquireNextFrame` returns on this call;
`outputs` is what a rebind would see. -/
def acquireFrame (describe : Nat → String) (outputs : Option (List DXGIOutput))
    (answer : AcquireAnswer) (s : DuplicationSource) (e : Effects) :
    Option (DuplicationSource × Effects) :=
  if s.m_duplication.m_ptr = 0 || s.m_dev = 0 then some (s, e)
  else
    let p := com_ptr.pptr_cleared e.heap s.m_duplDesktopImage
    let hr := answer.hr
    let s1 : DuplicationSource :=
      { s with m_duplInfo := answer.info.getD s.m_duplInfo,
               m_duplDesktopImage := com_ptr.store_pptr p.2 answer.resource }
    let e1 : Effects := { e with heap := p.1, acquires := e.acquires ++ [s.m_duplication.m_ptr] }
    if hr = DXGI_ERROR_WAIT_TIMEOUT then some (s1, e1)
    else
      let s2 : DuplicationSource := { s1 with m_frameAcquired := SUCCEEDED hr }
      let e2 : Effects :=
        if !s2.m_frameAcquired then
          { e1 with log := e1.log ++ ["Failed: AcquireNextFrame: " ++ describe hr] }
        else e1
      if FAILED hr && decide (hr = DXGI_ERROR_ACCESS_LOST) then
        let e3 : Effects := { e2 with log := e2.log ++
          ["Recreating the IDXGIOutputDuplication interface because of DXGI_ERROR_ACCESS_LOST="
            ++ toString hr] }
        reinit describe outputs s2 e3 s2.m_dev s2.m_desktopX s2.m_desktopY
          s2.m_desktopWidth s2.m_desktopHeight
      else some (s2, e2)

/-- The member `releaseFrame()`. -/
def releaseFrame (s : DuplicationSource) (e : Effects) : DuplicationSource × Effects :=
  let e1 : Effects :=
    if s.m_frameAcquired && decide (s.m_duplication.m_ptr ≠ 0) then
      { e with releaseFrames := e.releaseFrames ++ [s.m_duplication.m_ptr] }
    else e
  ({ s with m_frameAcquired := false }, e1)

/-- The monochrome branch of `updateCursor` (the final `else` of the shape decoder): the
AND plane starts at the buffer, the XOR plane `Pitch*Height/2` bytes later. -/
def decodeMonochrome (pointer : DXGI_OUTDUPL_POINTER_SHAPE_INFO) (buffer : Mem)
    (RowPitch : Nat) (pData : Mem) : Mem :=
  let and_map := 0
  let xor_map := and_map + (pointer.Pitch * pointer.Height % 2 ^ 32) / 2
  (List.range (min (pointer.Height / 2) CURSOR_TEX_SIZE)).foldl (fun mem row =>
    let and_row := and_map + row * pointer.Pitch
    let xor_row := xor_map + row * pointer.Pitch
    (List.range (min pointer.Width CURSOR_TEX_SIZE)).foldl (fun mem col =>
      let target := row * RowPitch + col * 4
      let alpha := if util.get_pixel_from_row 1 (fun i => buffer (and_row + i)) col ≠ 0
        then 0 else 0xFF
      let rgb := if util.get_pixel_from_row 1 (fun i => buffer (xor_row + i)) col ≠ 0
        then 0xFF else 0
      (((mem.write target rgb).write (target + 1) rgb).write (target + 2) rgb).write
        (target + 3) alpha) mem) pData

/-- The colour branch of `updateCursor`: row-wise `memcpy`. -/
def decodeColor (pointer : DXGI_OUTDUPL_POINTER_SHAPE_INFO) (buffer : Mem)
    (RowPitch : Nat) (pData : Mem) : Mem :=
  (List.range (min pointer.Height CURSOR_TEX_SIZE)).foldl (fun mem row =>
    Mem.memcpy mem (row * RowPitch) buffer (row * pointer.Pitch)
      (min pointer.Width CURSOR_TEX_SIZE * 4)) pData

/-- The masked-colour branch of `updateCursor`. -/
def decodeMaskedColor (pointer : DXGI_OUTDUPL_POINTER_SHAPE_INFO) (buffer : Mem)
    (RowPitch : Nat) (pData : Mem) : Mem :=
  (List.range (min pointer.Height CURSOR_TEX_SIZE)).foldl (fun mem row =>
    (List.range (min pointer.Width CURSOR_TEX_SIZE)).foldl (fun mem col =>
      let target := row * RowPitch + col * 4
      let source := row * pointer.Pitch + col * 4
      (((mem.write target (buffer source)).write (target + 1) (buffer (source + 1))).write
        (target + 2) (buffer (source + 2))).write (target + 3) 0xFF) mem) pData

/-- The pointer-shape part of `updateCursor`, from the `memset` of the mapped cursor
texture to the end of the decoder.  `pData` is the memory `Map` handed out (its contents
are arbitrary after `D3D10_MAP_WRITE_DISCARD`), `RowPitch` its row pitch. -/
def updateCursor_shape (pointer : DXGI_OUTDUPL_POINTER_SHAPE_INFO) (buffer : Mem)
    (RowPitch : Nat) (pData : Mem) : Mem :=
  let cleared := Mem.memset pData 0 (4 * CURSOR_TEX_SIZE * CURSOR_TEX_SIZE)
  if pointer.ShapeType = DXGI_OUTDUPL_POINTER_SHAPE_TYPE_COLOR then
    decodeColor pointer buffer RowPitch cleared
  else if pointer.ShapeType = DXGI_OUTDUPL_POINTER_SHAPE_TYPE_MASKED_COLOR then
    decodeMaskedColor pointer buffer RowPitch cleared
  else
    decodeMonochrome pointer buffer RowPitch cleared

end DuplicationSource

/-! ## seven_dwm_source.cpp -/

/-- The Windows type `LONG` as the target of a conversion: the value of a 32-bit pattern read
as a signed integer. -/
def toLONG (n : Int) : Int :=
  (n + 2 ^ 31) % 2 ^ 32 - 2 ^ 31

/-- The fields of `CURSORINFO` that `updateCursor` reads. -/
structure CURSORINFO where
  flags   : Nat
  hCursor : Nat
deriving DecidableEq, Repr

/-- The Windows structure `POINT`. -/
structure POINT where
  x : Int
  y : Int
deriving DecidableEq, Repr

/-- The fields of `ICONINFO` that `updateCursorShape` reads. -/
structure ICONINFO where
  xHotspot : Nat
  yHotspot : Nat
  hbmMask  : Nat
  hbmColor : Nat
deriving DecidableEq, Repr

/-- The Windows SDK constant `CURSOR_SHOWING`. -/
def CURSOR_SHOWING : Nat := 1

/-- The free function `updateCursorShape(tex, cursor, xHotspot, yHotspot)` as far as its reference
parameters go: the new values of `xHotspot` and `yHotspot`.  `GetIconInfo` answers `none`
when it fails, `CreateCompatibleDC` is whether the device context could be made.  What
it writes into the texture is `updateCursorShape_monochrome` for a monochrome cursor. -/
def updateCursorShape (GetIconInfo : Nat → Option ICONINFO) (CreateCompatibleDC : Bool)
    (_tex : Ptr) (cursor : Nat) (xHotspot yHotspot : Nat) : Nat × Nat :=
  match GetIconInfo cursor with
  | none => (xHotspot, yHotspot)
  | some info =>
    if !CreateCompatibleDC then (xHotspot, yHotspot)
    else (info.xHotspot, info.yHotspot)

/-- The monochrome branch of `updateCursorShape` from the `memset` of the mapped texture to
the end of the decode loop: `w`, `h` are the width and the per-plane height of the mask
bitmap, `bits` the two planes read by `GetDIBits`. -/
def updateCursorShape_monochrome (w h : Nat) (bits : Mem) (RowPitch : Nat) (pData : Mem) :
    Mem :=
  let bpl := (((w + 2 ^ 32 - 1) % 2 ^ 32) / 32 + 1) * 4
  let cleared := Mem.memset pData 0 (RowPitch * CURSOR_TEX_SIZE)
  let and_map := 0
  let xor_map := bpl * h
  (List.range (min h CURSOR_TEX_SIZE)).foldl (fun mem row =>
    let and_row := and_map + row * bpl
    let xor_row := xor_map + row * bpl
    (List.range (min w CURSOR_TEX_SIZE)).foldl (fun mem col =>
      let target := row * RowPitch + col * 4
      let alpha := if util.get_pixel_from_row 1 (fun i => bits (and_row + i)) col ≠ 0
        then 0 else 0xFF
      let rgb := if util.get_pixel_from_row 1 (fun i => bits (xor_row + i)) col ≠ 0
        then 0xFF else 0
      (((mem.write target rgb).write (target + 1) rgb).write (target + 2) rgb).write
        (target + 3) alpha) mem) cleared

/-- The class `SevenDwmSource` (its communicator is a separate window object). -/
structure SevenDwmSource where
  m_dev            : Ptr := 0
  m_desktopWidth   : Int := 0
  m_desktopHeight  : Int := 0
  m_desktopX       : Int := 0
  m_desktopY       : Int := 0
  m_lastCursorSeen : Nat := 0
  m_xHotspot       : Nat := 0
  m_yHotspot       : Nat := 0
deriving DecidableEq, Repr

/-- What one call of `SevenDwmSource::updateCursor` leaves behind: the source, the three
reference parameters, and the calls of `updateCursorShape` it made (texture and cursor
handle passed), oldest first. -/
structure CursorPoll where
  source        : SevenDwmSource
  cursorX       : Int
  cursorY       : Int
  cursorVisible : Bool
  shapeCalls    : List (Ptr × Nat)
deriving DecidableEq, Repr

namespace SevenDwmSource

/-- The member `updateCursor(cursorTex, cursorX, cursorY, cursorVisible)`.  `GetCursorPos` and
`GetCursorInfo` are the answers of the system, `none` for a failed call. -/
def updateCursor (GetIconInfo : Nat → Option ICONINFO) (CreateCompatibleDC : Bool)
    (GetCursorPos : Option POINT) (GetCursorInfo : Option CURSORINFO)
    (s : SevenDwmSource) (cursorTex : Ptr) (cursorX cursorY : Int) (cursorVisible : Bool) :
    CursorPoll :=
  match GetCursorPos with
  | none => { source := s, cursorX := cursorX, cursorY := cursorY,
              cursorVisible := cursorVisible, shapeCalls := [] }
  | some position =>
    match GetCursorInfo with
    | none => { source := s, cursorX := cursorX, cursorY := cursorY,
                cursorVisible := cursorVisible, shapeCalls := [] }
    | some cursorinfo =>
      let changed := decide (cursorinfo.hCursor ≠ s.m_lastCursorSeen)
      let s1 : SevenDwmSource :=
        if changed then
          let s0 := { s with m_lastCursorSeen := cursorinfo.hCursor }
          let hot := updateCursorShape GetIconInfo CreateCompatibleDC cursorTex
            s0.m_lastCursorSeen s0.m_xHotspot s0.m_yHotspot
          { s0 with m_xHotspot := hot.1, m_yHotspot := hot.2 }
        else s
      { source := s1,
        cursorX := toLONG (position.x - s1.m_desktopX - (s1.m_xHotspot : Int)),
        cursorY := toLONG (position.y - s1.m_desktopY - (s1.m_yHotspot : Int)),
        cursorVisible := decide (cursorinfo.flags = CURSOR_SHOWING),
        shapeCalls := if changed then [(cursorTex, cursorinfo.hCursor)] else [] }

end SevenDwmSource

/-! ## seven_dwm_injected.cpp -/

/-- The Windows constant `INVALID_HANDLE_VALUE` of the 32-bit build, `(HANDLE)-1`. -/
def INVALID_HANDLE_VALUE : Nat := 2 ^ 32 - 1

/-- The fields of `DXGI_OUTPUT_DESC` that the agent reads. -/
structure DXGI_OUTPUT_DESC where
  AttachedToDesktop : Bool
  left   : Int
  top    : Int
  right  : Int
  bottom : Int
deriving DecidableEq, Repr

/-- The globals of the injected agent together with `lastShot`, the function-local
static of `OverriddenPresent`. -/
structure Agent where
  g_monitorLeft         : Int := 0
  g_monitorTop          : Int := 0
  g_monitorRight        : Int := 0
  g_monitorBottom       : Int := 0
  g_sharedTextureHandle : Nat := INVALID_HANDLE_VALUE
  g_capturedSwapChain   : Ptr := 0
  g_captureTarget       : Ptr := 0
  lastShot              : Nat := 0
deriving DecidableEq, Repr

/-- What the agent does to the outside, in order. -/
inductive AgentEvent where
  /-- A line written to the logger. -/
  | log (line : String)
  /-- A call `copyBackBuffer(swap, target)` made at tick count `ticks`. -/
  | copyBackBuffer (swap target ticks : Nat)
  /-- The device call `CopyResource(target, backBuffer)`. -/
  | CopyResource (target backBuffer : Ptr)
  /-- The device call `ResolveSubresource(target, 0, backBuffer, 0, format)`. -/
  | ResolveSubresource (target backBuffer : Ptr)
  /-- The call `g_truePresent(swap, sync_interval, flags)`. -/
  | truePresent (swap sync_interval flags : Nat)
  /-- The device call `OpenSharedResource(sharedHandle, IID_ID3D10Resource, &target)`. -/
  | OpenSharedResource (device : Ptr) (sharedHandle : Nat)
  /-- A call `ID3D10Resource_Release(res)`. -/
  | Release (res : Ptr)
deriving DecidableEq, Repr

/-- What the graphics runtime and the system answer during one call of
`OverriddenPresent`: every answer is either the value produced or the failing `HRESULT`. -/
structure PresentEnv where
  GetTickCount        : Nat
  GetDevice           : Except Nat Ptr
  OpenSharedResource  : Except Nat Ptr
  GetBuffer           : Except Nat Ptr
  GetDesc             : Except Nat Nat
  GetContainingOutput : Except Nat Ptr
  OutputGetDesc       : Except Nat DXGI_OUTPUT_DESC
  truePresent         : Nat

namespace Agent

/-- The function `openCaptureTarget(swap)`: the target pointer, and the device call made and the
log lines written. -/
def openCaptureTarget (describe : Nat → String) (env : PresentEnv) (a : Agent) (_swap : Ptr) :
    Ptr × List AgentEvent :=
  let sharedHandle := a.g_sharedTextureHandle
  if sharedHandle = INVALID_HANDLE_VALUE then (0, [])
  else
    match env.GetDevice with
    | .error hr =>
      (0, [.log ("Failed to retrieve device from swap chain: " ++ describe hr)])
    | .ok device =>
      match env.OpenSharedResource with
      | .error hr =>
        (0, [.OpenSharedResource device sharedHandle,
             .log ("Failed to open shared texture: " ++ describe hr)])
      | .ok target => (target, [.OpenSharedResource device sharedHandle])

/-- The function `copyBackBuffer(swap, target)`: the device calls made and the log lines written. -/
def copyBackBuffer (describe : Nat → String) (env : PresentEnv) (_swap target : Ptr) :
    List AgentEvent :=
  match env.GetDevice with
  | .error hr => [.log ("Failed to retrieve device from swap chain: " ++ describe hr)]
  | .ok _device =>
    match env.GetBuffer with
    | .error hr => [.log ("Failed to retrieve back buffer from swap chain: " ++ describe hr)]
    | .ok backBuffer =>
      match env.GetDesc with
      | .error hr =>
        [.log ("Failed to retrieve description of swap chain: " ++ describe hr)]
      | .ok sampleCount =>
        if sampleCount > 1 then [.ResolveSubresource target backBuffer]
        else [.CopyResource target backBuffer]

/-- The function `trySetupCapturing(swap)`. -/
def trySetupCapturing (describe : Nat → String) (env : PresentEnv) (a : Agent) (swap : Ptr) :
    Agent × List AgentEvent :=
  match env.GetContainingOutput with
  | .error hr => (a, [.log ("Failed to retrieve output from swap chain: " ++ describe hr)])
  | .ok _output =>
    let left := a.g_monitorLeft
    let top := a.g_monitorTop
    let right := a.g_monitorRight
    let bottom := a.g_monitorBottom
    match env.OutputGetDesc with
    | .error hr =>
      (a, [.log ("Failed to retrieve description from output: " ++ describe hr)])
    | .ok desc =>
      if !desc.AttachedToDesktop then (a, [])
      else if desc.left = left ∧ desc.top = top ∧ desc.bottom = bottom ∧ desc.right = right then
        ({ a with g_capturedSwapChain := swap }, [])
      else (a, [])

/-- The hook `OverriddenPresent(swap, sync_interval, flags)`: the agent afterwards, what it did,
and the `HRESULT` returned.  Tick counts are `DWORD`s. -/
def OverriddenPresent (describe : Nat → String) (env : PresentEnv) (a : Agent)
    (swap sync_interval flags : Nat) : Agent × List AgentEvent × Nat :=
  let capturedChain := a.g_capturedSwapChain
  let r : Agent × List AgentEvent :=
    if capturedChain = swap then
      let captureTarget := a.g_captureTarget
      let opened : Agent × Ptr × List AgentEvent :=
        if captureTarget = 0 then
          let o := openCaptureTarget describe env a swap
          ({ a with g_captureTarget := o.1 }, o.1, o.2)
        else (a, captureTarget, [])
      let a1 := opened.1
      let captureTarget := opened.2.1
      if captureTarget ≠ 0 then
        let currentTicks := env.GetTickCount % 2 ^ 32
        if (currentTicks + 2 ^ 32 - a1.lastShot) % 2 ^ 32 > 50 then
          ({ a1 with lastShot := currentTicks },
            opened.2.2 ++ [.copyBackBuffer swap captureTarget currentTicks]
              ++ copyBackBuffer describe env swap captureTarget)
        else (a1, opened.2.2)
      else (a1, opened.2.2)
    else if capturedChain = 0 then
      trySetupCapturing describe env a swap
    else (a, [])
  (r.1, r.2 ++ [.truePresent swap sync_interval flags], env.truePresent)

/-- The handler `Communicator::onNewTexture(tex)`. -/
def onNewTexture (a : Agent) (tex : Nat) : Agent × List AgentEvent :=
  let res := a.g_captureTarget
  ({ a with g_sharedTextureHandle := tex, g_captureTarget := 0 },
    if res ≠ 0 then [.Release res] else [])

/-- The handler `Communicator::onCopydata(data)` for a `COPYDATA_ID_NEWSCREEN` message carrying the
rectangle `(left, top, right, bottom)`. -/
def onCopydata_NEWSCREEN (a : Agent) (left top right bottom : Int) : Agent :=
  { a with g_monitorLeft := left, g_monitorTop := top, g_monitorRight := right,
           g_monitorBottom := bottom, g_capturedSwapChain := 0 }

end Agent

/-- Something that happens to the agent: a hooked present with the answers of its
environment, or a control-plane message. -/
inductive AgentInput where
  /-- A call of the hooked `Present`. -/
  | present (env : PresentEnv) (swap sync_interval flags : Nat)
  /-- The message `WM_APP_NEWTEXTURE`. -/
  | newTexture (tex : Nat)
  /-- The message `WM_COPYDATA` with `COPYDATA_ID_NEWSCREEN`. -/
  | newScreen (left top right bottom : Int)

namespace Agent

/-- The agent reacting to one input. -/
def react (describe : Nat → String) (a : Agent) : AgentInput → Agent × List AgentEvent
  | .present env swap sync_interval flags =>
    let r := OverriddenPresent describe env a swap sync_interval flags
    (r.1, r.2.1)
  | .newTexture tex => onNewTexture a tex
  | .newScreen l t r b => (onCopydata_NEWSCREEN a l t r b, [])

/-- The agent reacting to a sequence of inputs: the final state and everything it did. -/
def run (describe : Nat → String) : Agent → List AgentInput → Agent × List AgentEvent
  | a, [] => (a, [])
  | a, i :: rest =>
    let r := react describe a i
    let q := run describe r.1 rest
    (q.1, r.2 ++ q.2)

end Agent

/-- The tick counts read by the hooked presents of an input sequence, in order. -/
def presentTicks : List AgentInput → List Nat
  | [] => []
  | .present env _ _ _ :: rest => env.GetTickCount :: presentTicks rest
  | _ :: rest => presentTicks rest

/-- The tick counts at which `copyBackBuffer` was called, in order. -/
def copyTimes : List AgentEvent → List Nat
  | [] => []
  | .copyBackBuffer _ _ t :: rest => t :: copyTimes rest
  | _ :: rest => copyTimes rest

/-! ## Programs used in the statements -/

/-- The statement `*smart.pptr_cleared() = dumb;`. -/
def pptr_cleared_store (h : ComHeap) (smart : com_ptr) (dumb : Ptr) : ComHeap × com_ptr :=
  let c := com_ptr.pptr_cleared h smart
  (c.1, com_ptr.store_pptr c.2 dumb)

/-- The statement `smart = com_ptr::take(dumb);`: the temporary made by `take` is moved into
the parameter of `operator=`, the assignment runs, and the emptied temporary is destroyed. -/
def assign_take (h : ComHeap) (smart : com_ptr) (dumb : Ptr) : ComHeap × com_ptr :=
  let mv := com_ptr.move_construct (com_ptr.take dumb)
  let a := com_ptr.assign h smart mv.1
  (com_ptr.destroy a.1 mv.2, a.2)

/-- A heap on which nothing has been called yet. -/
def ComHeap.fresh : ComHeap :=
  { addRefs := fun _ => 0, releases := fun _ => 0 }

/-! ## The texel loop of the monochrome decoders -/

/-- The inner loop of a monochrome decode for one row: for every `col < cols` the bytes
`rgb, rgb, rgb, alpha` given by `px col` are written at `base + col*4`. -/
def writeRow (cols base : Nat) (px : Nat → Nat × Nat) (mem : Mem) : Mem :=
  (List.range cols).foldl (fun mem col =>
    let target := base + col * 4
    (((mem.write target (px col).1).write (target + 1) (px col).1).write (target + 2)
      (px col).1).write (target + 3) (px col).2) mem

/-- The double loop of a monochrome decode: row `row < rows` is written at `row * RowPitch`. -/
def writeTexels (rows cols RowPitch : Nat) (px : Nat → Nat → Nat × Nat) (mem : Mem) : Mem :=
  (List.range rows).foldl (fun mem row => writeRow cols (row * RowPitch) (px row) mem) mem

/-- The shape a 32x32 monochrome cursor has in the duplication API: 32 rows of AND mask
followed by 32 rows of XOR mask, 4 bytes each. -/
def monoShape32 : DXGI_OUTDUPL_POINTER_SHAPE_INFO :=
  { ShapeType := DXGI_OUTDUPL_POINTER_SHAPE_TYPE_MONOCHROME, Width := 32, Height := 64, Pitch := 4 }

/-- A shape buffer with an all-zero AND plane and an all-one XOR plane for `monoShape32`. -/
def monoBuffer32 : Mem :=
  fun i => if i < 128 then 0 else 0xFF

/-! ## Sample data for the hooked present -/

/-- An environment in which every call succeeds, at tick count `ticks`. -/
def samplePresentEnv (ticks : Nat) : PresentEnv :=
  { GetTickCount := ticks, GetDevice := .ok 3, OpenSharedResource := .ok 9, GetBuffer := .ok 4,
    GetDesc := .ok 1, GetContainingOutput := .ok 6,
    OutputGetDesc := .ok { AttachedToDesktop := true, left := 0, top := 0, right := 1920,
                           bottom := 1080 },
    truePresent := 0 }

/-- An agent that has captured swap chain 5 and opened capture target 9. -/
def sampleAgent : Agent :=
  { g_monitorRight := 1920, g_monitorBottom := 1080, g_sharedTextureHandle := 77,
    g_capturedSwapChain := 5, g_captureTarget := 9 }

/-- Four presents of the captured swap chain at tick counts 100, 120, 151 and 200. -/
def samplePresents : List AgentInput :=
  [.present (samplePresentEnv 100) 5 1 0, .present (samplePresentEnv 120) 5 1 0,
   .present (samplePresentEnv 151) 5 1 0, .present (samplePresentEnv 200) 5 1 0]

/-! ## Sample data for the modern source -/

/-- A modern source bound to duplication handle 11 on device 1, holding no frame. -/
def sampleDuplicationSource : DuplicationSource :=
  { m_dev := 1, m_desktopWidth := 1920, m_desktopHeight := 1080,
    m_duplication := { m_ptr := 11 } }

/-- Nothing has happened yet. -/
def Effects.none : Effects :=
  { heap := ComHeap.fresh, log := [], releaseFrames := [], acquires := [] }

/-! ## Vocabulary of the statements about the modern source -/

/-- An output is attached to the desktop and its desktop coordinates are exactly
`(x, y, x + w, y + h)`. -/
def matchesMonitor (x y w h : Int) (o : DXGIOutput) : Bool :=
  o.AttachedToDesktop && decide (o.left = x) && decide (o.top = y)
    && decide (o.right = x + w) && decide (o.bottom = y + h)

/-- A string contains another one. -/
def containsText (line part : String) : Prop :=
  part.toList <:+: line.toList

/-- Two outputs with the desktop coordinates of a 1920x1080 monitor at the origin: the first
does not supply `IDXGIOutput1`, the second does (as interface 22) and duplicates
successfully into handle 33. -/
def sampleOutputs : List DXGIOutput :=
  [ { output := 20, output1 := 0, AttachedToDesktop := true, left := 0, top := 0,
      right := 1920, bottom := 1080, duplicate_hr := 0, duplication := 0 },
    { output := 21, output1 := 22, AttachedToDesktop := true, left := 0, top := 0,
      right := 1920, bottom := 1080, duplicate_hr := 0, duplication := 33 } ]

/-! ## seven_dwm_injected.cpp: the agent's communicator window -/

/-- The Windows message `WM_COPYDATA`. -/
def WM_COPYDATA : Nat := 0x004A

/-- The Windows message `WM_TIMER`. -/
def WM_TIMER : Nat := 0x0113

/-- The message `WM_APP_KEEPALIVE` of `seven_dwm_injected.hpp`. -/
def WM_APP_KEEPALIVE : Nat := 0x8002

/-- The message `WM_APP_NEWTEXTURE` of `seven_dwm_injected.hpp`. -/
def WM_APP_NEWTEXTURE : Nat := 0x8003

/-- The message `WM_APP_INJECTED` of `seven_dwm_injected.hpp`. -/
def WM_APP_INJECTED : Nat := 0x8004

/-- The identifier `COPYDATA_ID_LOG` of `seven_dwm_injected.hpp`. -/
def COPYDATA_ID_LOG : Nat := 1

/-- The identifier `COPYDATA_ID_NEWSCREEN` of `seven_dwm_injected.hpp`. -/
def COPYDATA_ID_NEWSCREEN : Nat := 2

/-- The class `Communicator` of the agent: its only data member. -/
structure Communicator where
  m_lastKeepAlive : Nat
deriving DecidableEq, Repr

/-- One message delivered to the agent's communicator: the tick count `GetTickCount` returns
while it is handled, the message, and for `WM_COPYDATA` the `COPYDATASTRUCT` that `lp`
points to (`dwData` and the rectangle in `lpData`). -/
structure AgentMessage where
  GetTickCount : Nat
  msgid        : Nat
  wp           : Nat := 0
  lp           : Nat := 0
  dwData       : Nat := 0
  left         : Int := 0
  top          : Int := 0
  right        : Int := 0
  bottom       : Int := 0
deriving DecidableEq, Repr

namespace Communicator

/-- The constant `CHECK_KEEPALIVE_TIMER_ID`. -/
def CHECK_KEEPALIVE_TIMER_ID : Nat := 42

/-- The constructor as far as the watchdog goes: `m_lastKeepAlive(GetTickCount())`. -/
def create (GetTickCount : Nat) : Communicator :=
  { m_lastKeepAlive := GetTickCount % 2 ^ 32 }

/-- The handler `onCopydata(data)`. -/
def onCopydata (a : Agent) (m : AgentMessage) : Agent :=
  if m.dwData = COPYDATA_ID_NEWSCREEN then
    Agent.onCopydata_NEWSCREEN a m.left m.top m.right m.bottom
  else a

/-- The handler `onKeepAlive()`. -/
def onKeepAlive (GetTickCount : Nat) (c : Communicator) : Communicator :=
  { c with m_lastKeepAlive := GetTickCount % 2 ^ 32 }

/-- The handler `onCheckKeepAlive()`: the exit codes passed to `PostQuitMessage`.  The
subtraction is done on `DWORD`s. -/
def onCheckKeepAlive (GetTickCount : Nat) (c : Communicator) : List Int :=
  if (GetTickCount % 2 ^ 32 + 2 ^ 32 - c.m_lastKeepAlive) % 2 ^ 32 > 2000 then [-1] else []

/-- The member `handleMessage(msgid, wp, lp)`: the communicator and the agent's globals
afterwards, what the agent did, and the exit codes passed to `PostQuitMessage`. -/
def handleMessage (c : Communicator) (a : Agent) (m : AgentMessage) :
    Communicator × Agent × List AgentEvent × List Int :=
  if m.msgid = WM_COPYDATA then (c, onCopydata a m, [], [])
  else if m.msgid = WM_APP_NEWTEXTURE then
    (c, (Agent.onNewTexture a m.lp).1, (Agent.onNewTexture a m.lp).2, [])
  else if m.msgid = WM_APP_KEEPALIVE then (onKeepAlive m.GetTickCount c, a, [], [])
  else if m.msgid = WM_TIMER ∧ m.wp = CHECK_KEEPALIVE_TIMER_ID then
    (c, a, [], onCheckKeepAlive m.GetTickCount c)
  else (c, a, [], [])

/-- The communicator handling a sequence of messages: the final state and all exit codes
passed to `PostQuitMessage`. -/
def handleAll : Communicator → Agent → List AgentMessage → Communicator × Agent × List Int
  | c, a, [] => (c, a, [])
  | c, a, m :: rest =>
    let r := handleMessage c a m
    let q := handleAll r.1 r.2.1 rest
    (q.1, q.2.1, r.2.2.2 ++ q.2.2)

end Communicator

/-- The tick count of the most recent `WM_APP_KEEPALIVE` among the messages, or the tick count
of the communicator's creation if there is none, as a `DWORD`. -/
def mostRecentKeepAlive (created : Nat) (msgs : List AgentMessage) : Nat :=
  match (msgs.filter (fun m => m.msgid = WM_APP_KEEPALIVE)).getLast? with
  | some m => m.GetTickCount % 2 ^ 32
  | none => created % 2 ^ 32

/-! ## logger.cpp -/

/-- The function `std::isspace` in the "C" locale, on a byte. -/
def isspace (c : Nat) : Bool :=
  c = 32 || (9 ≤ c && c ≤ 13)

/-- The function `ltrim`: erase from the beginning up to the first byte that is no space. -/
def ltrim (s : List Nat) : List Nat :=
  s.dropWhile isspace

/-- The function `rtrim`: erase from behind the last byte that is no space up to the end. -/
def rtrim (s : List Nat) : List Nat :=
  (s.reverse.dropWhile isspace).reverse

/-- The function `trim`. -/
def trim (s : List Nat) : List Nat :=
  ltrim (rtrim s)

/-- What a `const char *` handed out by `std::string::c_str()` shows its reader: the bytes up to
the first NUL. -/
def c_str (s : List Nat) : List Nat :=
  s.takeWhile (fun c => c ≠ 0)

/-- The globals `g_handler` and `g_userdata` (0 is `nullptr`) and the contents of the
`MyLogger` string buffer, as bytes. -/
structure Logger where
  g_handler  : Nat := 0
  g_userdata : Nat := 0
  buffer     : List Nat := []
deriving DecidableEq, Repr

/-- What the logger does to the outside: the calls of handlers (function, message, userdata)
and the texts written to `stderr`. -/
structure LogOutput where
  handlerCalls : List (Nat × List Nat × Nat) := []
  stderr       : List (List Nat) := []
deriving DecidableEq, Repr

/-- The exported `SV_SetLogHandler(handler, userdata)`. -/
def SV_SetLogHandler (l : Logger) (handler userdata : Nat) : Logger :=
  { l with g_handler := handler, g_userdata := userdata }

namespace Logger

/-- Text streamed into `logger` lands in the string buffer. -/
def write (l : Logger) (text : List Nat) : Logger :=
  { l with buffer := l.buffer ++ text }

/-- The member `MyLogger::sync()`, run by a flush of the stream (`std::endl`). -/
def sync (l : Logger) (out : LogOutput) : Logger × LogOutput :=
  let out1 : LogOutput :=
    if l.g_handler ≠ 0 then
      let msg := trim l.buffer
      { out with handlerCalls := out.handlerCalls ++ [(l.g_handler, c_str msg, l.g_userdata)] }
    else out
  ({ l with buffer := [] }, out1)

end Logger

/-! ## util.hpp: the text of an `HRESULT` -/

namespace util

/-- The function `wcsdup_to_codepage(codepage, utf16)`.  `converted` is what
`WideCharToMultiByte` makes of the NUL-terminated input, without the terminator; `none`
when the call fails.  With `cchWideChar = -1` the size returned counts the terminating
NUL, the string is resized to it and filled with the text and the NUL. -/
def wcsdup_to_codepage (converted : Option (List Nat)) : List Nat :=
  match converted with
  | none => []
  | some text =>
    let needed_buffer := text.length + 1
    (text ++ [0]).take needed_buffer

/-- The function `wcsdup_to_utf8(utf16)`. -/
def wcsdup_to_utf8 (converted : Option (List Nat)) : List Nat :=
  wcsdup_to_codepage converted

/-- The function `hresult_to_utf8(hr)`.  `systemMessage hr` is the text `FormatMessage` finds
for `hr`, converted to UTF-8. -/
def hresult_to_utf8 (systemMessage : Nat → Option (List Nat)) (hr : Nat) : List Nat :=
  wcsdup_to_utf8 (systemMessage hr)

end util

/-- The bytes of an ASCII text. -/
def asciiBytes (text : String) : List Nat :=
  text.toList.map Char.toNat

/-- The Windows SDK constant `E_INVALIDARG`, as the unsigned value of the `HRESULT`. -/
def E_INVALIDARG : Nat := 0x80070057

/-- The system message of `E_INVALIDARG`; like every system message it ends in CR LF. -/
def sampleSystemMessage (hr : Nat) : Option (List Nat) :=
  if hr = E_INVALIDARG then some (asciiBytes "The parameter is incorrect." ++ [13, 10])
  else some [13, 10]

/-- The logger with handler 7 and userdata 9 installed, after
`logger << "Failed: AcquireNextFrame: " << util::hresult_to_utf8(hr)` for `E_INVALIDARG` and
the line break written by `std::endl`, before the flush. -/
def sampleLogLine : Logger :=
  ((((SV_SetLogHandler {} 7 9).write (asciiBytes "Failed: AcquireNextFrame: ")).write
    (util.hresult_to_utf8 sampleSystemMessage E_INVALIDARG)).write [10])

/-! ## renderer.hpp: resize, reset, render and the destructor -/

/-- The Windows structure `RECT`. -/
structure RECT where
  left   : Int
  top    : Int
  right  : Int
  bottom : Int
deriving DecidableEq, Repr

/-- What the renderer does to the outside, in order: log lines, the calls it makes on its
source, and the calls on the device and the swap chain. -/
inductive RenderEvent where
  /-- A line written to the logger. -/
  | log (line : String)
  /-- A `Release` made by a smart handle that is cleared, reassigned or destroyed. -/
  | Release (p : Ptr)
  /-- The call `m_source.reinit(m_device, x, y, w, h)`. -/
  | source_reinit (device : Ptr) (x y w h : Int)
  /-- The call `m_source.createDesktopTexture()`. -/
  | source_createDesktopTexture
  /-- The call `m_source.createCursorTexture()`. -/
  | source_createCursorTexture
  /-- The call `m_source.acquireFrame()`. -/
  | source_acquireFrame
  /-- The call `m_source.updateDesktop(m_desktopTexture)`. -/
  | source_updateDesktop (tex : Ptr)
  /-- The call `m_source.updateCursor(m_cursorTexture, ...)`. -/
  | source_updateCursor (tex : Ptr)
  /-- The call `m_source.releaseFrame()`. -/
  | source_releaseFrame
  /-- The call `updateCursorPosition()` and the vertices it wrote, if any. -/
  | updateCursorPosition (vertices : Option (List VERTEX))
  /-- The device call `OMSetRenderTargets(count, &target, nullptr)`. -/
  | OMSetRenderTargets (count : Nat) (target : Ptr)
  /-- The swap-chain call `ResizeBuffers(0, w, h, DXGI_FORMAT_UNKNOWN, 0)`. -/
  | ResizeBuffers (w h : Int)
  /-- The swap-chain call `GetBuffer(0, ...)`. -/
  | GetBuffer
  /-- The device call `CreateRenderTargetView(buffer, nullptr, ...)`. -/
  | CreateRenderTargetView (buffer : Ptr)
  /-- The device call `RSSetViewports(1, &viewport)` with the viewport width and height. -/
  | RSSetViewports (w h : Nat)
  /-- The device call `CreateShaderResourceView(tex, nullptr, ...)`. -/
  | CreateShaderResourceView (tex : Ptr)
  /-- The device call `CreateBuffer` for a vertex buffer of six vertices. -/
  | CreateBuffer
  /-- The texture call `GetDesc`. -/
  | GetDesc (tex : Ptr)
  /-- The device call `ClearRenderTargetView(target, gray)`. -/
  | ClearRenderTargetView (target : Ptr)
  /-- The device call `IASetVertexBuffers(0, 1, &buffer, &stride, &offset)`. -/
  | IASetVertexBuffers (buffer : Ptr)
  /-- The device call `IASetPrimitiveTopology(D3D10_PRIMITIVE_TOPOLOGY_TRIANGLELIST)`. -/
  | IASetPrimitiveTopology
  /-- The device call `PSSetShaderResources(0, 1, &srv)`. -/
  | PSSetShaderResources (srv : Ptr)
  /-- The device call `Draw(count, start)`. -/
  | Draw (count start : Nat)
  /-- The swap-chain call `Present(sync, flags)`. -/
  | Present (sync flags : Nat)
  /-- The device call `ClearState()`. -/
  | ClearState
deriving DecidableEq

/-- The member functions the template parameter `TSource` of `Renderer` has to supply, on a
source state `σ`.  Every one answers `none` when it dereferences a null pointer. -/
structure SourceOps (σ : Type) where
  reinit               : σ → Ptr → Int → Int → Int → Int → Option σ
  createDesktopTexture : σ → Option (σ × Ptr)
  createCursorTexture  : σ → Option (σ × Ptr)
  acquireFrame         : σ → Option σ
  updateDesktop        : σ → Ptr → Option σ
  updateCursor         : σ → Ptr → Int → Int → Bool → Option (σ × Int × Int × Bool)
  releaseFrame         : σ → Option σ

/-- What the graphics runtime answers during `Renderer::resize`. -/
structure ResizeEnv where
  ResizeBuffers          : Nat
  GetBuffer              : Except Nat Ptr
  CreateRenderTargetView : Except Nat Ptr

/-- What the graphics runtime answers during `Renderer::reset`. -/
structure ResetEnv where
  desktopSrv     : Except Nat Ptr
  desktopVBuffer : Except Nat Ptr
  cursorSrv      : Except Nat Ptr
  cursorWidth    : Nat
  cursorHeight   : Nat
  cursorVBuffer  : Except Nat Ptr

/-- The pointer an out parameter holds after a call: the object on success, `nullptr` after
a failure (the smart handle was cleared before the call). -/
def outPtr (answer : Except Nat Ptr) : Ptr :=
  match answer with
  | .ok p => p
  | .error _ => 0

/-- The log line written after a failed call, none after a successful one. -/
def logFailure (describe : Nat → String) (text : String) (answer : Except Nat Ptr) :
    List RenderEvent :=
  match answer with
  | .ok _ => []
  | .error hr => [.log (text ++ describe hr)]

/-- The `Release` a smart handle makes when it lets go of what it holds. -/
def releaseOf (p : com_ptr) : List RenderEvent :=
  if p.m_ptr ≠ 0 then [.Release p.m_ptr] else []

namespace Renderer

/-- The member `resize(cr)`.  `none` when a null `m_swap` is dereferenced. -/
def resize (describe : Nat → String) (env : ResizeEnv) (r : Renderer) (cr : RECT) :
    Option (Renderer × List RenderEvent) :=
  if r.m_device.m_ptr = 0 then some (r, [])
  else
    let ev1 : List RenderEvent := [.OMSetRenderTargets 0 0] ++ releaseOf r.m_renderTarget
    if r.m_swap.m_ptr = 0 then none
    else
      let ev2 : List RenderEvent :=
        [.ResizeBuffers (cr.right - cr.left) (cr.bottom - cr.top)]
          ++ (if FAILED env.ResizeBuffers then
                [.log ("Failed to resize buffers :( " ++ describe env.ResizeBuffers)] else [])
      let backBuffer : com_ptr := { m_ptr := outPtr env.GetBuffer }
      let ev3 : List RenderEvent :=
        [.GetBuffer] ++ logFailure describe "Failed to get back buffer :( " env.GetBuffer
      let target : com_ptr := { m_ptr := outPtr env.CreateRenderTargetView }
      let ev4 : List RenderEvent :=
        [.CreateRenderTargetView backBuffer.m_ptr]
          ++ logFailure describe "Failed to create new render target view :( "
              env.CreateRenderTargetView
      let ev5 : List RenderEvent :=
        [.OMSetRenderTargets 1 target.m_ptr,
         .RSSetViewports ((cr.right - cr.left) % 2 ^ 32).toNat ((cr.bottom - cr.top) % 2 ^ 32).toNat]
      some ({ r with m_renderTarget := target },
        ev1 ++ ev2 ++ ev3 ++ ev4 ++ ev5 ++ releaseOf backBuffer)

/-- The member `setupDesktopTextureAndVertices()`: the result, or `none` when a null pointer
is dereferenced. -/
def setupDesktopTextureAndVertices {σ : Type} (ops : SourceOps σ) (describe : Nat → String)
    (env : ResetEnv) (r : Renderer) (src : σ) :
    Option (Renderer × σ × List RenderEvent × Bool) :=
  match ops.createDesktopTexture src with
  | none => none
  | some (src1, tex) =>
    let ev1 : List RenderEvent := [.source_createDesktopTexture] ++ releaseOf r.m_desktopTexture
    let r1 := { r with m_desktopTexture := com_ptr.take tex }
    if r1.m_desktopTexture.m_ptr = 0 then some (r1, src1, ev1, false)
    else if r1.m_device.m_ptr = 0 then none
    else
      let ev2 : List RenderEvent := releaseOf r1.m_desktopSrv
        ++ [.CreateShaderResourceView r1.m_desktopTexture.m_ptr]
        ++ logFailure describe "Faile: CreateShaderResourceView: " env.desktopSrv
      let r2 := { r1 with m_desktopSrv := { m_ptr := outPtr env.desktopSrv } }
      match env.desktopSrv with
      | .error _ => some (r2, src1, ev1 ++ ev2, false)
      | .ok _ =>
        let ev3 : List RenderEvent := releaseOf r2.m_desktopVBuffer ++ [.CreateBuffer]
          ++ logFailure describe "FAILED: CreateBuffer (desktopVBuffer): " env.desktopVBuffer
        let r3 := { r2 with m_desktopVBuffer := { m_ptr := outPtr env.desktopVBuffer } }
        match env.desktopVBuffer with
        | .error _ => some (r3, src1, ev1 ++ ev2 ++ ev3, false)
        | .ok _ => some (r3, src1, ev1 ++ ev2 ++ ev3, true)

/-- The member `setupCursorTextureAndVertices()`: the result, or `none` when a null pointer is
dereferenced. -/
def setupCursorTextureAndVertices {σ : Type} (ops : SourceOps σ) (describe : Nat → String)
    (env : ResetEnv) (r : Renderer) (src : σ) :
    Option (Renderer × σ × List RenderEvent × Bool) :=
  match ops.createCursorTexture src with
  | none => none
  | some (src1, tex) =>
    let ev1 : List RenderEvent := [.source_createCursorTexture] ++ releaseOf r.m_cursorTexture
    let r1 := { r with m_cursorTexture := com_ptr.take tex }
    if r1.m_cursorTexture.m_ptr = 0 then some (r1, src1, ev1, false)
    else if r1.m_device.m_ptr = 0 then none
    else
      let ev2 : List RenderEvent := releaseOf r1.m_cursorSrv
        ++ [.CreateShaderResourceView r1.m_cursorTexture.m_ptr]
        ++ logFailure describe "Fail: CreateShaderResourceView: " env.cursorSrv
      let r2 := { r1 with m_cursorSrv := { m_ptr := outPtr env.cursorSrv } }
      match env.cursorSrv with
      | .error _ => some (r2, src1, ev1 ++ ev2, false)
      | .ok _ =>
        let r3 := { r2 with m_cursorWidth := env.cursorWidth, m_cursorHeight := env.cursorHeight }
        let ev3 : List RenderEvent :=
          [.GetDesc r3.m_cursorTexture.m_ptr,
           .log ("Cursor size: width=" ++ toString r3.m_cursorWidth ++ " height="
             ++ toString r3.m_cursorHeight)]
          ++ releaseOf r3.m_cursorVBuffer ++ [.CreateBuffer]
          ++ logFailure describe "FAILED: CreateBuffer (cursorVBuffer): " env.cursorVBuffer
        let r4 := { r3 with m_cursorVBuffer := { m_ptr := outPtr env.cursorVBuffer } }
        match env.cursorVBuffer with
        | .error _ => some (r4, src1, ev1 ++ ev2 ++ ev3, false)
        | .ok _ => some (r4, src1, ev1 ++ ev2 ++ ev3, true)

/-- The member `reset(x, y, w, h)`.  `none` when a null pointer is dereferenced, by the source
or by the renderer. -/
def reset {σ : Type} (ops : SourceOps σ) (describe : Nat → String) (env : ResetEnv)
    (r : Renderer) (src : σ) (x y w h : Int) : Option (Renderer × σ × List RenderEvent) :=
  let r1 := { r with m_desktopWidth := w, m_desktopHeight := h }
  let ev1 : List RenderEvent :=
    [.log ("Resetting renderer to screen x=" ++ toString x ++ " y=" ++ toString y ++ " w="
        ++ toString w ++ " h=" ++ toString h),
     .source_reinit r1.m_device.m_ptr x y w h]
  match ops.reinit src r1.m_device.m_ptr x y w h with
  | none => none
  | some src1 =>
    match setupDesktopTextureAndVertices ops describe env r1 src1 with
    | none => none
    | some (r2, src2, ev2, _) =>
      match setupCursorTextureAndVertices ops describe env r2 src2 with
      | none => none
      | some (r3, src3, ev3, _) => some (r3, src3, ev1 ++ ev2 ++ ev3)

/-- The member `render()`.  `mapSucceeded` is whether the cursor vertex buffer can be mapped.
`none` when a null pointer is dereferenced. -/
def render {σ : Type} (ops : SourceOps σ) (mapSucceeded : Bool) (r : Renderer) (src : σ) :
    Option (Renderer × σ × List RenderEvent) :=
  if r.m_device.m_ptr = 0 ∨ r.m_renderTarget.m_ptr = 0 then some (r, src, [])
  else
    match ops.acquireFrame src with
    | none => none
    | some src1 =>
      match ops.updateDesktop src1 r.m_desktopTexture.m_ptr with
      | none => none
      | some src2 =>
        match ops.updateCursor src2 r.m_cursorTexture.m_ptr r.m_cursorX r.m_cursorY
            r.m_cursorVisible with
        | none => none
        | some (src3, cx, cy, vis) =>
          let r1 := { r with m_cursorX := cx, m_cursorY := cy, m_cursorVisible := vis }
          match ops.releaseFrame src3 with
          | none => none
          | some src4 =>
            let ev1 : List RenderEvent :=
              [.source_acquireFrame, .source_updateDesktop r.m_desktopTexture.m_ptr,
               .source_updateCursor r.m_cursorTexture.m_ptr,
               .updateCursorPosition (r1.updateCursorPosition mapSucceeded),
               .source_releaseFrame,
               .ClearRenderTargetView r1.m_renderTarget.m_ptr,
               .IASetVertexBuffers r1.m_desktopVBuffer.m_ptr, .IASetPrimitiveTopology,
               .PSSetShaderResources r1.m_desktopSrv.m_ptr, .Draw 6 0]
            let ev2 : List RenderEvent :=
              if r1.m_cursorVisible then
                [.IASetVertexBuffers r1.m_cursorVBuffer.m_ptr, .IASetPrimitiveTopology,
                 .PSSetShaderResources r1.m_cursorSrv.m_ptr, .Draw 6 0]
              else []
            if r1.m_swap.m_ptr = 0 then none
            else some (r1, src4, ev1 ++ ev2 ++ [.Present 1 0])

/-- The destructor `~Renderer()`: its body is `m_device->ClearState();`.  `none` when the null
`m_device` is dereferenced. -/
def destroy (r : Renderer) : Option (List RenderEvent) :=
  if r.m_device.m_ptr = 0 then none
  else some [.ClearState]

end Renderer

/-- The modern source as the renderer's `TSource`, as far as it is embedded: `reinit` is
`DuplicationSource::reinit` in the environment given, `releaseFrame` is
`DuplicationSource::releaseFrame`; the other members are taken from `rest`. -/
def DuplicationSource.ops (describe : Nat → String) (outputs : Option (List DXGIOutput))
    (rest : SourceOps (DuplicationSource × Effects)) : SourceOps (DuplicationSource × Effects) :=
  { rest with
    reinit := fun st device x y w h =>
      DuplicationSource.reinit describe outputs st.1 st.2 device x y w h
    releaseFrame := fun st => some (DuplicationSource.releaseFrame st.1 st.2) }

/-- A source whose members do nothing and never fault. -/
def SourceOps.idle (σ : Type) : SourceOps σ :=
  { reinit := fun s _ _ _ _ _ => some s
    createDesktopTexture := fun s => some (s, 0)
    createCursorTexture := fun s => some (s, 0)
    acquireFrame := fun s => some s
    updateDesktop := fun s _ => some s
    updateCursor := fun s _ x y v => some (s, x, y, v)
    releaseFrame := fun s => some s }

/-- A graphics runtime in which every call of `reset` succeeds. -/
def sampleResetEnv : ResetEnv :=
  { desktopSrv := .ok 41, desktopVBuffer := .ok 42, cursorSrv := .ok 43, cursorWidth := 256,
    cursorHeight := 256, cursorVBuffer := .ok 44 }

/-- A graphics runtime in which every call of `resize` succeeds. -/
def sampleResizeEnv : ResizeEnv :=
  { ResizeBuffers := 0, GetBuffer := .ok 45, CreateRenderTargetView := .ok 46 }

/-! ## injection.cpp -/

/-- One answer of `CreateToolhelp32Snapshot(TH32CS_SNAPMODULE, pid)` followed by the module
walk. -/
inductive Snapshot where
  /-- The snapshot failed with `ERROR_BAD_LENGTH`: the caller retries. -/
  | bad_length
  /-- The snapshot failed otherwise, or `Module32First` failed. -/
  | failed
  /-- The modules of the process in snapshot order: `szModule` and `modBaseAddr`. -/
  | modules (entries : List (String × Nat))
deriving DecidableEq, Repr

/-- The function `towlower` on the code of a character, for the letters `A` to `Z`. -/
def towlower (c : Nat) : Nat :=
  if 65 ≤ c ∧ c ≤ 90 then c + 32 else c

/-- The test `_wcsicmp(a, b) == 0`: equal up to case. -/
def wcsicmp_eq (a b : String) : Bool :=
  a.toList.map (fun c => towlower c.toNat) == b.toList.map (fun c => towlower c.toNat)

/-- The Windows constant `INFINITE`. -/
def INFINITE : Nat := 0xFFFFFFFF

/-- The Windows constant `STILL_ACTIVE`, the exit code reported for a running thread. -/
def STILL_ACTIVE : Nat := 259

/-- The Windows constant `MAX_PATH`. -/
def MAX_PATH : Nat := 260

/-- What `call_remote_func` does to the outside, in order. -/
inductive RemoteEvent where
  /-- A line written to the logger. -/
  | log (line : String)
  /-- The call `OpenProcess(rights, FALSE, target)`. -/
  | OpenProcess (target : Nat)
  /-- The call `VirtualAllocEx(process, NULL, size, ...)`. -/
  | VirtualAllocEx (process size : Nat)
  /-- The call `WriteProcessMemory(process, remote, data, size, nullptr)`. -/
  | WriteProcessMemory (process remote data size : Nat)
  /-- The call `CreateRemoteThread(process, 0, 0, start, argument, 0, NULL)`. -/
  | CreateRemoteThread (process start argument : Nat)
  /-- The call `WaitForSingleObject(thread, timeout)`. -/
  | WaitForSingleObject (thread timeout : Nat)
  /-- The call `GetExitCodeThread(thread, returnValue)` with the value it is handed as the
  thread handle. -/
  | GetExitCodeThread (thread : Nat)
  /-- The call `VirtualFreeEx(process, remote, 0, MEM_RELEASE)`. -/
  | VirtualFreeEx (process remote : Nat)
  /-- The call `CloseHandle(handle)`. -/
  | CloseHandle (handle : Nat)
deriving DecidableEq, Repr

/-- What the system answers during one call of `call_remote_func`.  `threadRuntime` is the
time in ms the remote thread needs, `none` if it never finishes.  `threadHolder` is the
address of the local `thread`, a `util::raii<HANDLE>`: the code hands `thread` itself to
`GetExitCodeThread`, which `operator T*()` turns into that address, where the wait is
handed `*thread`, the handle.  `GetExitCodeThread h` is what the call stores through
`returnValue` when it is handed `h`: `none` when `h` is not the handle of a thread, so that
the call fails and stores nothing. -/
structure RemoteCallEnv where
  snapshots          : List Snapshot
  OpenProcess        : Nat
  VirtualAllocEx     : Nat
  WriteProcessMemory : Bool
  CreateRemoteThread : Nat
  GetLastError       : Nat
  threadRuntime      : Option Nat
  threadHolder       : Nat
  GetExitCodeThread  : Nat → Option Nat

/-- What a call of `call_remote_func` comes to: whether it returns at all, the value returned,
what it did, and the contents of the memory `returnValue` points to (`none` for a null
`returnValue`). -/
structure RemoteCall where
  returned    : Bool
  result      : Bool
  events      : List RemoteEvent
  returnValue : Option Nat
deriving DecidableEq, Repr

namespace injection

/-- The function `findRemoteBaseAddress(processId, moduleBaseName)`: `none` when the retry loop
never gets an answer other than `ERROR_BAD_LENGTH`. -/
def findRemoteBaseAddress : List Snapshot → String → Option Nat
  | [], _ => none
  | .bad_length :: rest, moduleBaseName => findRemoteBaseAddress rest moduleBaseName
  | .failed :: _, _ => some 0
  | .modules entries :: _, moduleBaseName =>
    match entries.find? (fun me => wcsicmp_eq me.1 moduleBaseName) with
    | some me => some (me.2 % 2 ^ 32)
    | none => some 0

/-- The function `process_id_for_name(name)` on the process snapshot (`szExeFile`,
`th32ProcessID`). -/
def process_id_for_name (processes : List (String × Nat)) (name : String) : Nat :=
  match processes.find? (fun pe => wcsicmp_eq pe.1 name) with
  | some pe => pe.2 % 2 ^ 32
  | none => 0

/-- The function `is_dll_loaded(processId, dllBaseName)`; `none` when it never returns. -/
def is_dll_loaded (snapshots : List Snapshot) (dllBaseName : String) : Option Bool :=
  (findRemoteBaseAddress snapshots dllBaseName).map (fun base => decide (base ≠ 0))

/-- The function `get_function_offset(dllBaseName, functionName)`; the difference of the two
addresses is taken in 32 bits. -/
def get_function_offset (GetModuleHandle : String → Nat) (GetProcAddress : Nat → String → Nat)
    (dllBaseName functionName : String) : Nat :=
  let dll := GetModuleHandle dllBaseName
  if dll = 0 then 0
  else
    let func := GetProcAddress dll functionName
    if func = 0 then 0
    else (func % 2 ^ 32 + 2 ^ 32 - dll % 2 ^ 32) % 2 ^ 32

/-- The destructors that run when `call_remote_func` returns, in reverse order of
declaration: `argumentMemory` (process and memory it holds), `thread`, `process`.  A
`util::raii<HANDLE>` closes whatever is not `INVALID_HANDLE_VALUE`. -/
def cleanup (memProcess memory thread process : Nat) : List RemoteEvent :=
  (if memProcess ≠ 0 ∧ memory ≠ 0 then [.VirtualFreeEx memProcess memory] else [])
  ++ (if thread ≠ INVALID_HANDLE_VALUE then [.CloseHandle thread] else [])
  ++ (if process ≠ INVALID_HANDLE_VALUE then [.CloseHandle process] else [])

/-- The function `call_remote_func(target, dllBaseName, functionOffset, argument, argumentLength,
returnValue, wait)`.  `returnValue` is the contents of the memory the pointer of that
name points to, `none` for a null pointer. -/
def call_remote_func (env : RemoteCallEnv) (target : Nat) (dllBaseName : String)
    (functionOffset argument argumentLength : Nat) (returnValue : Option Nat) (wait : Nat) :
    RemoteCall :=
  match findRemoteBaseAddress env.snapshots dllBaseName with
  | none => { returned := false, result := false, events := [], returnValue := returnValue }
  | some dllOffset =>
    if dllOffset = 0 then
      { returned := true, result := false,
        events := cleanup 0 0 INVALID_HANDLE_VALUE INVALID_HANDLE_VALUE,
        returnValue := returnValue }
    else
      let process := env.OpenProcess
      let ev1 : List RemoteEvent := [.OpenProcess target]
      if process = 0 then
        { returned := true, result := false,
          events := ev1 ++ [.log ("Failed to open process " ++ toString target)]
            ++ cleanup 0 0 INVALID_HANDLE_VALUE process,
          returnValue := returnValue }
      else
        let memory := if argumentLength ≠ 0 then env.VirtualAllocEx else 0
        let memProcess := if argumentLength ≠ 0 then process else 0
        let ev2 : List RemoteEvent :=
          if argumentLength ≠ 0 then [.VirtualAllocEx process argumentLength] else []
        if argumentLength ≠ 0 ∧ memory = 0 then
          { returned := true, result := false,
            events := ev1 ++ ev2 ++ [.log "Failed to allocate remote memory"]
              ++ cleanup memProcess memory INVALID_HANDLE_VALUE process,
            returnValue := returnValue }
        else
          let ev3 : List RemoteEvent :=
            if argumentLength ≠ 0 then
              [.WriteProcessMemory process memory argument (min argumentLength argumentLength)]
            else []
          if argumentLength ≠ 0 ∧ env.WriteProcessMemory = false then
            { returned := true, result := false,
              events := ev1 ++ ev2 ++ ev3 ++ [.log "Failed to fill remote memory"]
                ++ cleanup memProcess memory INVALID_HANDLE_VALUE process,
              returnValue := returnValue }
          else
            let remoteArg := if argumentLength ≠ 0 then memory else argument
            let func := (dllOffset + functionOffset) % 2 ^ 32
            let thread := env.CreateRemoteThread
            let ev4 : List RemoteEvent := [.CreateRemoteThread process func remoteArg]
            if thread = 0 then
              { returned := true, result := false,
                events := ev1 ++ ev2 ++ ev3 ++ ev4
                  ++ [.log ("Failed to start remote thread: " ++ toString env.GetLastError)]
                  ++ cleanup memProcess memory thread process,
                returnValue := returnValue }
            else
              let timeout := if argumentLength ≠ 0 then INFINITE else wait % 2 ^ 32
              let waits := decide (wait % 2 ^ 32 ≠ 0 ∨ argumentLength ≠ 0)
              let ev5 : List RemoteEvent :=
                if waits then [.WaitForSingleObject thread timeout] else []
              if waits ∧ timeout = INFINITE ∧ env.threadRuntime = none then
                { returned := false, result := false, events := ev1 ++ ev2 ++ ev3 ++ ev4 ++ ev5,
                  returnValue := returnValue }
              else
                let ev6 : List RemoteEvent :=
                  if returnValue.isSome then [.GetExitCodeThread env.threadHolder] else []
                { returned := true, result := true,
                  events := ev1 ++ ev2 ++ ev3 ++ ev4 ++ ev5 ++ ev6
                    ++ cleanup memProcess memory thread process,
                  returnValue := returnValue.map (fun old =>
                    (env.GetExitCodeThread env.threadHolder).getD old) }

end injection

/-- The remote threads started: process, start address and argument of every
`CreateRemoteThread`. -/
def threadStarts : List RemoteEvent → List (Nat × Nat × Nat)
  | [] => []
  | .CreateRemoteThread p s a :: rest => (p, s, a) :: threadStarts rest
  | _ :: rest => threadStarts rest

/-- The wait of `call_remote_func` times out: a wait is made, it is finite, and the remote
thread needs longer than the timeout. -/
def waitTimesOut (env : RemoteCallEnv) (argumentLength wait : Nat) : Prop :=
  argumentLength = 0 ∧ wait % 2 ^ 32 ≠ 0 ∧ wait % 2 ^ 32 ≠ INFINITE
    ∧ (match env.threadRuntime with
       | some t => wait % 2 ^ 32 < t
       | none => True)

/-- A target process with `kernel32.dll` at 0x76000000 in which everything succeeds; the remote
thread needs 5 s, so that `GetExitCodeThread` reports `STILL_ACTIVE` for its handle 104 and
fails for every other value; the local `thread` lives at 0x0028FE40. -/
def sampleRemoteEnv : RemoteCallEnv :=
  { snapshots := [.bad_length, .modules [("ntdll.dll", 0x77000000), ("KERNEL32.DLL", 0x76000000)]],
    OpenProcess := 100, VirtualAllocEx := 0x00A00000, WriteProcessMemory := true,
    CreateRemoteThread := 104, GetLastError := 0, threadRuntime := some 5000,
    threadHolder := 0x0028FE40,
    GetExitCodeThread := fun h => if h = 104 then some STILL_ACTIVE else none }

/-! ## The viewer's communicator window (`seven_dwm_source.cpp`) -/

/-- What the viewer's communicator does to the outside, in order. -/
inductive ViewerEvent where
  /-- A line written to the logger. -/
  | log (line : String)
  /-- Something done by `injection::call_remote_func`. -/
  | remote (e : RemoteEvent)
  /-- The call `PostMessage(hwnd, msgid, wp, lp)`. -/
  | PostMessage (hwnd msgid wp lp : Nat)
  /-- The call `SendMessage(hwnd, WM_COPYDATA, wp, &copy)` with the `dwData` and the rectangle
  the `COPYDATASTRUCT` carries. -/
  | SendMessage_COPYDATA (hwnd wp dwData : Nat) (data : RECT)
deriving DecidableEq, Repr

/-- The fields of `SevenDwmSource_DwmCommunicator`, with the window handle of its base class.
`m_ownDllPath` is the address of the path buffer; `m_ownDllBaseName` is the text after the last
backslash of the path, which the constructor is taken to have found. -/
structure SevenDwmSource_DwmCommunicator where
  hwnd             : Nat
  m_dwmWindow      : Nat := 0
  m_textureForDwm  : Nat := INVALID_HANDLE_VALUE
  m_screenForDwm   : RECT := { left := 0, top := 0, right := 0, bottom := 0 }
  m_ownDllPath     : Nat
  m_ownDllBaseName : String
deriving DecidableEq, Repr

/-- What the system answers during one keep-alive tick of the viewer: the process snapshot, the
module snapshots of the compositor that `is_dll_loaded` gets, the local module table, and the
answers during the two remote calls. -/
structure KeepAliveEnv where
  processes       : List (String × Nat)
  dwmSnapshots    : List Snapshot
  GetModuleHandle : String → Nat
  GetProcAddress  : Nat → String → Nat
  loadCall        : RemoteCallEnv
  entryCall       : RemoteCallEnv

/-- What one call of `onKeepAlive` comes to: whether it returns, the communicator afterwards
and what it did. -/
structure KeepAliveResult where
  returned : Bool
  comm     : SevenDwmSource_DwmCommunicator
  events   : List ViewerEvent
deriving DecidableEq, Repr

namespace SevenDwmSource_DwmCommunicator

/-- The constant `KEEPALIVE_TIMER_ID`. -/
def KEEPALIVE_TIMER_ID : Nat := 42

/-- The tail of `onKeepAlive`: `if (m_dwmWindow) PostMessage(m_dwmWindow, WM_APP_KEEPALIVE, 0, 0);
return TRUE;`. -/
def onKeepAlive_message (c : SevenDwmSource_DwmCommunicator) (events : List ViewerEvent) :
    KeepAliveResult :=
  { returned := true, comm := c,
    events := events
      ++ (if c.m_dwmWindow ≠ 0 then [.PostMessage c.m_dwmWindow WM_APP_KEEPALIVE 0 0] else []) }

/-- The method `onKeepAlive()`. -/
def onKeepAlive (env : KeepAliveEnv) (c : SevenDwmSource_DwmCommunicator) : KeepAliveResult :=
  let dwm := injection.process_id_for_name env.processes "dwm.exe"
  if dwm = 0 then
    onKeepAlive_message { c with m_dwmWindow := 0 } []
  else
    match injection.is_dll_loaded env.dwmSnapshots c.m_ownDllBaseName with
    | none => { returned := false, comm := c, events := [] }
    | some true => onKeepAlive_message c []
    | some false =>
      let ev0 : List ViewerEvent := [.log "Now injecting into DWM"]
      let c1 := { c with m_dwmWindow := 0 }
      let load_library_offset :=
        injection.get_function_offset env.GetModuleHandle env.GetProcAddress
          "kernel32.dll" "LoadLibraryW"
      let our_entry_point_offset :=
        injection.get_function_offset env.GetModuleHandle env.GetProcAddress
          c.m_ownDllBaseName "_SV_DWM_EntryPoint@4"
      if load_library_offset = 0 ∨ our_entry_point_offset = 0 then
        { returned := true, comm := c1,
          events := ev0 ++ [.log "FATAL: Entry point not found, can\x27t inject :("] }
      else
        let load := injection.call_remote_func env.loadCall dwm "kernel32.dll"
          load_library_offset c.m_ownDllPath (MAX_PATH * 2) none 0xFFFFFFFF
        let ev1 := ev0 ++ load.events.map ViewerEvent.remote
        if load.returned = false then
          { returned := false, comm := c1, events := ev1 }
        else if load.result = false then
          { returned := true, comm := c1,
            events := ev1 ++ [.log "FATAL: LoadLibraryW could not be executed :("] }
        else
          let entry := injection.call_remote_func env.entryCall dwm c.m_ownDllBaseName
            our_entry_point_offset c.hwnd 0 none 0
          let ev2 := ev1 ++ entry.events.map ViewerEvent.remote
          if entry.returned = false then
            { returned := false, comm := c1, events := ev2 }
          else
            onKeepAlive_message c1 ev2

/-- The method `sendTexture()`. -/
def sendTexture (c : SevenDwmSource_DwmCommunicator) : List ViewerEvent :=
  if c.m_dwmWindow ≠ 0 then [.PostMessage c.m_dwmWindow WM_APP_NEWTEXTURE 0 c.m_textureForDwm]
  else []

end SevenDwmSource_DwmCommunicator

/-- An injection is attempted: the line "Now injecting into DWM" is logged. -/
def attemptsInjection (events : List ViewerEvent) : Bool :=
  events.contains (.log "Now injecting into DWM")

/-- The remote calls of a sample tick on which the library is loaded into the compositor
(process 1234) but the thread for the entry point cannot be created. -/
def sampleEntryFails : KeepAliveEnv :=
  { processes := [("explorer.exe", 900), ("dwm.exe", 1234)],
    dwmSnapshots := [.modules [("dwm.exe", 0x00400000), ("kernel32.dll", 0x76000000)]],
    GetModuleHandle := fun name => if wcsicmp_eq name "kernel32.dll" then 0x75000000
      else if wcsicmp_eq name "screenview.dll" then 0x10000000 else 0,
    GetProcAddress := fun dll _ => dll + 0x1000,
    loadCall :=
      { snapshots := [.modules [("dwm.exe", 0x00400000), ("kernel32.dll", 0x76000000)]],
        OpenProcess := 100, VirtualAllocEx := 0x00A00000, WriteProcessMemory := true,
        CreateRemoteThread := 104, GetLastError := 0, threadRuntime := some 20,
        threadHolder := 0x0028FE40, GetExitCodeThread := fun _ => none },
    entryCall :=
      { snapshots := [.modules [("dwm.exe", 0x00400000), ("kernel32.dll", 0x76000000),
          ("screenview.dll", 0x10000000)]],
        OpenProcess := 108, VirtualAllocEx := 0, WriteProcessMemory := false,
        CreateRemoteThread := 0, GetLastError := 8, threadRuntime := none,
        threadHolder := 0x0028FE40, GetExitCodeThread := fun _ => none } }

/-- The next tick after `sampleEntryFails`: the compositor still runs and lists the library
among its modules; every remote call would succeed. -/
def sampleNextTick : KeepAliveEnv :=
  { sampleEntryFails with
    dwmSnapshots := [.modules [("dwm.exe", 0x00400000), ("kernel32.dll", 0x76000000),
      ("screenview.dll", 0x10000000)]],
    entryCall := { sampleEntryFails.entryCall with CreateRemoteThread := 112,
                                                    threadRuntime := some 1 } }

/-- The viewer's communicator of the samples: window 0x50, no agent connected. -/
def sampleCommunicator : SevenDwmSource_DwmCommunicator :=
  { hwnd := 0x50, m_ownDllPath := 0x00500000, m_ownDllBaseName := "screenview.dll" }

/-! ## Windows that delete themselves (`win32.hpp`, `win32.cpp`) -/

/-- The message `WM_DESTROY`. -/
def WM_DESTROY : Nat := 0x0002

/-- The anonymous enum of `win32::window::m_destroyState`. -/
inductive DestroyState where
  | DESTROY_NOT_ALLOWED
  | DESTROY_ALLOWED
  | DESTROYING
deriving DecidableEq, Repr

/-- The fields of `win32::window` the destruction goes by. -/
structure window where
  m_hwnd         : Nat := 0
  m_class        : Nat := 0
  m_destroyState : DestroyState := .DESTROY_NOT_ALLOWED
deriving DecidableEq, Repr

/-- What a `win32::window` does to the outside, in order. -/
inductive WindowEvent where
  /-- A line written to the logger. -/
  | log (line : String)
  /-- The call `std::terminate()`, which does not return. -/
  | terminate
  /-- The call `win32::call_soon(action, milliseconds)` whose action sets the state to
  `DESTROYING` and deletes the window object. -/
  | call_soon_delete (milliseconds : Nat)
  /-- The call `RegisterClassEx(&wndclass)`. -/
  | RegisterClassEx
  /-- The call `CreateWindowEx(...)` with the class atom. -/
  | CreateWindowEx (cls : Nat)
  /-- The call `SetWindowLongPtr(hwnd, GWLP_WNDPROC, thunk)`. -/
  | SetWindowLongPtr (hwnd : Nat)
  /-- The call `DestroyWindow(hwnd)`. -/
  | DestroyWindow (hwnd : Nat)
  /-- The call `UnregisterClass(MAKEINTATOM(cls), instance)`. -/
  | UnregisterClass (cls : Nat)
  /-- The virtual call `self->handleMessage(msgid, wp, lp)`. -/
  | handleMessage (msgid wp lp : Nat)
deriving DecidableEq, Repr

/-- What the system answers to a window: the results of `RegisterClassEx`, `CreateWindowEx` and
`UnregisterClass`, and the error code. -/
structure WindowEnv where
  RegisterClassEx : Nat
  CreateWindowEx  : Nat
  UnregisterClass : Bool
  GetLastError    : Nat
deriving DecidableEq, Repr

namespace window

/-- The constructor `window::window(...)`. -/
def create (env : WindowEnv) : window × List WindowEvent :=
  if env.RegisterClassEx = 0 then
    ({ m_class := 0 },
      [.RegisterClassEx, .log ("FAILED: RegisterClassEx: " ++ toString env.GetLastError)])
  else if env.CreateWindowEx = 0 then
    ({ m_class := env.RegisterClassEx, m_hwnd := 0 },
      [.RegisterClassEx, .CreateWindowEx env.RegisterClassEx,
       .log ("FAILED: CreateWindowEx: " ++ toString env.GetLastError)])
  else
    ({ m_class := env.RegisterClassEx, m_hwnd := env.CreateWindowEx },
      [.RegisterClassEx, .CreateWindowEx env.RegisterClassEx,
       .SetWindowLongPtr env.CreateWindowEx])

/-- The function `make_destroyable<T>(args...)`: construct, then allow destruction. -/
def make_destroyable (env : WindowEnv) : window × List WindowEvent :=
  let made := create env
  ({ made.1 with m_destroyState := .DESTROY_ALLOWED }, made.2)

/-- The function `WndProc(self, msgid, wp, lp)`.  After `std::terminate()` nothing follows. -/
def WndProc (self : window) (msgid wp lp : Nat) : window × List WindowEvent :=
  if msgid = WM_DESTROY then
    match self.m_destroyState with
    | .DESTROY_NOT_ALLOWED =>
      (self, [.log ("Illegally received WM_DESTROY outside of the win32::window destructor. "
        ++ "The class is corrupted now."), .terminate])
    | .DESTROY_ALLOWED => (self, [.call_soon_delete 0, .handleMessage msgid wp lp])
    | .DESTROYING => (self, [.handleMessage msgid wp lp])
  else (self, [.handleMessage msgid wp lp])

/-- The destructor `window::~window()`.  `DestroyWindow` sends `WM_DESTROY` to the window
procedure of an existing window before it returns. -/
def destroy (env : WindowEnv) (self : window) : window × List WindowEvent :=
  let first : window × List WindowEvent :=
    if self.m_destroyState ≠ .DESTROYING then
      let s := { self with m_destroyState := .DESTROYING }
      let sent := if s.m_hwnd ≠ 0 then WndProc s WM_DESTROY 0 0 else (s, [])
      (sent.1, [.DestroyWindow s.m_hwnd] ++ sent.2)
    else (self, [])
  (first.1, first.2 ++ [.UnregisterClass first.1.m_class]
    ++ (if env.UnregisterClass = false then
          [.log ("FAILED: UnregisterClass: " ++ toString env.GetLastError)]
        else []))

/-- The action handed to `call_soon` by `WndProc`:
`self->m_destroyState = DESTROYING; delete self;`. -/
def deferredDelete (env : WindowEnv) (self : window) : window × List WindowEvent :=
  destroy env { self with m_destroyState := .DESTROYING }

end window

/-- The number of deferred deletions scheduled. -/
def scheduledDeletions (events : List WindowEvent) : Nat :=
  (events.filter (fun e => match e with
    | .call_soon_delete _ => true
    | _ => false)).length

/-- The number of calls of `DestroyWindow`. -/
def destroyWindowCalls (events : List WindowEvent) : Nat :=
  (events.filter (fun e => match e with
    | .DestroyWindow _ => true
    | _ => false)).length

/-! ## Vocabulary of the statements about the hooked present -/

/-- The calls of the original `Present`: swap chain, sync interval and flags of every one. -/
def presentCalls : List AgentEvent → List (Nat × Nat × Nat)
  | [] => []
  | .truePresent swap sync flags :: rest => (swap, sync, flags) :: presentCalls rest
  | _ :: rest => presentCalls rest

/-- The swap chain's output is the second monitor, 1920x1080 to the right of the first. -/
def secondMonitorEnv (ticks : Nat) : PresentEnv :=
  { samplePresentEnv ticks with
    OutputGetDesc := .ok { AttachedToDesktop := true, left := 1920, top := 0, right := 3840,
                           bottom := 1080 } }

/-- The agent is told texture 77 and the first monitor, identifies swap chain 5 and opens its
target; then it is told the second monitor and swap chain 6 presents. -/
def sampleScreenChange : List AgentInput :=
  [.newTexture 77, .newScreen 0 0 1920 1080,
   .present (samplePresentEnv 100) 5 1 0, .present (samplePresentEnv 200) 5 1 0,
   .newScreen 1920 0 3840 1080, .present (secondMonitorEnv 300) 6 1 0]

/-! ## The viewer's communicator: what the source tells it -/

namespace SevenDwmSource_DwmCommunicator

/-- The method `sendNewTexture(sharedTexture)`. -/
def sendNewTexture (sharedTexture : Nat) (c : SevenDwmSource_DwmCommunicator) :
    SevenDwmSource_DwmCommunicator × List ViewerEvent :=
  let c1 := { c with m_textureForDwm := sharedTexture }
  (c1, c1.sendTexture)

end SevenDwmSource_DwmCommunicator

/-- A new frame: success, frame info with a present time, and the desktop image 55. -/
def sampleFrameAnswer : AcquireAnswer :=
  { hr := 0, info := some { LastPresentTime := 1 }, resource := 55 }

/-- The monitor is idle: `DXGI_ERROR_WAIT_TIMEOUT`, nothing written through the out parameters. -/
def sampleTimeoutAnswer : AcquireAnswer :=
  { hr := DXGI_ERROR_WAIT_TIMEOUT, info := none, resource := 0 }

/-- The bound sample source after one rendered frame: the frame was acquired and released
again. -/
def sampleAfterFrame : Option (DuplicationSource × Effects) :=
  (DuplicationSource.acquireFrame (fun _ => "") none sampleFrameAnswer sampleDuplicationSource
    Effects.none).map (fun r => DuplicationSource.releaseFrame r.1 r.2)

/-! ## Vocabulary of the statements about a rendered frame -/

/-- The vertex counts of the draw calls, in order. -/
def drawCalls : List RenderEvent → List Nat
  | [] => []
  | .Draw count _ :: rest => count :: drawCalls rest
  | _ :: rest => drawCalls rest

/-- The sync intervals of the `Present` calls, in order. -/
def presentSyncs : List RenderEvent → List Nat
  | [] => []
  | .Present sync _ :: rest => sync :: presentSyncs rest
  | _ :: rest => presentSyncs rest

/-- A renderer whose initialisation succeeded: device 1, swap chain 2, render target 3 and the
textures, views and vertex buffers of desktop and cursor. -/
def sampleRenderer : Renderer :=
  { m_device := { m_ptr := 1 }, m_swap := { m_ptr := 2 }, m_renderTarget := { m_ptr := 3 },
    m_desktopTexture := { m_ptr := 4 }, m_desktopSrv := { m_ptr := 5 },
    m_cursorTexture := { m_ptr := 6 }, m_cursorSrv := { m_ptr := 7 },
    m_desktopVBuffer := { m_ptr := 8 }, m_cursorVBuffer := { m_ptr := 9 },
    m_cursorVisible := true, m_cursorWidth := 256, m_cursorHeight := 256,
    m_desktopWidth := 1920, m_desktopHeight := 1080 }

/-- A source that does nothing but report the cursor as hidden. -/
def SourceOps.hidesCursor (σ : Type) : SourceOps σ :=
  { SourceOps.idle σ with updateCursor := fun s _ x y _ => some (s, x, y, false) }

/-! ## Vocabulary of the statements about indexed pixel rows -/

/-- Modelled from the spec: bit `i` of a row, counted from the most significant bit of its
first byte. -/
def rowBit (row : Nat → Nat) (i : Nat) : Nat :=
  row (i / 8) / 2 ^ (7 - i % 8) % 2

/-- Modelled from the spec: the value of the `n` bits of a row that start at bit `start`, the
first one being the most significant. -/
def bitsValue (row : Nat → Nat) (start : Nat) : Nat → Nat
  | 0 => 0
  | n + 1 => 2 * bitsValue row start n + rowBit row (start + n)

/-- Modelled from the spec: the `x`-th group of `bpp` bits of a row. -/
def bitGroup (bpp : Nat) (row : Nat → Nat) (x : Nat) : Nat :=
  bitsValue row (x * bpp) bpp

/-- A row of two bytes, 0xB4 = 10110100 and 0x1E = 00011110. -/
def sampleRow : Nat → Nat :=
  fun i => if i = 0 then 0xB4 else if i = 1 then 0x1E else 0

/-! ## The bit buffer of the legacy monochrome decoder -/

/-- The size of the buffer `updateCursorShape` allocates in its monochrome branch,
`new uint8_t[4 * w * h]`, the product being a `UINT`. -/
def updateCursorShape_bitsSize (w h : Nat) : Nat :=
  (4 * w * h) % 2 ^ 32

/-- The local `bpl` of `updateCursorShape`, `((w-1)/32 + 1)*4` computed on `UINT`s: the bytes of
one scan line of a 1-bit bitmap of width `w`. -/
def updateCursorShape_bpl (w : Nat) : Nat :=
  (((w + 2 ^ 32 - 1) % 2 ^ 32) / 32 + 1) * 4

/-- The number of bytes the second `GetDIBits` call of the monochrome branch stores into the
buffer: `h*2` scan lines of `bpl` bytes. -/
def updateCursorShape_bitsFilled (w h : Nat) : Nat :=
  h * 2 * updateCursorShape_bpl w

/-- The offsets into the buffer that the decode loop of the monochrome branch reads, in
order: for every row and column the byte of `and_row` and the byte of `xor_row` that
`get_pixel_from_row<1>` indexes. -/
def updateCursorShape_reads (w h : Nat) : List Nat :=
  let bpl := updateCursorShape_bpl w
  let and_map := 0
  let xor_map := bpl * h
  (List.range (min h CURSOR_TEX_SIZE)).flatMap (fun row =>
    (List.range (min w CURSOR_TEX_SIZE)).flatMap (fun col =>
      [and_map + row * bpl + col * 1 / 8, xor_map + row * bpl + col * 1 / 8]))

/-! ## The textures of the legacy source -/

/-- What the graphics runtime answers during `SevenDwmSource::createDesktopTexture`: the texture
made by `CreateTexture2D`, the `IDXGIResource` interface of the texture and its shared
handle, each one or the failing `HRESULT`.  A failed call leaves its out parameter as it
was. -/
structure TextureEnv where
  CreateTexture2D : Except Nat Ptr
  QueryInterface  : Except Nat Ptr
  GetSharedHandle : Except Nat Nat

namespace SevenDwmSource

/-- The member `createDesktopTexture()`: the texture returned, the communicator afterwards and
what was logged and sent; `none` when a null pointer is dereferenced (`m_dev`, `texture` or
`res`).  `describe` stands for `util::hresult_to_utf8`. -/
def createDesktopTexture (describe : Nat → String) (env : TextureEnv) (s : SevenDwmSource)
    (c : SevenDwmSource_DwmCommunicator) :
    Option (Ptr × SevenDwmSource_DwmCommunicator × List ViewerEvent) :=
  if s.m_dev = 0 then none
  else
    let texture := outPtr env.CreateTexture2D
    let ev1 : List ViewerEvent :=
      match env.CreateTexture2D with
      | .error hr => [.log ("Failed:CreateTexture2D: " ++ describe hr)]
      | .ok _ => []
    if texture = 0 then none
    else
      match env.QueryInterface with
      | .error hr =>
        some (texture, c,
          ev1 ++ [.log ("Failed: QueryInterface<IDXGIResource>: " ++ describe hr)])
      | .ok res =>
        if res = 0 then none
        else
          match env.GetSharedHandle with
          | .error hr =>
            some (texture, c, ev1 ++ [.log ("Failed: GetSharedHandle: " ++ describe hr)])
          | .ok hshared =>
            let sent := c.sendNewTexture hshared
            some (texture, sent.1, ev1 ++ sent.2)

/-- The member `createCursorTexture()`: the texture returned and what was logged; `none` when
the null `m_dev` is dereferenced. -/
def createCursorTexture (describe : Nat → String) (CreateTexture2D : Except Nat Ptr)
    (s : SevenDwmSource) : Option (Ptr × List ViewerEvent) :=
  if s.m_dev = 0 then none
  else
    some (outPtr CreateTexture2D,
      match CreateTexture2D with
      | .error hr => [.log ("Failed:CreateTexture2D: " ++ describe hr)]
      | .ok _ => [])

end SevenDwmSource

/-- The Windows SDK constant `E_OUTOFMEMORY`, as the unsigned value of the `HRESULT`. -/
def E_OUTOFMEMORY : Nat := 0x8007000E

/-- A row of more than 512 MB of 8-bit pixels: pixel 3 is 0xAA, pixel `2^29 + 3` is 0x55, all
others are 0. -/
def sampleLongRow : Nat → Nat :=
  fun i => if i = 3 then 0xAA else if i = 2 ^ 29 + 3 then 0x55 else 0

/-! # Theorems -/

/-! ## com_ptr: conservation of references -/

theorem handles_getD_some {l : List (Option com_ptr)} {i : Nat} {p : com_ptr}
    (h : l.getD i none = some p) : ∃ hi : i < l.length, l[i] = some p := by
  induction l generalizing i with
  | nil => simp at h
  | cons x l ih =>
    cases i with
    | zero => exact ⟨by simp, by simpa using h⟩
    | succ i =>
      obtain ⟨hi, hp⟩ := ih (i := i) (by simpa using h)
      exact ⟨by simpa using hi, by simpa using hp⟩

theorem handles_count_set (l : List (Option com_ptr)) (i : Nat) (p : com_ptr)
    (v a : Option com_ptr) (h : l.getD i none = some p) :
    ((l.set i v).count a : Int)
      = (l.count a : Int) - (if some p = a then 1 else 0) + (if v = a then 1 else 0) := by
  induction l generalizing i with
  | nil => simp at h
  | cons x l ih =>
    cases i with
    | zero =>
      have hx : x = some p := by simpa using h
      subst hx
      simp only [List.set_cons_zero, List.count_cons, beq_iff_eq]
      split_ifs <;> push_cast <;> omega
    | succ i =>
      have := ih i (by simpa using h)
      simp only [List.set_cons_succ, List.count_cons, beq_iff_eq]
      push_cast
      omega

theorem handles_getD_set (l : List (Option com_ptr)) (i j : Nat) (p : com_ptr)
    (v : Option com_ptr) (h : l.getD i none = some p) :
    (l.set i v).getD j none = if i = j then v else l.getD j none := by
  obtain ⟨hi, _⟩ := handles_getD_some h
  simp only [List.getD_eq_getElem?_getD, List.getElem?_set]
  split_ifs with h1 <;> simp_all

theorem handles_read_after_set (l : List (Option com_ptr)) (i j : Nat) (p d v : com_ptr)
    (hp : l.getD i none = some p) (hd : l.getD j none = some d) :
    ((l.set i (some v)).getD j none).getD {} = if i = j then v else d := by
  rw [handles_getD_set l i j p (some v) hp]
  split_ifs
  · rfl
  · rw [hd]; rfl

theorem handles_count_set_set (l : List (Option com_ptr)) (i j : Nat) (p d v : com_ptr)
    (w a : Option com_ptr) (hp : l.getD i none = some p) (hd : l.getD j none = some d) :
    (((l.set i (some v)).set j w).count a : Int)
      = (l.count a : Int) - (if some p = a then 1 else 0) + (if some v = a then 1 else 0)
        - (if i = j then (if some v = a then 1 else 0) else (if some d = a then 1 else 0))
        + (if w = a then 1 else 0) := by
  have h1 := handles_getD_set l i j p (some v) hp
  by_cases hij : i = j
  · rw [if_pos hij] at h1
    rw [handles_count_set _ _ _ _ _ h1, handles_count_set _ _ _ _ _ hp, if_pos hij]
  · rw [if_neg hij, hd] at h1
    rw [handles_count_set _ _ _ _ _ h1, handles_count_set _ _ _ _ _ hp, if_neg hij]

theorem refcount_AddRef (h : ComHeap) (p o : Ptr) :
    (h.AddRef p).refcount o = h.refcount o + (if o = p then 1 else 0) := by
  simp only [ComHeap.AddRef, ComHeap.refcount]
  by_cases h1 : o = p <;> simp [h1]
  omega

theorem refcount_Release (h : ComHeap) (p o : Ptr) :
    (h.Release p).refcount o = h.refcount o - (if o = p then 1 else 0) := by
  simp only [ComHeap.Release, ComHeap.refcount]
  by_cases h1 : o = p <;> simp [h1]
  omega

theorem some_com_ptr_eq (p : com_ptr) (o : Ptr) :
    (some p = some ({ m_ptr := o } : com_ptr)) ↔ p.m_ptr = o := by
  cases p
  simp

theorem step_conserves (supplies : Ptr → Nat → Bool) (s : HandleState) (op : HandleOp)
    (o : Ptr) (ho : o ≠ 0) :
    (HandleState.step supplies s op).heap.refcount o
        - ((HandleState.step supplies s op).liveCount o : Int)
      = s.heap.refcount o - (s.liveCount o : Int) := by
  cases op <;> simp only [HandleState.step, HandleState.live]
  case copy_construct src =>
    split
    · rename_i p hp
      rcases p with ⟨q⟩
      simp only [HandleState.liveCount, com_ptr.copy_construct, com_ptr.ref, List.count_append,
        List.count_singleton, beq_iff_eq, Option.some.injEq, com_ptr.mk.injEq, Nat.cast_add]
      split_ifs <;> simp_all [refcount_AddRef]
      all_goals (unfold Ptr at *; omega)
    · rfl
  case upcast_copy src =>
    split
    · rename_i p hp
      rcases p with ⟨q⟩
      simp only [HandleState.liveCount, com_ptr.upcast_copy_construct, com_ptr.ref,
        List.count_append, List.count_singleton, beq_iff_eq, Option.some.injEq,
        com_ptr.mk.injEq, Nat.cast_add]
      split_ifs <;> simp_all [refcount_AddRef]
      all_goals (unfold Ptr at *; omega)
    · rfl
  case move_construct src =>
    split
    · rename_i p hp
      rcases p with ⟨q⟩
      simp only [HandleState.liveCount, com_ptr.move_construct, List.count_append,
        List.count_singleton, beq_iff_eq, Option.some.injEq, com_ptr.mk.injEq, Nat.cast_add,
        handles_count_set _ _ _ _ _ hp]
      split_ifs <;> simp_all
    · rfl
  case upcast_move src =>
    split
    · rename_i p hp
      rcases p with ⟨q⟩
      simp only [HandleState.liveCount, com_ptr.upcast_move_construct, List.count_append,
        List.count_singleton, beq_iff_eq, Option.some.injEq, com_ptr.mk.injEq, Nat.cast_add,
        handles_count_set _ _ _ _ _ hp]
      split_ifs <;> simp_all
    · rfl
  case assign_copy dst src =>
    split
    · rename_i d p hd hp
      rcases p with ⟨q⟩
      rcases d with ⟨r⟩
      simp only [HandleState.liveCount, com_ptr.copy_construct, com_ptr.assign, com_ptr.destroy,
        com_ptr.clear, com_ptr.release, com_ptr.ref, beq_iff_eq, Option.some.injEq,
        com_ptr.mk.injEq, handles_count_set _ _ _ _ _ hd]
      split_ifs <;> simp_all [refcount_AddRef, refcount_Release]
      all_goals (unfold Ptr at *; omega)
    · rfl
  case upcast_assign_copy dst src =>
    split
    · rename_i d p hd hp
      rcases p with ⟨q⟩
      rcases d with ⟨r⟩
      simp only [HandleState.liveCount, com_ptr.copy_construct, com_ptr.upcast_assign,
        com_ptr.destroy, com_ptr.clear, com_ptr.release, com_ptr.ref, beq_iff_eq,
        Option.some.injEq, com_ptr.mk.injEq, handles_count_set _ _ _ _ _ hd]
      split_ifs <;> simp_all [refcount_AddRef, refcount_Release]
      all_goals (unfold Ptr at *; omega)
    · rfl
  case query src iid =>
    split
    · rename_i p hp
      rcases p with ⟨q⟩
      simp only [HandleState.liveCount, com_ptr.query, com_ptr.take, ComHeap.QueryInterface,
        List.count_append, List.count_singleton, beq_iff_eq, Option.some.injEq,
        com_ptr.mk.injEq, Nat.cast_add]
      split_ifs <;> simp_all [refcount_AddRef]
      all_goals (unfold Ptr at *; omega)
    · rfl
  case clear v =>
    split
    · rename_i p hp
      rcases p with ⟨q⟩
      simp only [HandleState.liveCount, com_ptr.clear, com_ptr.release, beq_iff_eq,
        Option.some.injEq, com_ptr.mk.injEq, handles_count_set _ _ _ _ _ hp]
      split_ifs <;> simp_all [refcount_Release]
      all_goals (unfold Ptr at *; omega)
    · rfl
  case destroy v =>
    split
    · rename_i p hp
      rcases p with ⟨q⟩
      simp only [HandleState.liveCount, com_ptr.destroy, com_ptr.clear, com_ptr.release,
        beq_iff_eq, Option.some.injEq, com_ptr.mk.injEq, handles_count_set _ _ _ _ _ hp]
      split_ifs <;> simp_all [refcount_Release]
      all_goals (unfold Ptr at *; omega)
    · rfl
  case query_out src out iid =>
    split
    · rename_i p d hp hd
      rcases p with ⟨q⟩
      rcases d with ⟨r⟩
      simp only [HandleState.liveCount, com_ptr.query_out, com_ptr.query, com_ptr.take,
        ComHeap.QueryInterface, com_ptr.move_construct, com_ptr.assign, com_ptr.destroy,
        com_ptr.clear, com_ptr.release, beq_iff_eq, Option.some.injEq,
        com_ptr.mk.injEq, handles_count_set _ _ _ _ _ hd]
      split_ifs <;> simp_all [refcount_AddRef, refcount_Release]
      all_goals (unfold Ptr at *; omega)
    · rfl
  case assign_move dst src =>
    split
    · rename_i d p hd hp
      rcases p with ⟨q⟩
      rcases d with ⟨r⟩
      simp only [HandleState.liveCount, com_ptr.move_construct,
        handles_count_set_set _ _ _ _ _ _ _ _ hp hd, handles_read_after_set _ _ _ _ _ _ hp hd,
        com_ptr.assign, com_ptr.destroy, com_ptr.clear, com_ptr.release, beq_iff_eq,
        Option.some.injEq, com_ptr.mk.injEq]
      split_ifs <;> simp_all [refcount_AddRef, refcount_Release]
      all_goals (unfold Ptr at *; omega)
    · rfl
  case upcast_assign_move dst src =>
    split
    · rename_i d p hd hp
      rcases p with ⟨q⟩
      rcases d with ⟨r⟩
      simp only [HandleState.liveCount, com_ptr.move_construct,
        handles_count_set_set _ _ _ _ _ _ _ _ hp hd, handles_read_after_set _ _ _ _ _ _ hp hd,
        com_ptr.upcast_assign, com_ptr.destroy, com_ptr.clear, com_ptr.release, beq_iff_eq,
        Option.some.injEq, com_ptr.mk.injEq]
      split_ifs <;> simp_all [refcount_AddRef, refcount_Release]
      all_goals (unfold Ptr at *; omega)
    · rfl

/-- C1. Smart-handle conservation: over any sequence of copy and move construction, upcast,
assignment, query, clear and destruction, started from any table of handles (made with
`take` or `ref`), the net change of the reference count of a wrapped object equals the
net change of the number of live handles that hold it. -/
theorem com_ptr_conservation (supplies : Ptr → Nat → Bool) (s : HandleState)
    (ops : List HandleOp) (o : Ptr) (ho : o ≠ 0) :
    (HandleState.run supplies s ops).heap.refcount o - s.heap.refcount o
      = ((HandleState.run supplies s ops).liveCount o : Int) - (s.liveCount o : Int) := by
  induction ops generalizing s with
  | nil => simp [HandleState.run]
  | cons op rest ih =>
    have h1 := step_conserves supplies s op o ho
    have h2 := ih (HandleState.step supplies s op)
    simp only [HandleState.run, List.foldl_cons] at h2 ⊢
    omega

/-- C1, at a concrete program: one handle made with `take` on object 7, then a copy, a
successful query, a move assignment and a destruction. -/
theorem com_ptr_conservation_witness :
    (7 : Ptr) ≠ 0 ∧
    (HandleState.run (fun _ _ => true)
        { heap := ComHeap.fresh, handles := [some (com_ptr.take 7)] }
        [.copy_construct 0, .query 0 1, .assign_move 1 0, .destroy 2]).heap.refcount 7
      - ComHeap.fresh.refcount 7
    = ((HandleState.run (fun _ _ => true)
        { heap := ComHeap.fresh, handles := [some (com_ptr.take 7)] }
        [.copy_construct 0, .query 0 1, .assign_move 1 0, .destroy 2]).liveCount 7 : Int)
      - ((HandleState.mk ComHeap.fresh [some (com_ptr.take 7)]).liveCount 7 : Int) :=
  ⟨by decide, com_ptr_conservation _ _ _ 7 (by decide)⟩

/-- C2. The member `query(out)`: when the wrapped pointer is null or the object does not supply
the interface it returns false, `out` is the same handle and no object sees any call;
otherwise it returns true, `out` holds the queried interface, the queried object has
received exactly one more `AddRef`, and the object `out` held before (if any) exactly one
more `Release`, no other object any. -/
theorem query_out_contract (supplies : Ptr → Nat → Bool) (h : ComHeap) (p out : com_ptr)
    (iid : Nat) :
    if p.m_ptr = 0 ∨ supplies p.m_ptr iid = false then
      (com_ptr.query_out supplies h p out iid).2.2 = false
      ∧ (com_ptr.query_out supplies h p out iid).2.1 = out
      ∧ (com_ptr.query_out supplies h p out iid).1 = h
    else
      (com_ptr.query_out supplies h p out iid).2.2 = true
      ∧ (com_ptr.query_out supplies h p out iid).2.1.m_ptr = p.m_ptr
      ∧ (∀ q, (com_ptr.query_out supplies h p out iid).1.addRefs q
            = h.addRefs q + (if q = p.m_ptr then 1 else 0))
      ∧ (∀ q, (com_ptr.query_out supplies h p out iid).1.releases q
            = h.releases q + (if q = out.m_ptr ∧ out.m_ptr ≠ 0 then 1 else 0)) := by
  rcases p with ⟨pp⟩
  rcases out with ⟨oo⟩
  simp only [com_ptr.query_out, com_ptr.query, com_ptr.take, ComHeap.QueryInterface,
    com_ptr.move_construct, com_ptr.assign, com_ptr.destroy, com_ptr.clear, com_ptr.release]
  by_cases h0 : pp = 0
  · simp [h0]
  · by_cases hs : supplies pp iid = true
    · by_cases ho : oo = 0
      · simp [h0, hs, ho, ComHeap.AddRef]
        intro q
        split_ifs <;> rfl
      · simp [h0, hs, ho, ComHeap.AddRef, ComHeap.Release]
        exact ⟨fun q => by split_ifs <;> rfl, fun q => by split_ifs <;> rfl⟩
    · simp [h0, hs]

/-- C3. The statement `*smart.pptr_cleared() = dumb` does what `smart = com_ptr::take(dumb)`
does: the same heap and the same handle result; the handle holds `dumb`, the object held
before (if any) has received exactly one more `Release`, and no object an `AddRef`. -/
theorem pptr_cleared_equiv_take (h : ComHeap) (smart : com_ptr) (dumb : Ptr) :
    pptr_cleared_store h smart dumb = assign_take h smart dumb
    ∧ (pptr_cleared_store h smart dumb).2.m_ptr = dumb
    ∧ (∀ q, (pptr_cleared_store h smart dumb).1.releases q
          = h.releases q + (if q = smart.m_ptr ∧ smart.m_ptr ≠ 0 then 1 else 0))
    ∧ (∀ q, (pptr_cleared_store h smart dumb).1.addRefs q = h.addRefs q) := by
  rcases smart with ⟨sp⟩
  simp only [pptr_cleared_store, assign_take, com_ptr.pptr_cleared, com_ptr.store_pptr,
    com_ptr.take, com_ptr.move_construct, com_ptr.assign, com_ptr.destroy, com_ptr.clear,
    com_ptr.release]
  by_cases hs : sp = 0
  · simp [hs]
  · simp [hs, ComHeap.Release]
    intro q
    split_ifs <;> rfl

/-! ## OS dispatch -/

theorem compound_version (a b : Nat) :
    ((util.clamp 0 a 0xFFFF <<< 16) % 2 ^ 32) ||| util.clamp 0 b 0xFFFF
      = 65536 * min a 65535 + min b 65535 := by
  have ha : util.clamp 0 a 0xFFFF = min a 65535 := by simp [util.clamp]
  have hb : util.clamp 0 b 0xFFFF = min b 65535 := by simp [util.clamp]
  rw [ha, hb, Nat.shiftLeft_eq]
  have h1 : min a 65535 * 2 ^ 16 % 2 ^ 32 = 2 ^ 16 * min a 65535 := by omega
  rw [h1, ← Nat.mul_add_lt_is_or (by omega) _]

/-- C4. OS dispatch in `SV_CreateView`: the duplication source is chosen iff the version query
succeeds on an NT platform with (major, minor) at least (6, 2) in lexicographic order,
the DWM source iff it succeeds on an NT platform with version exactly 6.1, and `NULL`
is returned in every other case, among them a failed query and a non-NT platform. -/
theorem SV_CreateView_dispatch (os : Option util.OSVERSIONINFO) :
    (SV_CreateView os = some SourceKind.DuplicationSource ↔
      ∃ v, os = some v ∧ v.dwPlatformId = util.VER_PLATFORM_WIN32_NT
        ∧ (6 < v.dwMajorVersion ∨ (v.dwMajorVersion = 6 ∧ 2 ≤ v.dwMinorVersion)))
    ∧ (SV_CreateView os = some SourceKind.SevenDwmSource ↔
      ∃ v, os = some v ∧ v.dwPlatformId = util.VER_PLATFORM_WIN32_NT
        ∧ v.dwMajorVersion = 6 ∧ v.dwMinorVersion = 1)
    ∧ (SV_CreateView os = none ↔
      ∀ v, os = some v → v.dwPlatformId = util.VER_PLATFORM_WIN32_NT →
        (v.dwMajorVersion < 6 ∨ (v.dwMajorVersion = 6 ∧ v.dwMinorVersion = 0)))
    ∧ (os = none → SV_CreateView os = none)
    ∧ (∀ v, os = some v → v.dwPlatformId ≠ util.VER_PLATFORM_WIN32_NT →
        SV_CreateView os = none) := by
  cases os with
  | none => simp [SV_CreateView, util.check_windows_version]
  | some v =>
    rcases v with ⟨ma, mi, pl⟩
    by_cases hp : pl = util.VER_PLATFORM_WIN32_NT
    · simp only [SV_CreateView, util.check_windows_version, compound_version, hp,
        util.greater_equal, util.equal_to]
      simp
      refine ⟨by omega, ?_, ?_⟩
      · split_ifs <;> simp <;> omega
      · split_ifs <;> simp <;> omega
    · simp [SV_CreateView, util.check_windows_version, hp]

/-! ## The frame-rate cap of the render thread -/

/-- C5, evaluated: three consecutive frames of a fast source (render cost 0 ms) on a thread
that enters the loop at clock 1000 start at 1000, 1010 and 1010 ms, so the run takes
10 ms where a cap of 100 frames per second needs `10 * (3 - 1) = 20`: the sleep of one
iteration is counted as frame time by the next, which then does not sleep. -/
theorem threadProc_fps_cap_missed :
    (RenderThread.threadProc (RenderThread.start 1000) [0, 0, 0]).rendered = [1000, 1010, 1010]
    ∧ (RenderThread.threadProc (RenderThread.start 1000) [0, 0, 0]).elapsed = 10
    ∧ ¬ (10 * (3 - 1) ≤ (RenderThread.threadProc (RenderThread.start 1000) [0, 0, 0]).elapsed) := by
  decide

/-- Two consecutive idle iterations of a fast source started with `last = clock` advance the
clock by 10 ms only, and both frames are rendered no more than 10 ms apart. -/
theorem threadProc_idle_twice (t : Nat) (rendered : List Nat) (ht : t + 10 < 2 ^ 64) :
    RenderThread.threadProc_idle 0 (RenderThread.threadProc_idle 0
        { clock := t, last := t, rendered := rendered })
      = { clock := t + 10, last := t + 10, rendered := rendered ++ [t, t + 10] } := by
  have e1 : RenderThread.threadProc_idle 0 { clock := t, last := t, rendered := rendered }
      = { clock := t + 10, last := t, rendered := rendered ++ [t] } := by
    have h1 : t % 2 ^ 64 = t := Nat.mod_eq_of_lt (by omega)
    have h2 : (t + 2 ^ 64 - t) % 2 ^ 64 = 0 := by omega
    simp only [RenderThread.threadProc_idle, Nat.add_zero, h1, h2]
    rfl
  have e2 : RenderThread.threadProc_idle 0
        { clock := t + 10, last := t, rendered := rendered ++ [t] }
      = { clock := t + 10, last := t + 10, rendered := rendered ++ [t, t + 10] } := by
    have h1 : (t + 10) % 2 ^ 64 = t + 10 := Nat.mod_eq_of_lt ht
    have h2 : (t + 10 + 2 ^ 64 - t) % 2 ^ 64 = 10 := by omega
    simp only [RenderThread.threadProc_idle, Nat.add_zero, h1, h2]
    simp
  rw [e1, e2]

theorem threadProc_fast_frames (k t : Nat) (rendered : List Nat)
    (ht : t + 10 * (k + 1) < 2 ^ 64) :
    (RenderThread.threadProc { clock := t, last := t, rendered := rendered }
        (List.replicate (2 * k + 1) 0)).rendered.getLastD 0 = t + 10 * k
    ∧ (RenderThread.threadProc { clock := t, last := t, rendered := rendered }
        (List.replicate (2 * k + 1) 0)).rendered.headD 0 = (rendered ++ [t]).headD 0 := by
  induction k generalizing t rendered with
  | zero =>
    simp [RenderThread.threadProc, RenderThread.threadProc_idle]
  | succ k ih =>
    have h : 2 * (k + 1) + 1 = (2 * k + 1) + 1 + 1 := by ring
    rw [h, List.replicate_succ, List.replicate_succ]
    simp only [RenderThread.threadProc, List.foldl_cons]
    rw [threadProc_idle_twice t rendered (by omega)]
    have := ih (t + 10) (rendered ++ [t, t + 10]) (by omega)
    simp only [RenderThread.threadProc] at this
    rw [this.1, this.2]
    constructor
    · ring
    · cases rendered <;> simp

/-- In every run of `2 * k + 1` frames of a fast source the last frame starts `10 * k` ms after
the first: the loop renders two frames every 10 ms, 200 per second. -/
theorem threadProc_fast_elapsed (k t : Nat) (ht : t + 10 * (k + 1) < 2 ^ 64) :
    (RenderThread.threadProc (RenderThread.start t) (List.replicate (2 * k + 1) 0)).elapsed
      = 10 * k := by
  have h1 : t % 2 ^ 64 = t := Nat.mod_eq_of_lt (by omega)
  have h := threadProc_fast_frames k t [] ht
  simp only [RenderThread.start, RenderThread.elapsed, h1, h.1, h.2]
  simp

/-! ## Cursor quad -/

/-- C6. Cursor NDC mapping, over the rationals and for a monitor of positive width and height:
with a cursor vertex buffer that maps, `updateCursorPosition` writes the six vertices of
the quad with corners `left`, `top`, `right`, `bottom`, which satisfy
`left + 2*w/W = right`, `top - 2*h/H = bottom`, `left = -1` iff `x = 0` and `top = 1`
iff `y = 0`; the texture coordinates span the full unit square. -/
theorem updateCursorPosition_ndc (r : Renderer) (hW : 0 < r.m_desktopWidth)
    (hH : 0 < r.m_desktopHeight) (hbuf : r.m_cursorVBuffer.m_ptr ≠ 0) :
    r.updateCursorPosition true = some
        [ { x := r.left,  y := r.top,    z := 0, u := 0, v := 0 },
          { x := r.right, y := r.bottom, z := 0, u := 1, v := 1 },
          { x := r.left,  y := r.bottom, z := 0, u := 0, v := 1 },
          { x := r.left,  y := r.top,    z := 0, u := 0, v := 0 },
          { x := r.right, y := r.top,    z := 0, u := 1, v := 0 },
          { x := r.right, y := r.bottom, z := 0, u := 1, v := 1 } ]
    ∧ r.left + 2 * (r.m_cursorWidth : ℚ) / (r.m_desktopWidth : ℚ) = r.right
    ∧ r.top - 2 * (r.m_cursorHeight : ℚ) / (r.m_desktopHeight : ℚ) = r.bottom
    ∧ (r.left = -1 ↔ r.m_cursorX = 0)
    ∧ (r.top = 1 ↔ r.m_cursorY = 0) := by
  have hW' : (r.m_desktopWidth : ℚ) ≠ 0 := by
    have : (0 : ℚ) < (r.m_desktopWidth : ℚ) := by exact_mod_cast hW
    exact ne_of_gt this
  have hH' : (r.m_desktopHeight : ℚ) ≠ 0 := by
    have : (0 : ℚ) < (r.m_desktopHeight : ℚ) := by exact_mod_cast hH
    exact ne_of_gt this
  refine ⟨?_, rfl, rfl, ?_, ?_⟩
  · simp [Renderer.updateCursorPosition, hbuf]
  · unfold Renderer.left
    constructor
    · intro h
      have h1 : 2 * (r.m_cursorX : ℚ) / (r.m_desktopWidth : ℚ) = 0 := by linarith
      rcases div_eq_zero_iff.mp h1 with h2 | h2
      · have h3 : (r.m_cursorX : ℚ) = 0 := by linarith
        exact_mod_cast h3
      · exact absurd h2 hW'
    · intro h
      simp [h]
  · unfold Renderer.top
    constructor
    · intro h
      have h1 : 2 * (r.m_cursorY : ℚ) / (r.m_desktopHeight : ℚ) = 0 := by linarith
      rcases div_eq_zero_iff.mp h1 with h2 | h2
      · have h3 : (r.m_cursorY : ℚ) = 0 := by linarith
        exact_mod_cast h3
      · exact absurd h2 hH'
    · intro h
      simp [h]

/-- C6, at a concrete renderer: a 1920x1080 monitor, a 32x32 cursor at (960, 0). -/
theorem updateCursorPosition_ndc_witness :
    (Renderer.left
        { m_cursorVBuffer := { m_ptr := 1 }, m_cursorWidth := 32, m_cursorHeight := 32,
          m_cursorX := 960, m_cursorY := 0, m_desktopWidth := 1920, m_desktopHeight := 1080 }
      = -1 ↔ (960 : Int) = 0)
    ∧ (Renderer.top
        { m_cursorVBuffer := { m_ptr := 1 }, m_cursorWidth := 32, m_cursorHeight := 32,
          m_cursorX := 960, m_cursorY := 0, m_desktopWidth := 1920, m_desktopHeight := 1080 }
      = 1 ↔ (0 : Int) = 0) :=
  (updateCursorPosition_ndc
    { m_cursorVBuffer := { m_ptr := 1 }, m_cursorWidth := 32, m_cursorHeight := 32,
      m_cursorX := 960, m_cursorY := 0, m_desktopWidth := 1920, m_desktopHeight := 1080 }
    (by decide) (by decide) (by decide)).2.2.2

/-! ## Monochrome cursor decode -/

theorem writeRow_apply (cols base : Nat) (px : Nat → Nat × Nat) (mem : Mem) (a : Nat) :
    writeRow cols base px mem a
      = if base ≤ a ∧ a < base + 4 * cols then
          (if (a - base) % 4 = 3 then (px ((a - base) / 4)).2 else (px ((a - base) / 4)).1)
        else mem a := by
  induction cols with
  | zero =>
    rw [if_neg (by omega)]
    rfl
  | succ n ih =>
    have hstep : writeRow (n + 1) base px mem
        = ((((writeRow n base px mem).write (base + n * 4) (px n).1).write
            (base + n * 4 + 1) (px n).1).write (base + n * 4 + 2) (px n).1).write
            (base + n * 4 + 3) (px n).2 := by
      simp [writeRow, List.range_succ, List.foldl_append]
    rw [hstep]
    simp only [Mem.write, ih]
    by_cases hin : base + n * 4 ≤ a ∧ a < base + n * 4 + 4
    · have e1 : (a - base) / 4 = n := by omega
      have e3 : base ≤ a ∧ a < base + 4 * (n + 1) := by omega
      rw [if_pos e3, e1]
      by_cases h3 : a = base + n * 4 + 3
      · have e2 : (a - base) % 4 = 3 := by omega
        rw [if_pos h3, if_pos e2]
      · have e2 : ¬ (a - base) % 4 = 3 := by omega
        rw [if_neg h3, if_neg e2]
        by_cases h2 : a = base + n * 4 + 2
        · rw [if_pos h2]
        · rw [if_neg h2]
          by_cases h1 : a = base + n * 4 + 1
          · rw [if_pos h1]
          · rw [if_neg h1, if_pos (by omega)]
    · have n3 : ¬ a = base + n * 4 + 3 := by omega
      have n2 : ¬ a = base + n * 4 + 2 := by omega
      have n1 : ¬ a = base + n * 4 + 1 := by omega
      have n0 : ¬ a = base + n * 4 := by omega
      have hiff : (base ≤ a ∧ a < base + 4 * n) ↔ (base ≤ a ∧ a < base + 4 * (n + 1)) := by
        omega
      rw [if_neg n3, if_neg n2, if_neg n1, if_neg n0]
      simp only [hiff]

theorem writeTexels_succ (rows cols RowPitch : Nat) (px : Nat → Nat → Nat × Nat) (mem : Mem) :
    writeTexels (rows + 1) cols RowPitch px mem
      = writeRow cols (rows * RowPitch) (px rows) (writeTexels rows cols RowPitch px mem) := by
  simp [writeTexels, List.range_succ, List.foldl_append]

/-- Bytes that lie in no written texel row keep their value. -/
theorem writeTexels_outside (rows cols RowPitch : Nat) (px : Nat → Nat → Nat × Nat)
    (mem : Mem) (a : Nat)
    (h : ∀ row, row < rows → ¬ (row * RowPitch ≤ a ∧ a < row * RowPitch + 4 * cols)) :
    writeTexels rows cols RowPitch px mem a = mem a := by
  induction rows with
  | zero => rfl
  | succ n ih =>
    rw [writeTexels_succ, writeRow_apply, if_neg (h n (by omega))]
    exact ih (fun row hr => h row (by omega))

/-- Bytes of a texel in the footprint hold what the loop wrote there, as long as rows do
not overlap. -/
theorem writeTexels_inside (rows cols RowPitch : Nat) (px : Nat → Nat → Nat × Nat)
    (mem : Mem) (row col k : Nat) (hp : 4 * cols ≤ RowPitch) (hr : row < rows)
    (hc : col < cols) (hk : k < 4) :
    writeTexels rows cols RowPitch px mem (row * RowPitch + col * 4 + k)
      = if k = 3 then (px row col).2 else (px row col).1 := by
  induction rows with
  | zero => omega
  | succ n ih =>
    rw [writeTexels_succ, writeRow_apply]
    by_cases hrn : row = n
    · subst hrn
      have e1 : (row * RowPitch + col * 4 + k - row * RowPitch) / 4 = col := by omega
      have e2 : (row * RowPitch + col * 4 + k - row * RowPitch) % 4 = k := by omega
      rw [if_pos (by omega), e1, e2]
    · have h1 : (row + 1) * RowPitch ≤ n * RowPitch := Nat.mul_le_mul_right _ (by omega)
      have h2 : (row + 1) * RowPitch = row * RowPitch + RowPitch := Nat.succ_mul _ _
      rw [if_neg (by omega)]
      exact ih (by omega)

theorem get_pixel_from_row_zero (row : Nat → Nat) (x : Nat) (hx32 : x < 2 ^ 32)
    (h : row (x / 8) = 0) : util.get_pixel_from_row 1 row x = 0 := by
  have e : x * 1 % 2 ^ 32 = x := by omega
  simp only [util.get_pixel_from_row, e, h]
  simp

theorem get_pixel_from_row_ones (row : Nat → Nat) (x : Nat) (hx32 : x < 2 ^ 32)
    (h : row (x / 8) = 0xFF) : util.get_pixel_from_row 1 row x = 1 := by
  have hx : x % 8 < 8 := Nat.mod_lt _ (by decide)
  simp only [util.get_pixel_from_row, Nat.mul_one, Nat.div_one, Nat.mod_eq_of_lt hx32, h]
  interval_cases (x % 8) <;> decide

theorem decodeMonochrome_eq (pointer : DXGI_OUTDUPL_POINTER_SHAPE_INFO) (buffer : Mem)
    (RowPitch : Nat) (pData : Mem) :
    DuplicationSource.decodeMonochrome pointer buffer RowPitch pData
      = writeTexels (min (pointer.Height / 2) CURSOR_TEX_SIZE) (min pointer.Width CURSOR_TEX_SIZE)
          RowPitch
          (fun row col =>
            (if util.get_pixel_from_row 1 (fun i => buffer
                (0 + (pointer.Pitch * pointer.Height % 2 ^ 32) / 2 + row * pointer.Pitch + i)) col ≠ 0
              then 0xFF else 0,
             if util.get_pixel_from_row 1 (fun i => buffer (0 + row * pointer.Pitch + i)) col ≠ 0
              then 0 else 0xFF))
          pData := rfl

theorem updateCursorShape_monochrome_eq (w h : Nat) (bits : Mem) (RowPitch : Nat) (pData : Mem) :
    updateCursorShape_monochrome w h bits RowPitch pData
      = writeTexels (min h CURSOR_TEX_SIZE) (min w CURSOR_TEX_SIZE) RowPitch
          (fun row col =>
            (if util.get_pixel_from_row 1 (fun i => bits
                ((((w + 2 ^ 32 - 1) % 2 ^ 32) / 32 + 1) * 4 * h
                  + row * ((((w + 2 ^ 32 - 1) % 2 ^ 32) / 32 + 1) * 4) + i)) col ≠ 0
              then 0xFF else 0,
             if util.get_pixel_from_row 1 (fun i => bits
                (0 + row * ((((w + 2 ^ 32 - 1) % 2 ^ 32) / 32 + 1) * 4) + i)) col ≠ 0
              then 0 else 0xFF))
          (Mem.memset pData 0 (RowPitch * CURSOR_TEX_SIZE)) := rfl

/-- A texel of the 256x256 texture outside the footprint is not touched by the texel loop. -/
theorem writeTexels_texel_outside (rows cols RowPitch : Nat) (px : Nat → Nat → Nat × Nat)
    (mem : Mem) (row col k : Nat) (hp : 1024 ≤ RowPitch) (hcols : cols ≤ 256)
    (hc : col < 256) (hk : k < 4) (hout : ¬ (row < rows ∧ col < cols)) :
    writeTexels rows cols RowPitch px mem (row * RowPitch + col * 4 + k)
      = mem (row * RowPitch + col * 4 + k) := by
  apply writeTexels_outside
  intro r hr
  rcases Nat.lt_trichotomy r row with hlt | heq | hgt
  · have h1 : (r + 1) * RowPitch ≤ row * RowPitch := Nat.mul_le_mul_right _ (by omega)
    have h2 : (r + 1) * RowPitch = r * RowPitch + RowPitch := Nat.succ_mul _ _
    omega
  · subst heq
    have : cols ≤ col := by
      by_contra hcon
      exact hout ⟨hr, by omega⟩
    omega
  · have h1 : (row + 1) * RowPitch ≤ r * RowPitch := Nat.mul_le_mul_right _ (by omega)
    have h2 : (row + 1) * RowPitch = row * RowPitch + RowPitch := Nat.succ_mul _ _
    omega

theorem texel_of_bytes (m : Mem) (RowPitch row col : Nat) (v : Nat → Nat)
    (h : ∀ k, k < 4 → m (row * RowPitch + col * 4 + k) = v k) :
    texel m RowPitch row col = [v 0, v 1, v 2, v 3] := by
  have h0 := h 0 (by decide)
  rw [Nat.add_zero] at h0
  simp only [texel, h0, h 1 (by decide), h 2 (by decide), h 3 (by decide)]

/-- Every byte of every texel after the monochrome branch of the modern source: inside the
footprint what the AND and XOR bits say, outside it zero only where the `memset` of
`4 * 256 * 256` bytes reached, otherwise what the mapped memory held before. -/
theorem updateCursor_shape_monochrome_bytes (pointer : DXGI_OUTDUPL_POINTER_SHAPE_INFO)
    (buffer : Mem) (RowPitch : Nat) (pData : Mem) (row col k : Nat)
    (hT : pointer.ShapeType = DXGI_OUTDUPL_POINTER_SHAPE_TYPE_MONOCHROME)
    (hp : 1024 ≤ RowPitch) (hc : col < 256) (hk : k < 4) :
    DuplicationSource.updateCursor_shape pointer buffer RowPitch pData
        (row * RowPitch + col * 4 + k)
      = if row < min (pointer.Height / 2) 256 ∧ col < min pointer.Width 256 then
          (if k = 3 then
            (if util.get_pixel_from_row 1 (fun i => buffer (0 + row * pointer.Pitch + i)) col ≠ 0
              then 0 else 0xFF)
          else
            (if util.get_pixel_from_row 1 (fun i => buffer
                (0 + (pointer.Pitch * pointer.Height % 2 ^ 32) / 2 + row * pointer.Pitch + i)) col ≠ 0
              then 0xFF else 0))
        else if row * RowPitch + col * 4 + k < 4 * 256 * 256 then 0
        else pData (row * RowPitch + col * 4 + k) := by
  have e : DuplicationSource.updateCursor_shape pointer buffer RowPitch pData
      = DuplicationSource.decodeMonochrome pointer buffer RowPitch
          (Mem.memset pData 0 (4 * CURSOR_TEX_SIZE * CURSOR_TEX_SIZE)) := by
    simp [DuplicationSource.updateCursor_shape, hT, DXGI_OUTDUPL_POINTER_SHAPE_TYPE_MONOCHROME,
      DXGI_OUTDUPL_POINTER_SHAPE_TYPE_COLOR, DXGI_OUTDUPL_POINTER_SHAPE_TYPE_MASKED_COLOR]
  rw [e, decodeMonochrome_eq]
  simp only [CURSOR_TEX_SIZE]
  by_cases hin : row < min (pointer.Height / 2) 256 ∧ col < min pointer.Width 256
  · rw [if_pos hin, writeTexels_inside _ _ _ _ _ _ _ _ (by omega) hin.1 hin.2 hk]
  · rw [if_neg hin, writeTexels_texel_outside _ _ _ _ _ _ _ _ hp (by omega) hc hk hin]
    rfl

/-- C7, evaluated on the modern source: a 32x32 monochrome cursor (AND plane all zero, XOR
plane all one) decoded into a cursor texture that `Map` hands out with a row pitch of
2048 bytes and stale contents `CD`.  The texel (0,0) of the footprint becomes
`FF FF FF FF`, but the texel (255,255) outside the footprint keeps `CD CD CD CD` instead
of `00 00 00 00`: the `memset` clears `4 * 256 * 256` bytes, half of the `2048 * 256`
the rows occupy. -/
theorem updateCursor_shape_stale_texel :
    texel (DuplicationSource.updateCursor_shape monoShape32 monoBuffer32 2048 (fun _ => 0xCD))
        2048 0 0 = [0xFF, 0xFF, 0xFF, 0xFF]
    ∧ texel (DuplicationSource.updateCursor_shape monoShape32 monoBuffer32 2048 (fun _ => 0xCD))
        2048 255 255 = [0xCD, 0xCD, 0xCD, 0xCD]
    ∧ texel (DuplicationSource.updateCursor_shape monoShape32 monoBuffer32 2048 (fun _ => 0xCD))
        2048 255 255 ≠ [0, 0, 0, 0] := by
  have b := fun row col k =>
    updateCursor_shape_monochrome_bytes monoShape32 monoBuffer32 2048 (fun _ => 0xCD) row col k rfl
      (by decide)
  have e1 : texel (DuplicationSource.updateCursor_shape monoShape32 monoBuffer32 2048
      (fun _ => 0xCD)) 2048 0 0 = [0xFF, 0xFF, 0xFF, 0xFF] := by
    rw [texel_of_bytes _ _ _ _ _ (fun k hk => b 0 0 k (by decide) hk)]
    decide
  have e2 : texel (DuplicationSource.updateCursor_shape monoShape32 monoBuffer32 2048
      (fun _ => 0xCD)) 2048 255 255 = [0xCD, 0xCD, 0xCD, 0xCD] := by
    rw [texel_of_bytes _ _ _ _ _ (fun k hk => b 255 255 k (by decide) hk)]
    decide
  refine ⟨e1, e2, ?_⟩
  rw [e2]
  decide

/-- The modern monochrome decode does what the specification says whenever the mapped texture
has the tight row pitch of 1024 bytes: white and opaque inside the footprint for an
all-zero AND plane and all-one XOR plane, zero outside it. -/
theorem updateCursor_shape_monochrome_pitch1024 (pointer : DXGI_OUTDUPL_POINTER_SHAPE_INFO)
    (buffer pData : Mem) (row col : Nat)
    (hT : pointer.ShapeType = DXGI_OUTDUPL_POINTER_SHAPE_TYPE_MONOCHROME)
    (hW : min pointer.Width 256 ≤ 8 * pointer.Pitch)
    (hand : ∀ i, i < pointer.Pitch * (pointer.Height / 2) → buffer i = 0)
    (hxor : ∀ i, (pointer.Pitch * pointer.Height % 2 ^ 32) / 2 ≤ i →
      i < (pointer.Pitch * pointer.Height % 2 ^ 32) / 2 + pointer.Pitch * (pointer.Height / 2) →
      buffer i = 0xFF)
    (hr : row < 256) (hc : col < 256) :
    texel (DuplicationSource.updateCursor_shape pointer buffer 1024 pData) 1024 row col
      = if row < min (pointer.Height / 2) 256 ∧ col < min pointer.Width 256
        then [0xFF, 0xFF, 0xFF, 0xFF] else [0, 0, 0, 0] := by
  rw [texel_of_bytes _ _ _ _ _ (fun k hk =>
    updateCursor_shape_monochrome_bytes pointer buffer 1024 pData row col k hT (by decide) hc hk)]
  by_cases hin : row < min (pointer.Height / 2) 256 ∧ col < min pointer.Width 256
  · have h1 : (row + 1) * pointer.Pitch ≤ (pointer.Height / 2) * pointer.Pitch :=
      Nat.mul_le_mul_right _ (by omega)
    have h2 : (row + 1) * pointer.Pitch = row * pointer.Pitch + pointer.Pitch :=
      Nat.succ_mul _ _
    have h3 : pointer.Pitch * (pointer.Height / 2) = (pointer.Height / 2) * pointer.Pitch :=
      Nat.mul_comm _ _
    have ea : util.get_pixel_from_row 1 (fun i => buffer (0 + row * pointer.Pitch + i)) col = 0 :=
      get_pixel_from_row_zero _ _ (by omega) (hand _ (by omega))
    have ex : util.get_pixel_from_row 1 (fun i => buffer
        (0 + (pointer.Pitch * pointer.Height % 2 ^ 32) / 2 + row * pointer.Pitch + i)) col = 1 :=
      get_pixel_from_row_ones _ _ (by omega) (hxor _ (by omega) (by omega))
    simp only [if_pos hin, ea, ex]
    decide
  · have hlt : ∀ k, k < 4 → row * 1024 + col * 4 + k < 4 * 256 * 256 := by
      intro k hk; omega
    simp only [if_neg hin, if_pos (hlt 0 (by decide)), if_pos (hlt 1 (by decide)),
      if_pos (hlt 2 (by decide)), if_pos (hlt 3 (by decide))]

/-- The legacy monochrome decode does what the specification says for every row pitch the
mapped texture can have: its `memset` clears `RowPitch * 256` bytes. -/
theorem updateCursorShape_monochrome_texels (w h : Nat) (bits pData : Mem)
    (RowPitch row col : Nat) (hw : w < 2 ^ 32) (hp : 1024 ≤ RowPitch)
    (hand : ∀ i, i < (((w + 2 ^ 32 - 1) % 2 ^ 32) / 32 + 1) * 4 * h → bits i = 0)
    (hxor : ∀ i, (((w + 2 ^ 32 - 1) % 2 ^ 32) / 32 + 1) * 4 * h ≤ i →
      i < 2 * ((((w + 2 ^ 32 - 1) % 2 ^ 32) / 32 + 1) * 4 * h) → bits i = 0xFF)
    (hr : row < 256) (hc : col < 256) :
    texel (updateCursorShape_monochrome w h bits RowPitch pData) RowPitch row col
      = if row < min h 256 ∧ col < min w 256
        then [0xFF, 0xFF, 0xFF, 0xFF] else [0, 0, 0, 0] := by
  rw [updateCursorShape_monochrome_eq]
  simp only [CURSOR_TEX_SIZE]
  by_cases hin : row < min h 256 ∧ col < min w 256
  · rw [texel_of_bytes _ _ _ _ _ (fun k hk =>
      writeTexels_inside _ _ _ _ _ _ _ k (by omega) hin.1 hin.2 hk)]
    generalize hb : (((w + 2 ^ 32 - 1) % 2 ^ 32) / 32 + 1) * 4 = bpl at hand hxor ⊢
    have hcb : col / 8 < bpl := by omega
    have h1 : (row + 1) * bpl ≤ h * bpl := Nat.mul_le_mul_right _ (by omega)
    have h2 : (row + 1) * bpl = row * bpl + bpl := Nat.succ_mul _ _
    have h3 : bpl * h = h * bpl := Nat.mul_comm _ _
    have ea : util.get_pixel_from_row 1 (fun i => bits (0 + row * bpl + i)) col = 0 :=
      get_pixel_from_row_zero _ _ (by omega) (hand _ (by omega))
    have ex : util.get_pixel_from_row 1 (fun i => bits (bpl * h + row * bpl + i)) col = 1 :=
      get_pixel_from_row_ones _ _ (by omega) (hxor _ (by omega) (by omega))
    simp only [if_pos hin, ea, ex]
    decide
  · rw [texel_of_bytes _ _ _ _ _ (fun k hk =>
      writeTexels_texel_outside _ _ _ _ _ _ _ k hp (by omega) hc hk hin)]
    have h1 : (row + 1) * RowPitch ≤ 256 * RowPitch := Nat.mul_le_mul_right _ (by omega)
    have h2 : (row + 1) * RowPitch = row * RowPitch + RowPitch := Nat.succ_mul _ _
    have h3 : RowPitch * 256 = 256 * RowPitch := Nat.mul_comm _ _
    have hlt : ∀ k, k < 4 → row * RowPitch + col * 4 + k < RowPitch * 256 := by
      intro k hk; omega
    simp only [if_neg hin, Mem.memset, if_pos (hlt 0 (by decide)), if_pos (hlt 1 (by decide)),
      if_pos (hlt 2 (by decide)), if_pos (hlt 3 (by decide))]

/-- With an all-one AND plane every texel of the footprint gets alpha 0 in the modern
decode, whatever the row pitch and the XOR plane. -/
theorem updateCursor_shape_monochrome_transparent (pointer : DXGI_OUTDUPL_POINTER_SHAPE_INFO)
    (buffer pData : Mem) (RowPitch row col : Nat)
    (hT : pointer.ShapeType = DXGI_OUTDUPL_POINTER_SHAPE_TYPE_MONOCHROME)
    (hp : 1024 ≤ RowPitch) (hW : min pointer.Width 256 ≤ 8 * pointer.Pitch)
    (hand : ∀ i, i < pointer.Pitch * (pointer.Height / 2) → buffer i = 0xFF)
    (hr : row < min (pointer.Height / 2) 256) (hc : col < min pointer.Width 256) :
    DuplicationSource.updateCursor_shape pointer buffer RowPitch pData
      (row * RowPitch + col * 4 + 3) = 0 := by
  rw [updateCursor_shape_monochrome_bytes pointer buffer RowPitch pData row col 3 hT hp
    (by omega) (by decide), if_pos ⟨hr, hc⟩]
  have h1 : (row + 1) * pointer.Pitch ≤ (pointer.Height / 2) * pointer.Pitch :=
    Nat.mul_le_mul_right _ (by omega)
  have h2 : (row + 1) * pointer.Pitch = row * pointer.Pitch + pointer.Pitch :=
    Nat.succ_mul _ _
  have h3 : pointer.Pitch * (pointer.Height / 2) = (pointer.Height / 2) * pointer.Pitch :=
    Nat.mul_comm _ _
  have ea : util.get_pixel_from_row 1 (fun i => buffer (0 + row * pointer.Pitch + i)) col = 1 :=
    get_pixel_from_row_ones _ _ (by omega) (hand _ (by omega))
  rw [ea]
  simp

/-! ## Capture throttle of the hooked present -/

theorem copyTimes_append (a b : List AgentEvent) :
    copyTimes (a ++ b) = copyTimes a ++ copyTimes b := by
  induction a with
  | nil => rfl
  | cons e rest ih => cases e <;> simp [copyTimes, ih]

theorem copyTimes_copyBackBuffer (describe : Nat → String) (env : PresentEnv) (swap target : Ptr) :
    copyTimes (Agent.copyBackBuffer describe env swap target) = [] := by
  unfold Agent.copyBackBuffer
  cases env.GetDevice <;> cases env.GetBuffer <;> cases env.GetDesc
  all_goals simp only [copyTimes]
  all_goals (try split_ifs)
  all_goals rfl

theorem copyTimes_openCaptureTarget (describe : Nat → String) (env : PresentEnv) (a : Agent)
    (swap : Ptr) : copyTimes (Agent.openCaptureTarget describe env a swap).2 = [] := by
  unfold Agent.openCaptureTarget
  cases env.GetDevice <;> cases env.OpenSharedResource <;>
    simp only [] <;> split_ifs <;> rfl

theorem trySetupCapturing_quiet (describe : Nat → String) (env : PresentEnv) (a : Agent)
    (swap : Ptr) :
    copyTimes (Agent.trySetupCapturing describe env a swap).2 = []
    ∧ (Agent.trySetupCapturing describe env a swap).1.lastShot = a.lastShot := by
  unfold Agent.trySetupCapturing
  cases env.GetContainingOutput <;> cases env.OutputGetDesc <;>
    simp only [] <;> (try split_ifs) <;> simp [copyTimes]

/-- One hooked present either copies nothing and leaves `lastShot` alone, or copies once, at
its own tick count, more than 50 ms after `lastShot`, and remembers that tick count. -/
theorem OverriddenPresent_copies (describe : Nat → String) (env : PresentEnv) (a : Agent)
    (swap sync_interval flags : Nat) (hl : a.lastShot ≤ env.GetTickCount)
    (ht : env.GetTickCount < 2 ^ 32) :
    (copyTimes (Agent.OverriddenPresent describe env a swap sync_interval flags).2.1 = []
      ∧ (Agent.OverriddenPresent describe env a swap sync_interval flags).1.lastShot = a.lastShot)
    ∨ (copyTimes (Agent.OverriddenPresent describe env a swap sync_interval flags).2.1
        = [env.GetTickCount]
      ∧ (Agent.OverriddenPresent describe env a swap sync_interval flags).1.lastShot
        = env.GetTickCount
      ∧ a.lastShot + 50 < env.GetTickCount) := by
  have hm : env.GetTickCount % 2 ^ 32 = env.GetTickCount := Nat.mod_eq_of_lt ht
  have ho := copyTimes_openCaptureTarget describe env a swap
  have hc := fun t => copyTimes_copyBackBuffer describe env swap t
  have hs := trySetupCapturing_quiet describe env a swap
  simp only [Agent.OverriddenPresent, hm]
  split_ifs <;> simp_all [copyTimes_append, copyTimes] <;> omega

theorem react_copies (describe : Nat → String) (a : Agent) (i : AgentInput)
    (hl : ∀ t ∈ presentTicks [i], a.lastShot ≤ t ∧ t < 2 ^ 32) :
    (copyTimes (Agent.react describe a i).2 = []
      ∧ (Agent.react describe a i).1.lastShot = a.lastShot)
    ∨ (∃ t, presentTicks [i] = [t] ∧ copyTimes (Agent.react describe a i).2 = [t]
      ∧ (Agent.react describe a i).1.lastShot = t ∧ a.lastShot + 50 < t) := by
  cases i with
  | present env swap sync_interval flags =>
    have h := hl env.GetTickCount (by simp [presentTicks])
    rcases OverriddenPresent_copies describe env a swap sync_interval flags h.1 h.2 with h1 | h1
    · exact Or.inl h1
    · exact Or.inr ⟨env.GetTickCount, rfl, h1⟩
  | newTexture tex =>
    left
    simp only [Agent.react, Agent.onNewTexture]
    split_ifs <;> simp [copyTimes]
  | newScreen l t r b =>
    left
    exact ⟨rfl, rfl⟩

theorem presentTicks_cons (i : AgentInput) (rest : List AgentInput) :
    presentTicks (i :: rest) = presentTicks [i] ++ presentTicks rest := by
  cases i <;> simp [presentTicks]

/-- Along a run with non-decreasing tick counts every copy is more than 50 ms after the
`lastShot` the run started with, and any two copies are more than 50 ms apart. -/
theorem run_copies_spaced (describe : Nat → String) (inputs : List AgentInput) (a : Agent)
    (hl : ∀ t ∈ presentTicks inputs, a.lastShot ≤ t ∧ t < 2 ^ 32)
    (hs : (presentTicks inputs).Pairwise (fun x y => x ≤ y)) :
    (∀ c ∈ copyTimes (Agent.run describe a inputs).2, a.lastShot + 50 < c)
    ∧ (copyTimes (Agent.run describe a inputs).2).Pairwise (fun x y => x + 50 < y) := by
  induction inputs generalizing a with
  | nil => simp [Agent.run, copyTimes]
  | cons i rest ih =>
    rw [presentTicks_cons] at hl hs
    have hl1 : ∀ t ∈ presentTicks [i], a.lastShot ≤ t ∧ t < 2 ^ 32 :=
      fun t ht => hl t (List.mem_append_left _ ht)
    have hl2 : ∀ t ∈ presentTicks rest, a.lastShot ≤ t ∧ t < 2 ^ 32 :=
      fun t ht => hl t (List.mem_append_right _ ht)
    rw [List.pairwise_append] at hs
    simp only [Agent.run, copyTimes_append]
    rcases react_copies describe a i hl1 with ⟨h1, h2⟩ | ⟨t, h0, h1, h2, h3⟩
    · have := ih (Agent.react describe a i).1 (by rw [h2]; exact hl2) hs.2.1
      rw [h1, h2] at *
      simpa using this
    · have hge : ∀ u ∈ presentTicks rest, t ≤ u ∧ u < 2 ^ 32 := by
        intro u hu
        exact ⟨hs.2.2 t (by rw [h0]; simp) u hu, (hl2 u hu).2⟩
      have := ih (Agent.react describe a i).1 (by rw [h2]; exact hge) hs.2.1
      rw [h2] at this
      rw [h1]
      constructor
      · intro c hc
        simp only [List.singleton_append, List.mem_cons] at hc
        rcases hc with hc | hc
        · omega
        · have := this.1 c hc
          omega
      · simp only [List.singleton_append, List.pairwise_cons]
        exact ⟨this.1, this.2⟩

theorem spaced_length (l : List Nat) (lo hi : Nat)
    (hp : l.Pairwise (fun x y => x + 50 < y)) (hb : ∀ x ∈ l, lo ≤ x ∧ x ≤ hi) :
    l = [] ∨ 51 * l.length + lo ≤ hi + 51 := by
  induction l generalizing lo with
  | nil => exact Or.inl rfl
  | cons a rest ih =>
    right
    rw [List.pairwise_cons] at hp
    have ha := hb a (by simp)
    rcases ih (a + 51) hp.2 (fun x hx => ⟨by have := hp.1 x hx; omega,
        (hb x (by simp [hx])).2⟩) with h | h
    · subst h
      simp
      omega
    · simp only [List.length_cons]
      omega

/-- C8. Capture throttle: along every sequence of hooked presents and control messages in
which the tick counts read are non-decreasing 32-bit values not below the `lastShot` the
agent starts with (0 in a fresh agent), any two calls of `copyBackBuffer` are at least
50 ms apart, and at most 21 of them fall into any window of 1000 ms. -/
theorem capture_throttle (describe : Nat → String) (a : Agent) (inputs : List AgentInput)
    (hl : ∀ t ∈ presentTicks inputs, a.lastShot ≤ t ∧ t < 2 ^ 32)
    (hs : (presentTicks inputs).Pairwise (fun x y => x ≤ y)) :
    (copyTimes (Agent.run describe a inputs).2).Pairwise (fun x y => x + 50 ≤ y)
    ∧ ∀ t, ((copyTimes (Agent.run describe a inputs).2).filter
        (fun c => decide (t ≤ c ∧ c ≤ t + 1000))).length ≤ 21 := by
  have h := (run_copies_spaced describe inputs a hl hs).2
  constructor
  · exact h.imp (fun hxy => by omega)
  · intro t
    have hf := h.filter (fun c => decide (t ≤ c ∧ c ≤ t + 1000))
    rcases spaced_length _ t (t + 1000) hf (fun x hx => by
      simpa using (List.mem_filter.mp hx).2) with h0 | h0
    · rw [h0]
      simp
    · omega

/-- C8, at a concrete run: presents of the captured swap chain at 100, 120, 151 and 200 ms copy
at 100 and 151 ms only. -/
theorem capture_throttle_witness :
    copyTimes (Agent.run (fun _ => "") sampleAgent samplePresents).2 = [100, 151]
    ∧ (copyTimes (Agent.run (fun _ => "") sampleAgent samplePresents).2).Pairwise
        (fun x y => x + 50 ≤ y)
    ∧ ∀ t, ((copyTimes (Agent.run (fun _ => "") sampleAgent samplePresents).2).filter
        (fun c => decide (t ≤ c ∧ c ≤ t + 1000))).length ≤ 21 :=
  ⟨by decide, capture_throttle (fun _ => "") sampleAgent samplePresents (by decide) (by decide)⟩

/-! ## Cursor-change detection of the legacy source -/

/-- C9. Cursor-change detection: of two successive successful polls the first leaves the
handle it saw as the remembered one; the second calls `updateCursorShape` not at all when
`GetCursorInfo` reports the same handle, and exactly once, with the new handle, when it
reports a different one, which then is the remembered one.  A failed poll calls nothing
and leaves the source as it is. -/
theorem updateCursor_change_detection (icon1 icon2 : Nat → Option ICONINFO) (dc1 dc2 : Bool)
    (s : SevenDwmSource) (tex1 tex2 : Ptr) (x y : Int) (vis : Bool) (pos1 pos2 : POINT)
    (info1 info2 : CURSORINFO) :
    (SevenDwmSource.updateCursor icon1 dc1 (some pos1) (some info1) s tex1 x y vis).source.m_lastCursorSeen
      = info1.hCursor
    ∧ (SevenDwmSource.updateCursor icon2 dc2 (some pos2) (some info2)
        (SevenDwmSource.updateCursor icon1 dc1 (some pos1) (some info1) s tex1 x y vis).source tex2
        (SevenDwmSource.updateCursor icon1 dc1 (some pos1) (some info1) s tex1 x y vis).cursorX
        (SevenDwmSource.updateCursor icon1 dc1 (some pos1) (some info1) s tex1 x y vis).cursorY
        (SevenDwmSource.updateCursor icon1 dc1 (some pos1) (some info1) s tex1 x y vis).cursorVisible
        ).shapeCalls
      = (if info2.hCursor = info1.hCursor then [] else [(tex2, info2.hCursor)])
    ∧ (SevenDwmSource.updateCursor icon2 dc2 (some pos2) (some info2)
        (SevenDwmSource.updateCursor icon1 dc1 (some pos1) (some info1) s tex1 x y vis).source tex2
        (SevenDwmSource.updateCursor icon1 dc1 (some pos1) (some info1) s tex1 x y vis).cursorX
        (SevenDwmSource.updateCursor icon1 dc1 (some pos1) (some info1) s tex1 x y vis).cursorY
        (SevenDwmSource.updateCursor icon1 dc1 (some pos1) (some info1) s tex1 x y vis).cursorVisible
        ).source.m_lastCursorSeen
      = info2.hCursor
    ∧ (∀ info : Option CURSORINFO,
        SevenDwmSource.updateCursor icon1 dc1 none info s tex1 x y vis
          = { source := s, cursorX := x, cursorY := y, cursorVisible := vis, shapeCalls := [] })
    ∧ SevenDwmSource.updateCursor icon1 dc1 (some pos1) none s tex1 x y vis
        = { source := s, cursorX := x, cursorY := y, cursorVisible := vis, shapeCalls := [] } := by
  have key : ∀ (icon : Nat → Option ICONINFO) (dc : Bool) (s : SevenDwmSource) (tex : Ptr)
      (x y : Int) (vis : Bool) (pos : POINT) (info : CURSORINFO),
      (SevenDwmSource.updateCursor icon dc (some pos) (some info) s tex x y vis).source.m_lastCursorSeen
        = info.hCursor
      ∧ (SevenDwmSource.updateCursor icon dc (some pos) (some info) s tex x y vis).shapeCalls
        = (if info.hCursor = s.m_lastCursorSeen then [] else [(tex, info.hCursor)]) := by
    intro icon dc s tex x y vis pos info
    simp only [SevenDwmSource.updateCursor]
    by_cases h : info.hCursor = s.m_lastCursorSeen
    · simp [h]
    · simp [h]
  refine ⟨(key _ _ _ _ _ _ _ _ _).1, ?_, (key _ _ _ _ _ _ _ _ _).1, fun _ => rfl, rfl⟩
  rw [(key icon2 dc2 _ tex2 _ _ _ pos2 info2).2, (key icon1 dc1 s tex1 x y vis pos1 info1).1]

/-! ## Frame release of the modern source -/

/-- A rebind that reaches the adapter returns with `frameAcquired` cleared. -/
theorem reinit_frameAcquired (describe : Nat → String) (outs : List DXGIOutput)
    (s : DuplicationSource) (e : Effects) (device : Ptr) (x y w h : Int) (hd : device ≠ 0) :
    ∃ r, DuplicationSource.reinit describe (some outs) s e device x y w h = some r
      ∧ r.1.m_frameAcquired = false := by
  simp only [DuplicationSource.reinit, if_neg hd]
  cases DuplicationSource.findOutput x y w h 0 outs with
  | none => exact ⟨_, rfl, rfl⟩
  | some p => exact ⟨_, rfl, rfl⟩

theorem releaseFrame_noop (s : DuplicationSource) (e : Effects) (h : s.m_frameAcquired = false) :
    DuplicationSource.releaseFrame s e = (s, e) := by
  rcases s with ⟨a, b, c, d, f, g, fa, i, j⟩
  simp only at h
  subst h
  simp [DuplicationSource.releaseFrame]

/-- C10. No double release: `releaseFrame` calls `ReleaseFrame` on the duplication handle exactly
once when a frame is held and the source is bound, not at all otherwise, touches nothing
else and always leaves `frameAcquired` false; so without a held frame, and in particular
as a second consecutive call or after an `acquireFrame` that did not succeed, it changes
nothing. -/
theorem releaseFrame_once (describe : Nat → String) (outputs : Option (List DXGIOutput))
    (answer : AcquireAnswer) (s : DuplicationSource) (e : Effects) :
    (DuplicationSource.releaseFrame s e).1 = { s with m_frameAcquired := false }
    ∧ (DuplicationSource.releaseFrame s e).2.releaseFrames
        = e.releaseFrames ++
          (if s.m_frameAcquired = true ∧ s.m_duplication.m_ptr ≠ 0 then [s.m_duplication.m_ptr]
           else [])
    ∧ (DuplicationSource.releaseFrame s e).2.heap = e.heap
    ∧ (DuplicationSource.releaseFrame s e).2.log = e.log
    ∧ (DuplicationSource.releaseFrame s e).2.acquires = e.acquires
    ∧ (s.m_frameAcquired = false → DuplicationSource.releaseFrame s e = (s, e))
    ∧ DuplicationSource.releaseFrame (DuplicationSource.releaseFrame s e).1
          (DuplicationSource.releaseFrame s e).2
        = DuplicationSource.releaseFrame s e
    ∧ (s.m_frameAcquired = false → SUCCEEDED answer.hr = false →
        (answer.hr ≠ DXGI_ERROR_ACCESS_LOST ∨ outputs ≠ none) →
        ∃ r, DuplicationSource.acquireFrame describe outputs answer s e = some r
          ∧ r.1.m_frameAcquired = false
          ∧ DuplicationSource.releaseFrame r.1 r.2 = r) := by
  refine ⟨rfl, ?_, ?_, ?_, ?_, releaseFrame_noop s e, releaseFrame_noop _ _ rfl, ?_⟩
  · simp only [DuplicationSource.releaseFrame]
    split_ifs <;> simp_all
  · simp only [DuplicationSource.releaseFrame]
    split_ifs <;> rfl
  · simp only [DuplicationSource.releaseFrame]
    split_ifs <;> rfl
  · simp only [DuplicationSource.releaseFrame]
    split_ifs <;> rfl
  · intro hfa hfail hre
    have hfin : ∀ r : DuplicationSource × Effects, r.1.m_frameAcquired = false →
        r.1.m_frameAcquired = false ∧ DuplicationSource.releaseFrame r.1 r.2 = r :=
      fun r hr => ⟨hr, releaseFrame_noop r.1 r.2 hr⟩
    unfold DuplicationSource.acquireFrame
    by_cases hb : (s.m_duplication.m_ptr = 0 || s.m_dev = 0) = true
    · rw [if_pos hb]
      exact ⟨(s, e), rfl, hfin _ hfa⟩
    · rw [if_neg hb]
      have hdev : s.m_dev ≠ 0 := by
        intro h0
        exact hb (by simp [h0])
      by_cases hto : answer.hr = DXGI_ERROR_WAIT_TIMEOUT
      · simp only [if_pos hto]
        exact ⟨_, rfl, hfin _ hfa⟩
      · simp only [if_neg hto]
        by_cases hal : answer.hr = DXGI_ERROR_ACCESS_LOST
        · have hF : (FAILED answer.hr && decide (answer.hr = DXGI_ERROR_ACCESS_LOST)) = true := by
            rw [hal]
            decide
          rw [if_pos hF]
          rcases hre with hre | hre
          · exact absurd hal hre
          · cases outputs with
            | none => exact absurd rfl hre
            | some outs =>
              obtain ⟨r, hr1, hr2⟩ := reinit_frameAcquired describe outs
                { s with m_duplInfo := answer.info.getD s.m_duplInfo,
                         m_duplDesktopImage := com_ptr.store_pptr
                           (com_ptr.pptr_cleared e.heap s.m_duplDesktopImage).2 answer.resource,
                         m_frameAcquired := SUCCEEDED answer.hr }
                _ s.m_dev s.m_desktopX s.m_desktopY s.m_desktopWidth s.m_desktopHeight hdev
              exact ⟨r, hr1, hfin r hr2⟩
        · have hF : ¬ (FAILED answer.hr && decide (answer.hr = DXGI_ERROR_ACCESS_LOST)) = true := by
            simp [hal]
          rw [if_neg hF]
          exact ⟨_, rfl, hfin _ hfail⟩

/-- C10, at a concrete source: bound to handle 11, an `AcquireNextFrame` that times out is
followed by a `releaseFrame` that changes nothing, while a held frame is released with
exactly one `ReleaseFrame` on handle 11. -/
theorem releaseFrame_once_witness :
    (∃ r, DuplicationSource.acquireFrame (fun _ => "") none
          { hr := DXGI_ERROR_WAIT_TIMEOUT, info := none, resource := 0 }
          sampleDuplicationSource Effects.none = some r
        ∧ r.1.m_frameAcquired = false
        ∧ DuplicationSource.releaseFrame r.1 r.2 = r)
    ∧ (DuplicationSource.releaseFrame { sampleDuplicationSource with m_frameAcquired := true }
        Effects.none).2.releaseFrames = [11] :=
  ⟨(releaseFrame_once (fun _ => "") none
      { hr := DXGI_ERROR_WAIT_TIMEOUT, info := none, resource := 0 }
      sampleDuplicationSource Effects.none).2.2.2.2.2.2.2 rfl (by decide) (Or.inl (by decide)),
   by decide⟩

/-! ## Binding of the modern source -/

/-- The output search of `reinit` finds the first output that supplies `IDXGIOutput1` and
matches the monitor, together with its index in the enumeration. -/
theorem findOutput_eq_find (x y w h : Int) (outs : List DXGIOutput) (i : Nat) :
    (DuplicationSource.findOutput x y w h i outs).map Prod.snd
      = outs.find? (fun o => decide (o.output1 ≠ 0) && matchesMonitor x y w h o) := by
  induction outs generalizing i with
  | nil => rfl
  | cons o rest ih =>
    by_cases h1 : o.output1 = 0
    · simp [DuplicationSource.findOutput, h1, List.find?_cons, ih]
    · by_cases h2 : matchesMonitor x y w h o = true
      · have h2' := h2
        simp only [matchesMonitor] at h2'
        simp [DuplicationSource.findOutput, h1, h2, h2', List.find?_cons]
      · have h2' := h2
        simp only [matchesMonitor] at h2'
        simp [DuplicationSource.findOutput, h1, h2, h2', List.find?_cons, ih]

/-- What a rebind that reaches the adapter leaves behind. -/
theorem reinit_result (describe : Nat → String) (outs : List DXGIOutput)
    (s : DuplicationSource) (e : Effects) (device : Ptr) (x y w h : Int) (hd : device ≠ 0) :
    ∃ r, DuplicationSource.reinit describe (some outs) s e device x y w h = some r
      ∧ r.1 = { m_dev := device, m_desktopWidth := w, m_desktopHeight := h, m_desktopX := x,
                m_desktopY := y, m_frameAcquired := false, m_duplInfo := s.m_duplInfo,
                m_duplDesktopImage := { m_ptr := 0 },
                m_duplication :=
                  { m_ptr := ((DuplicationSource.findOutput x y w h 0 outs).map
                      (fun p => p.2.duplication)).getD 0 } }
      ∧ r.2.duplicateCalls = e.duplicateCalls
          ++ ((DuplicationSource.findOutput x y w h 0 outs).map (fun p => p.2.output1)).toList := by
  simp only [DuplicationSource.reinit, if_neg hd]
  cases DuplicationSource.findOutput x y w h 0 outs with
  | none =>
    refine ⟨_, rfl, ?_, ?_⟩
    · simp [com_ptr.clear]
    · simp
  | some p =>
    refine ⟨_, rfl, ?_, ?_⟩
    · simp [com_ptr.clear, com_ptr.pptr_cleared, com_ptr.store_pptr]
    · simp

theorem containsText_append (a b part : String) (h : containsText a part) :
    containsText (a ++ b) part := by
  obtain ⟨pre, suf, hps⟩ := h
  refine ⟨pre, suf ++ b.toList, ?_⟩
  simp only [String.toList, String.data_append] at hps ⊢
  rw [← hps]
  simp

/-- C11. Rebind idempotence: with a device and its adapter outputs fixed, a second
`reinit(D, x, y, w, h)` right after the first returns the source exactly as the first left
it, device, rectangle, cleared `frameAcquired`, no cached frame resource and the same
duplication binding, and it calls `DuplicateOutput` on the same output as the first (or,
like the first, on none). -/
theorem reinit_idempotent (describe : Nat → String) (outs : List DXGIOutput)
    (s : DuplicationSource) (e : Effects) (device : Ptr) (x y w h : Int) (hd : device ≠ 0) :
    ∃ r1 r2, DuplicationSource.reinit describe (some outs) s e device x y w h = some r1
      ∧ DuplicationSource.reinit describe (some outs) r1.1 r1.2 device x y w h = some r2
      ∧ r2.1 = r1.1
      ∧ r1.1.m_dev = device
      ∧ r1.1.m_desktopX = x ∧ r1.1.m_desktopY = y
      ∧ r1.1.m_desktopWidth = w ∧ r1.1.m_desktopHeight = h
      ∧ r1.1.m_frameAcquired = false
      ∧ r1.1.m_duplDesktopImage.m_ptr = 0
      ∧ ∃ d, r1.2.duplicateCalls = e.duplicateCalls ++ d
          ∧ r2.2.duplicateCalls = r1.2.duplicateCalls ++ d := by
  obtain ⟨r1, h1, hs1, hc1⟩ := reinit_result describe outs s e device x y w h hd
  obtain ⟨r2, h2, hs2, hc2⟩ := reinit_result describe outs r1.1 r1.2 device x y w h hd
  refine ⟨r1, r2, h1, h2, ?_, ?_, ?_, ?_, ?_, ?_, ?_, ?_, _, hc1, hc2⟩
  · rw [hs2, hs1]
  all_goals rw [hs1]

/-- C11, at a concrete adapter: a fresh source rebound twice to the 1920x1080 monitor at the
origin on device 1. -/
theorem reinit_idempotent_witness :
    ∃ r1 r2, DuplicationSource.reinit (fun _ => "") (some sampleOutputs) {} Effects.none
          1 0 0 1920 1080 = some r1
      ∧ DuplicationSource.reinit (fun _ => "") (some sampleOutputs) r1.1 r1.2
          1 0 0 1920 1080 = some r2
      ∧ r2.1 = r1.1 := by
  obtain ⟨r1, r2, h1, h2, h3, _⟩ :=
    reinit_idempotent (fun _ => "") sampleOutputs {} Effects.none 1 0 0 1920 1080 (by decide)
  exact ⟨r1, r2, h1, h2, h3⟩

/-- C13 as stated fails: of two outputs attached to the desktop with exactly the coordinates
of the monitor, `reinit` requests duplication not from the first (output 20, which does
not supply `IDXGIOutput1`) but from the second (output 21, interface 22). -/
theorem reinit_skips_output_without_IDXGIOutput1 :
    (sampleOutputs.find? (matchesMonitor 0 0 1920 1080)).map (fun o => o.output) = some 20
    ∧ (DuplicationSource.reinit (fun _ => "") (some sampleOutputs) {} Effects.none
          1 0 0 1920 1080).map (fun r => (r.2.duplicateCalls, r.1.m_duplication.m_ptr))
        = some ([22], 33) := by
  constructor
  · decide
  · obtain ⟨r, h1, hs, hc⟩ :=
      reinit_result (fun _ => "") sampleOutputs {} Effects.none 1 0 0 1920 1080 (by decide)
    rw [h1]
    simp only [Option.map_some', hc, hs]
    decide

/-- C13, amended. Modern-source bind: on a non-null device whose adapter can be obtained,
`reinit` requests duplication from the first output that supplies `IDXGIOutput1`, is
attached to the desktop and has exactly the desktop coordinates `(x, y, x+w, y+h)`, and
stores the handle that request yields; if there is no such output it makes no request, the
source remains unbound, and the last log line contains "Couldn't find display". -/
theorem reinit_binds_first_duplicable (describe : Nat → String) (outs : List DXGIOutput)
    (s : DuplicationSource) (e : Effects) (device : Ptr) (x y w h : Int) (hd : device ≠ 0) :
    ∃ r, DuplicationSource.reinit describe (some outs) s e device x y w h = some r
      ∧ match outs.find? (fun o => decide (o.output1 ≠ 0) && matchesMonitor x y w h o) with
        | some o =>
          r.2.duplicateCalls = e.duplicateCalls ++ [o.output1]
          ∧ r.1.m_duplication.m_ptr = o.duplication
        | none =>
          r.2.duplicateCalls = e.duplicateCalls
          ∧ r.1.m_duplication.m_ptr = 0
          ∧ ∃ line, r.2.log.getLast? = some line
              ∧ containsText line "Couldn\x27t find display" := by
  obtain ⟨r, h1, hs, hc⟩ := reinit_result describe outs s e device x y w h hd
  refine ⟨r, h1, ?_⟩
  have hf := findOutput_eq_find x y w h outs 0
  cases hfo : DuplicationSource.findOutput x y w h 0 outs with
  | some p =>
    rw [hfo] at hf hc
    simp only [Option.map_some'] at hf
    rw [← hf]
    simp only
    rw [hs, hfo]
    exact ⟨by simpa using hc, rfl⟩
  | none =>
    rw [hfo] at hf hc
    simp only [Option.map_none'] at hf
    rw [← hf]
    simp only
    rw [hs, hfo]
    refine ⟨by simpa using hc, rfl, ?_⟩
    simp only [DuplicationSource.reinit, if_neg hd, hfo] at h1
    have hr := (Option.some.inj h1).symm
    rw [hr]
    refine ⟨_, List.getLast?_concat .., ?_⟩
    apply containsText_append
    apply containsText_append
    apply containsText_append
    apply containsText_append
    apply containsText_append
    apply containsText_append
    apply containsText_append
    exact ⟨"WARNING: ".toList, ": x=".toList, by decide⟩

/-- C13, amended, at a concrete adapter: the monitor 1920x1080 at the origin is duplicated
from the second of `sampleOutputs`. -/
theorem reinit_binds_first_duplicable_witness :
    ∃ r, DuplicationSource.reinit (fun _ => "") (some sampleOutputs) {} Effects.none
          1 0 0 1920 1080 = some r
      ∧ r.2.duplicateCalls = [22] ∧ r.1.m_duplication.m_ptr = 33 := by
  obtain ⟨r, h1, h2⟩ := reinit_binds_first_duplicable (fun _ => "") sampleOutputs {}
    Effects.none 1 0 0 1920 1080 (by decide)
  have hf : sampleOutputs.find? (fun o => decide (o.output1 ≠ 0)
      && matchesMonitor 0 0 1920 1080 o) = some
        { output := 21, output1 := 22, AttachedToDesktop := true, left := 0, top := 0,
          right := 1920, bottom := 1080, duplicate_hr := 0, duplication := 33 } := by
    decide
  rw [hf] at h2
  exact ⟨r, h1, h2.1, h2.2⟩

/-! ## The agent's watchdog -/

theorem handleAll_lastKeepAlive (c : Communicator) (a : Agent) (msgs : List AgentMessage) :
    (Communicator.handleAll c a msgs).1.m_lastKeepAlive
      = match (msgs.filter (fun m => m.msgid = WM_APP_KEEPALIVE)).getLast? with
        | some m => m.GetTickCount % 2 ^ 32
        | none => c.m_lastKeepAlive := by
  induction msgs generalizing c a with
  | nil => rfl
  | cons m rest ih =>
    simp only [Communicator.handleAll]
    rw [ih]
    by_cases hk : m.msgid = WM_APP_KEEPALIVE
    · have h1 : (Communicator.handleMessage c a m).1
          = Communicator.onKeepAlive m.GetTickCount c := by
        simp [Communicator.handleMessage, hk, WM_APP_KEEPALIVE, WM_COPYDATA, WM_APP_NEWTEXTURE]
      rw [h1, List.filter_cons_of_pos (by simpa using hk)]
      cases hr : (rest.filter (fun m => m.msgid = WM_APP_KEEPALIVE)).getLast? with
      | none =>
        have : rest.filter (fun m => m.msgid = WM_APP_KEEPALIVE) = [] := by
          simpa using hr
        simp [this, Communicator.onKeepAlive]
      | some k =>
        have : (m :: rest.filter (fun m => m.msgid = WM_APP_KEEPALIVE)).getLast? = some k := by
          rw [List.getLast?_cons, hr]; rfl
        simp [this]
    · have h1 : (Communicator.handleMessage c a m).1 = c := by
        simp only [Communicator.handleMessage]
        split_ifs <;> rfl
      rw [h1, List.filter_cons_of_neg (by simpa using hk)]

theorem handleAll_mostRecent (created : Nat) (a : Agent) (msgs : List AgentMessage) :
    (Communicator.handleAll (Communicator.create created) a msgs).1.m_lastKeepAlive
      = mostRecentKeepAlive created msgs := by
  rw [handleAll_lastKeepAlive]
  rfl

theorem handleMessage_timer (c : Communicator) (a : Agent) (t : Nat) :
    (Communicator.handleMessage c a
        { GetTickCount := t, msgid := WM_TIMER, wp := Communicator.CHECK_KEEPALIVE_TIMER_ID }).2.2.2
      = Communicator.onCheckKeepAlive t c := by
  simp [Communicator.handleMessage, WM_TIMER, WM_COPYDATA, WM_APP_NEWTEXTURE, WM_APP_KEEPALIVE]

/-- C12. Agent watchdog: after any sequence of messages handled since the communicator was
created at tick count `created`, a check-keepalive timer tick at tick count `t` posts
quit (once, with code -1) iff `t - lastKeepAlive > 2000` in 32-bit arithmetic, where
`lastKeepAlive` is the tick count of the most recent `WM_APP_KEEPALIVE`, or `created` if
there was none; so a tick at most 2000 ms after a keep-alive posts nothing. -/
theorem watchdog_posts_quit (created : Nat) (a : Agent) (msgs : List AgentMessage) (t : Nat) :
    (Communicator.handleMessage
        (Communicator.handleAll (Communicator.create created) a msgs).1
        (Communicator.handleAll (Communicator.create created) a msgs).2.1
        { GetTickCount := t, msgid := WM_TIMER, wp := Communicator.CHECK_KEEPALIVE_TIMER_ID }).2.2.2
      = (if (t % 2 ^ 32 + 2 ^ 32 - mostRecentKeepAlive created msgs) % 2 ^ 32 > 2000
          then [-1] else [])
    ∧ (∀ k d, d ≤ 2000 → k + d < 2 ^ 32 →
        Communicator.onCheckKeepAlive (k + d) (Communicator.onKeepAlive k
          (Communicator.handleAll (Communicator.create created) a msgs).1) = []) := by
  constructor
  · rw [handleMessage_timer]
    simp only [Communicator.onCheckKeepAlive, handleAll_mostRecent]
  · intro k d hd hk
    simp only [Communicator.onCheckKeepAlive, Communicator.onKeepAlive]
    rw [if_neg]
    omega

/-- C12, at a concrete agent: created at tick 1000, kept alive at 5000, a timer tick at 6500
posts nothing and one at 7001 posts quit. -/
theorem watchdog_posts_quit_witness :
    Communicator.onCheckKeepAlive (5000 + 1500) (Communicator.onKeepAlive 5000
      (Communicator.handleAll (Communicator.create 1000) {}
        [{ GetTickCount := 5000, msgid := WM_APP_KEEPALIVE }]).1) = []
    ∧ Communicator.onCheckKeepAlive 7001 (Communicator.handleAll (Communicator.create 1000) {}
        [{ GetTickCount := 5000, msgid := WM_APP_KEEPALIVE }]).1 = [-1] :=
  ⟨(watchdog_posts_quit 1000 {} [{ GetTickCount := 5000, msgid := WM_APP_KEEPALIVE }] 0).2
      5000 1500 (by decide) (by decide),
   by decide⟩

/-! ## The logger -/

/-- C14, evaluated: in the initial state, without a handler, the text "hi" followed by a line
break is flushed: no handler is called, nothing is written to `stderr`, and the buffer is
emptied, so the message is dropped where `dllapi.h` promises it is printed to `stderr`. -/
theorem sync_without_handler_drops :
    (Logger.sync (Logger.write {} [104, 105, 10]) {}).2.stderr = []
    ∧ (Logger.sync (Logger.write {} [104, 105, 10]) {}).2.handlerCalls = []
    ∧ (Logger.sync (Logger.write {} [104, 105, 10]) {}).1.buffer = [] := by
  decide

/-- No function of the logger writes to `stderr`, whatever handler is installed. -/
theorem sync_never_writes_stderr (l : Logger) (out : LogOutput) :
    (Logger.sync l out).2.stderr = out.stderr := by
  simp only [Logger.sync]
  split_ifs <;> rfl

theorem rtrim_spec (s : List Nat) :
    ∃ suf, s = rtrim s ++ suf ∧ (∀ c ∈ suf, isspace c = true)
      ∧ ∀ c, (rtrim s).getLast? = some c → isspace c = false := by
  refine ⟨(s.reverse.takeWhile isspace).reverse, ?_, ?_, ?_⟩
  · have h := List.takeWhile_append_dropWhile isspace s.reverse
    have h2 := congrArg List.reverse h
    simp only [List.reverse_append, List.reverse_reverse] at h2
    simp only [rtrim]
    exact h2.symm
  · intro c hc
    rw [List.mem_reverse] at hc
    exact List.mem_takeWhile_imp hc
  · intro c hc
    simp only [rtrim, List.getLast?_reverse] at hc
    have := List.head?_dropWhile_not isspace s.reverse
    rw [hc] at this
    simpa using this

theorem ltrim_spec (s : List Nat) :
    ∃ pre, s = pre ++ ltrim s ∧ (∀ c ∈ pre, isspace c = true)
      ∧ ∀ c, (ltrim s).head? = some c → isspace c = false := by
  refine ⟨s.takeWhile isspace, (List.takeWhile_append_dropWhile isspace s).symm, ?_, ?_⟩
  · intro c hc
    exact List.mem_takeWhile_imp hc
  · intro c hc
    have := List.head?_dropWhile_not isspace s
    simp only [ltrim] at hc
    rw [hc] at this
    simpa using this

/-- The function `trim` strips exactly the leading and the trailing whitespace: what it cuts off
on either side is whitespace only, and what remains neither begins nor ends with
whitespace. -/
theorem trim_spec (s : List Nat) :
    ∃ pre suf, s = pre ++ trim s ++ suf
      ∧ (∀ c ∈ pre, isspace c = true) ∧ (∀ c ∈ suf, isspace c = true)
      ∧ (∀ c, (trim s).head? = some c → isspace c = false)
      ∧ (∀ c, (trim s).getLast? = some c → isspace c = false) := by
  obtain ⟨suf, hs, hsuf, hlast⟩ := rtrim_spec s
  obtain ⟨pre, hp, hpre, hhead⟩ := ltrim_spec (rtrim s)
  refine ⟨pre, suf, ?_, hpre, hsuf, hhead, ?_⟩
  · simp only [trim]
    rw [← hp]
    exact hs
  · intro c hc
    apply hlast c
    simp only [trim] at hc
    rw [hp]
    by_cases hn : ltrim (rtrim s) = []
    · rw [hn] at hc
      simp at hc
    · rw [List.getLast?_append_of_ne_nil _ hn]
      exact hc

theorem c_str_trim (text : List Nat) (hz : 0 ∉ text) : c_str (trim text) = trim text := by
  obtain ⟨pre, suf, hs, _⟩ := trim_spec text
  simp only [c_str, List.takeWhile_eq_self_iff]
  intro c hc
  have hmem : c ∈ text := by
    rw [hs]
    simp [hc]
  have : c ≠ 0 := fun h0 => hz (h0 ▸ hmem)
  simpa using this

/-- A flush while handler `h` is installed with userdata `u` makes exactly one handler call, of
`h`, with `u` and with what a reader of the C string sees of the trimmed buffer: its bytes
up to the first NUL.  The buffer is empty after a flush whether or not a handler is
installed. -/
theorem sync_delivers_c_str (l0 : Logger) (h u : Nat) (text : List Nat) (out : LogOutput)
    (hh : h ≠ 0) (hb : l0.buffer = []) :
    (Logger.sync (Logger.write (SV_SetLogHandler l0 h u) text) out).2.handlerCalls
        = out.handlerCalls ++ [(h, c_str (trim text), u)]
    ∧ (Logger.sync (Logger.write (SV_SetLogHandler l0 h u) text) out).1.buffer = []
    ∧ (Logger.sync (Logger.write l0 text) out).1.buffer = [] := by
  refine ⟨?_, rfl, rfl⟩
  simp only [Logger.sync, Logger.write, SV_SetLogHandler, hb, List.nil_append]
  rw [if_pos hh]

/-- A text without a NUL byte streamed into the empty log buffer and flushed while handler `h`
is installed with userdata `u` makes exactly one handler call, of `h`, with `u` and with
the text stripped of its leading and trailing whitespace, so that the message neither
begins nor ends with whitespace (a line break included). -/
theorem sync_delivers_trimmed (l0 : Logger) (h u : Nat) (text : List Nat) (out : LogOutput)
    (hh : h ≠ 0) (hb : l0.buffer = []) (hz : 0 ∉ text) :
    (Logger.sync (Logger.write (SV_SetLogHandler l0 h u) text) out).2.handlerCalls
        = out.handlerCalls ++ [(h, trim text, u)]
    ∧ (Logger.sync (Logger.write (SV_SetLogHandler l0 h u) text) out).1.buffer = []
    ∧ (Logger.sync (Logger.write l0 text) out).1.buffer = []
    ∧ ∃ pre suf, text = pre ++ trim text ++ suf
        ∧ (∀ c ∈ pre, isspace c = true) ∧ (∀ c ∈ suf, isspace c = true)
        ∧ (∀ c, (trim text).head? = some c → isspace c = false)
        ∧ (∀ c, (trim text).getLast? = some c → isspace c = false) := by
  refine ⟨?_, rfl, rfl, trim_spec text⟩
  simp only [Logger.sync, Logger.write, SV_SetLogHandler, hb, List.nil_append]
  rw [if_pos hh, c_str_trim text hz]

/-- At a concrete flush: the text "  hi" followed by a line break, with handler 7 and userdata 9
installed, is delivered as "hi". -/
theorem sync_delivers_trimmed_witness :
    (Logger.sync (Logger.write (SV_SetLogHandler {} 7 9) [32, 32, 104, 105, 10]) {}).2.handlerCalls
        = [(7, [104, 105], 9)]
    ∧ (Logger.sync (Logger.write (SV_SetLogHandler {} 7 9) [32, 32, 104, 105, 10]) {}).1.buffer
        = [] :=
  ⟨(sync_delivers_trimmed {} 7 9 [32, 32, 104, 105, 10] {} (by decide) rfl (by decide)).1,
   (sync_delivers_trimmed {} 7 9 [32, 32, 104, 105, 10] {} (by decide) rfl (by decide)).2.1⟩

/-- The string `hresult_to_utf8` returns ends in a NUL byte after the text of the system
message. -/
theorem hresult_to_utf8_keeps_NUL (systemMessage : Nat → Option (List Nat)) (hr : Nat)
    (text : List Nat) (h : systemMessage hr = some text) :
    util.hresult_to_utf8 systemMessage hr = text ++ [0] := by
  simp [util.hresult_to_utf8, util.wcsdup_to_utf8, util.wcsdup_to_codepage, h]

/-- C15, evaluated: with handler 7 and userdata 9 installed, the statement
`logger << "Failed: AcquireNextFrame: " << util::hresult_to_utf8(hr) << std::endl` for
`E_INVALIDARG`, whose system message is "The parameter is incorrect." followed by CR LF.
The string returned by `hresult_to_utf8` keeps its terminating NUL, `rtrim` stops at it
after the line break of `std::endl`, and the handler, called once, reads a message that
ends in CR LF: not the buffered text stripped of its trailing whitespace.  The buffer is
empty afterwards. -/
theorem sync_delivers_line_break :
    (sampleLogLine).buffer
      = asciiBytes "Failed: AcquireNextFrame: The parameter is incorrect."
          ++ [13, 10, 0, 10]
    ∧ (Logger.sync sampleLogLine {}).2.handlerCalls
      = [(7, asciiBytes "Failed: AcquireNextFrame: The parameter is incorrect." ++ [13, 10], 9)]
    ∧ isspace 13 = true ∧ isspace 10 = true
    ∧ (Logger.sync sampleLogLine {}).1.buffer = [] := by
  refine ⟨?_, ?_, ?_, ?_, ?_⟩ <;> decide

/-! ## A renderer without a device -/

/-- Without a device `resize` and `render` return at once, but the destructor dereferences
the null `m_device`, and so does `reset` through `DuplicationSource::reinit`. -/
theorem renderer_no_device (describe : Nat → String) (outputs : Option (List DXGIOutput))
    (rest : SourceOps (DuplicationSource × Effects)) (renv : ResizeEnv) (env : ResetEnv)
    (mapSucceeded : Bool) (r : Renderer) (src : DuplicationSource × Effects) (cr : RECT)
    (x y w h : Int) (hd : r.m_device.m_ptr = 0) :
    Renderer.resize describe renv r cr = some (r, [])
    ∧ Renderer.render (DuplicationSource.ops describe outputs rest) mapSucceeded r src
        = some (r, src, [])
    ∧ Renderer.reset (DuplicationSource.ops describe outputs rest) describe env r src x y w h
        = none
    ∧ Renderer.destroy r = none := by
  refine ⟨?_, ?_, ?_, ?_⟩
  · simp [Renderer.resize, hd]
  · simp [Renderer.render, hd]
  · simp [Renderer.reset, DuplicationSource.ops, DuplicationSource.reinit, hd]
  · simp [Renderer.destroy, hd]

/-- C16, evaluated: a renderer whose construction failed before a device existed (all handles
null) and a modern source.  `resize` and `render` complete without touching the device;
`reset`, run on `SETSCREEN`, hands the null device to `DuplicationSource::reinit`, which
dereferences it; and the destructor, run on `QUIT`, dereferences it in
`m_device->ClearState()`. -/
theorem renderer_without_device_faults :
    Renderer.resize (fun _ => "") sampleResizeEnv {} { left := 0, top := 0, right := 10, bottom := 10 }
        = some ({}, [])
    ∧ Renderer.render (DuplicationSource.ops (fun _ => "") (some sampleOutputs)
          (SourceOps.idle _)) true {} ({}, Effects.none) = some ({}, ({}, Effects.none), [])
    ∧ Renderer.reset (DuplicationSource.ops (fun _ => "") (some sampleOutputs)
          (SourceOps.idle _)) (fun _ => "") sampleResetEnv {} ({}, Effects.none) 0 0 1920 1080
        = none
    ∧ Renderer.destroy {} = none :=
  ⟨rfl, rfl, rfl, rfl⟩

/-! ## Remote calls -/

/-- Whenever `call_remote_func` returns success, the memory behind a non-null `returnValue`
holds whatever `GetExitCodeThread` stored for the value it was handed, the address of the
local `thread`, whether or not the wait timed out. -/
theorem call_remote_func_returnValue (env : RemoteCallEnv) (target : Nat) (dllBaseName : String)
    (functionOffset argument argumentLength old wait : Nat)
    (h : (injection.call_remote_func env target dllBaseName functionOffset argument
      argumentLength (some old) wait).result = true) :
    (injection.call_remote_func env target dllBaseName functionOffset argument
      argumentLength (some old) wait).returnValue
      = some ((env.GetExitCodeThread env.threadHolder).getD old) := by
  unfold injection.call_remote_func at h ⊢
  cases hf : injection.findRemoteBaseAddress env.snapshots dllBaseName with
  | none =>
    rw [hf] at h
    exact Bool.noConfusion h
  | some d =>
    rw [hf] at h
    dsimp only at h ⊢
    by_cases h1 : d = 0
    · rw [if_pos h1] at h; exact Bool.noConfusion h
    rw [if_neg h1] at h ⊢
    by_cases h2 : env.OpenProcess = 0
    · rw [if_pos h2] at h; exact Bool.noConfusion h
    rw [if_neg h2] at h ⊢
    split_ifs at h ⊢
    all_goals rfl

/-- Whenever `call_remote_func` does not return success, the memory behind `returnValue` is
as it was. -/
theorem call_remote_func_returnValue_failed (env : RemoteCallEnv) (target : Nat)
    (dllBaseName : String) (functionOffset argument argumentLength wait : Nat)
    (returnValue : Option Nat)
    (h : (injection.call_remote_func env target dllBaseName functionOffset argument
      argumentLength returnValue wait).result = false) :
    (injection.call_remote_func env target dllBaseName functionOffset argument
      argumentLength returnValue wait).returnValue = returnValue := by
  unfold injection.call_remote_func at h ⊢
  cases hf : injection.findRemoteBaseAddress env.snapshots dllBaseName with
  | none => rfl
  | some d =>
    rw [hf] at h
    dsimp only at h ⊢
    by_cases h1 : d = 0
    · rw [if_pos h1]
    rw [if_neg h1] at h ⊢
    by_cases h2 : env.OpenProcess = 0
    · rw [if_pos h2]
    rw [if_neg h2] at h ⊢
    split_ifs at h ⊢
    all_goals rfl

/-- A successful call with a non-null `returnValue` waits on the thread handle whenever it
waits, and calls `GetExitCodeThread` on the address of the local `thread`. -/
theorem call_remote_func_exit_code_call (env : RemoteCallEnv) (target : Nat)
    (dllBaseName : String) (functionOffset argument old wait : Nat)
    (hwait : wait % 2 ^ 32 ≠ 0)
    (h : (injection.call_remote_func env target dllBaseName functionOffset argument
      0 (some old) wait).result = true) :
    RemoteEvent.WaitForSingleObject env.CreateRemoteThread (wait % 2 ^ 32)
        ∈ (injection.call_remote_func env target dllBaseName functionOffset argument
            0 (some old) wait).events
    ∧ RemoteEvent.GetExitCodeThread env.threadHolder
        ∈ (injection.call_remote_func env target dllBaseName functionOffset argument
            0 (some old) wait).events := by
  unfold injection.call_remote_func at h ⊢
  cases hf : injection.findRemoteBaseAddress env.snapshots dllBaseName with
  | none =>
    rw [hf] at h
    exact Bool.noConfusion h
  | some d =>
    rw [hf] at h
    dsimp only at h ⊢
    by_cases h1 : d = 0
    · rw [if_pos h1] at h; exact Bool.noConfusion h
    rw [if_neg h1] at h ⊢
    by_cases h2 : env.OpenProcess = 0
    · rw [if_pos h2] at h; exact Bool.noConfusion h
    rw [if_neg h2] at h ⊢
    split_ifs at h ⊢
    all_goals simp_all

/-- C18: a call with `argumentLength == 0` and a non-null `returnValue` whose wait times out.
The code calls `GetExitCodeThread` whatever the wait came to, but hands it the address of
the local `thread` instead of the thread handle; as that address is not the handle of a
thread, the call stores nothing and the memory `returnValue` points to is as it was.  When
the call succeeds, the wait made is the finite one on the thread handle and the exit code
is asked for with that address. -/
theorem call_remote_func_timeout_untouched (env : RemoteCallEnv) (target : Nat)
    (dllBaseName : String) (functionOffset argument argumentLength old wait : Nat)
    (hto : waitTimesOut env argumentLength wait)
    (hholder : env.GetExitCodeThread env.threadHolder = none) :
    (injection.call_remote_func env target dllBaseName functionOffset argument
      argumentLength (some old) wait).returnValue = some old
    ∧ ((injection.call_remote_func env target dllBaseName functionOffset argument
        argumentLength (some old) wait).result = true →
        RemoteEvent.WaitForSingleObject env.CreateRemoteThread (wait % 2 ^ 32)
            ∈ (injection.call_remote_func env target dllBaseName functionOffset argument
                argumentLength (some old) wait).events
        ∧ RemoteEvent.GetExitCodeThread env.threadHolder
            ∈ (injection.call_remote_func env target dllBaseName functionOffset argument
                argumentLength (some old) wait).events) := by
  obtain ⟨hlen, hwait, _, _⟩ := hto
  subst hlen
  refine ⟨?_, fun h => call_remote_func_exit_code_call env target dllBaseName functionOffset
    argument old wait hwait h⟩
  cases hres : (injection.call_remote_func env target dllBaseName functionOffset argument
      0 (some old) wait).result with
  | true =>
    rw [call_remote_func_returnValue env target dllBaseName functionOffset argument 0 old wait
      hres, hholder]
    rfl
  | false =>
    exact call_remote_func_returnValue_failed env target dllBaseName functionOffset argument 0
      wait (some old) hres

/-- C18 at a concrete call: the remote thread 104 runs for 5 s, the wait of 100 ms times out;
`GetExitCodeThread` would report `STILL_ACTIVE` for the handle 104 but is handed the
address 0x0028FE40, and the memory still holds 7 after the call has returned success. -/
theorem call_remote_func_timeout_untouched_witness :
    waitTimesOut sampleRemoteEnv 0 100
    ∧ sampleRemoteEnv.GetExitCodeThread sampleRemoteEnv.CreateRemoteThread = some 259
    ∧ (injection.call_remote_func sampleRemoteEnv 1234 "kernel32.dll" 0x1000 5 0 (some 7)
        100).result = true
    ∧ (injection.call_remote_func sampleRemoteEnv 1234 "kernel32.dll" 0x1000 5 0 (some 7)
        100).returnValue = some 7 :=
  ⟨by simp [waitTimesOut, sampleRemoteEnv, INFINITE], by decide, by decide,
   (call_remote_func_timeout_untouched sampleRemoteEnv 1234 "kernel32.dll" 0x1000 5 0 7 100
      (by simp [waitTimesOut, sampleRemoteEnv, INFINITE]) (by decide)).1⟩

theorem threadStarts_append (a b : List RemoteEvent) :
    threadStarts (a ++ b) = threadStarts a ++ threadStarts b := by
  induction a with
  | nil => rfl
  | cons e rest ih => cases e <;> simp [threadStarts, ih]

theorem threadStarts_cleanup (mp m t p : Nat) : threadStarts (injection.cleanup mp m t p) = [] := by
  simp only [injection.cleanup]
  split_ifs <;> rfl

theorem findRemoteBaseAddress_retry (k : Nat) (rest : List Snapshot) (name : String) :
    injection.findRemoteBaseAddress (List.replicate k Snapshot.bad_length ++ rest) name
      = injection.findRemoteBaseAddress rest name := by
  induction k with
  | zero => rfl
  | succ n ih =>
    rw [List.replicate_succ, List.cons_append]
    simp only [injection.findRemoteBaseAddress]
    exact ih

/-- C19: a module loaded locally at `B` with the function at `B + o`, and listed in the module
snapshot of the target at `B2` (after any number of `ERROR_BAD_LENGTH` retries).
`get_function_offset` returns `o`.  `call_remote_func` with that offset starts at most one
remote thread, exactly when the process can be opened and, for `len > 0`, the argument was
allocated and copied; the thread starts at `B2 + o` with the raw `arg` for `len == 0` and
the address of the remote copy of the `len` bytes at `arg` for `len > 0`.  When the module
is not found in the target, no thread is created and `false` is returned. -/
theorem call_remote_func_round_trip (GetModuleHandle : String → Nat)
    (GetProcAddress : Nat → String → Nat) (env : RemoteCallEnv) (target : Nat)
    (module functionName listed : String) (B o B2 arg len : Nat) (returnValue : Option Nat)
    (wait k : Nat) (entries : List (String × Nat)) (rest : List Snapshot)
    (hB : GetModuleHandle module = B) (hB0 : B ≠ 0)
    (hF : GetProcAddress B functionName = B + o) (hBo : B + o < 2 ^ 32)
    (hsnap : env.snapshots = List.replicate k Snapshot.bad_length ++ Snapshot.modules entries :: rest)
    (hfind : entries.find? (fun me => wcsicmp_eq me.1 module) = some (listed, B2))
    (hB2 : B2 ≠ 0) (hB2o : B2 + o < 2 ^ 32) :
    injection.get_function_offset GetModuleHandle GetProcAddress module functionName = o
    ∧ threadStarts (injection.call_remote_func env target module o arg len returnValue wait).events
        = (if env.OpenProcess ≠ 0
              ∧ (len = 0 ∨ (env.VirtualAllocEx ≠ 0 ∧ env.WriteProcessMemory = true)) then
            [(env.OpenProcess, B2 + o, if len = 0 then arg else env.VirtualAllocEx)]
          else [])
    ∧ (len ≠ 0 →
        threadStarts (injection.call_remote_func env target module o arg len returnValue wait).events
          ≠ [] →
        RemoteEvent.WriteProcessMemory env.OpenProcess env.VirtualAllocEx arg len
          ∈ (injection.call_remote_func env target module o arg len returnValue wait).events)
    ∧ ∀ (other : RemoteCallEnv) (entries2 : List (String × Nat)) (rest2 : List Snapshot),
        other.snapshots
          = List.replicate k Snapshot.bad_length ++ Snapshot.modules entries2 :: rest2 →
        entries2.find? (fun me => wcsicmp_eq me.1 module) = none →
        (injection.call_remote_func other target module o arg len returnValue wait).returned = true
        ∧ (injection.call_remote_func other target module o arg len returnValue wait).result = false
        ∧ threadStarts
            (injection.call_remote_func other target module o arg len returnValue wait).events = [] := by
  have hbase : injection.findRemoteBaseAddress env.snapshots module = some B2 := by
    rw [hsnap, findRemoteBaseAddress_retry]
    simp only [injection.findRemoteBaseAddress, hfind]
    rw [Nat.mod_eq_of_lt (by omega)]
  have hfunc : (B2 + o) % 2 ^ 32 = B2 + o := Nat.mod_eq_of_lt hB2o
  refine ⟨?_, ?_, ?_, ?_⟩
  · have hne : B + o ≠ 0 := by omega
    simp only [injection.get_function_offset, hB, hF, if_neg hB0, if_neg hne]
    omega
  · unfold injection.call_remote_func
    rw [hbase]
    dsimp only
    rw [if_neg hB2, hfunc]
    by_cases h2 : env.OpenProcess = 0
    · rw [if_pos h2]
      simp [threadStarts_append, threadStarts_cleanup, threadStarts, h2]
    rw [if_neg h2]
    by_cases hl : len = 0
    · subst hl
      simp only [ne_eq, not_true_eq_false, false_and, if_false, not_false_eq_true, true_or,
        and_true, if_true]
      split_ifs <;>
        simp [threadStarts_append, threadStarts_cleanup, threadStarts, h2]
    · by_cases ha : env.VirtualAllocEx = 0
      · simp [threadStarts_append, threadStarts_cleanup, threadStarts, h2, hl, ha]
      · by_cases hw : env.WriteProcessMemory = true
        · simp only [ne_eq, hl, not_false_eq_true, if_true, true_and, ha, if_false, hw,
            Bool.true_eq_false, h2, and_self, or_true]
          split_ifs <;>
            simp [threadStarts_append, threadStarts_cleanup, threadStarts]
        · simp [threadStarts_append, threadStarts_cleanup, threadStarts, h2, hl, ha, hw]
  · intro hl
    unfold injection.call_remote_func
    rw [hbase]
    dsimp only
    rw [if_neg hB2, hfunc]
    by_cases h2 : env.OpenProcess = 0
    · rw [if_pos h2]
      simp [threadStarts_append, threadStarts_cleanup, threadStarts]
    rw [if_neg h2]
    by_cases ha : env.VirtualAllocEx = 0
    · simp [threadStarts_append, threadStarts_cleanup, threadStarts, hl, ha]
    · by_cases hw : env.WriteProcessMemory = true
      · simp only [ne_eq, hl, not_false_eq_true, if_true, true_and, ha, if_false, hw,
          Bool.true_eq_false]
        split_ifs <;> simp
      · simp [threadStarts_append, threadStarts_cleanup, threadStarts, hl, ha, hw]
  · intro other entries2 rest2 hs hnone
    have hb : injection.findRemoteBaseAddress other.snapshots module = some 0 := by
      rw [hs, findRemoteBaseAddress_retry]
      simp only [injection.findRemoteBaseAddress, hnone]
    unfold injection.call_remote_func
    rw [hb]
    exact ⟨rfl, rfl, rfl⟩

/-- C19 at a concrete target: `kernel32.dll` is loaded locally at 0x75000000 with the function
at offset 0x1000 and listed as `KERNEL32.DLL` at 0x76000000 in the target, after one retry
of the snapshot.  The offset comes back as 0x1000 and the one remote thread starts at
0x76001000 with the raw argument 5. -/
theorem call_remote_func_round_trip_witness :
    injection.get_function_offset (fun _ => 0x75000000) (fun b _ => b + 0x1000)
        "kernel32.dll" "LoadLibraryW" = 0x1000
    ∧ threadStarts (injection.call_remote_func sampleRemoteEnv 1234 "kernel32.dll" 0x1000 5 0
        none 100).events = [(100, 0x76001000, 5)] := by
  have h := call_remote_func_round_trip (fun _ => 0x75000000) (fun b _ => b + 0x1000)
    sampleRemoteEnv 1234 "kernel32.dll" "LoadLibraryW" "KERNEL32.DLL" 0x75000000 0x1000
    0x76000000 5 0 none 100 1 [("ntdll.dll", 0x77000000), ("KERNEL32.DLL", 0x76000000)] []
    rfl (by decide) rfl (by decide) rfl (by decide) (by decide) (by decide)
  exact ⟨h.1, h.2.1.trans (by decide)⟩

/-! ## Injection from the keep-alive tick -/

theorem attemptsInjection_cons_log (rest : List ViewerEvent) :
    attemptsInjection (ViewerEvent.log "Now injecting into DWM" :: rest) = true := by
  simp [attemptsInjection]

theorem attemptsInjection_message (c : SevenDwmSource_DwmCommunicator) :
    attemptsInjection (SevenDwmSource_DwmCommunicator.onKeepAlive_message c []).events = false := by
  simp only [SevenDwmSource_DwmCommunicator.onKeepAlive_message, attemptsInjection]
  split_ifs <;> simp

/-- A keep-alive tick that returns attempts an injection exactly when the compositor runs and
does not list the library among its modules. -/
theorem onKeepAlive_attempts_iff (env : KeepAliveEnv) (c : SevenDwmSource_DwmCommunicator) :
    attemptsInjection (SevenDwmSource_DwmCommunicator.onKeepAlive env c).events
      = (decide (injection.process_id_for_name env.processes "dwm.exe" ≠ 0)
          && decide (injection.is_dll_loaded env.dwmSnapshots c.m_ownDllBaseName = some false)) := by
  unfold SevenDwmSource_DwmCommunicator.onKeepAlive
  dsimp only
  by_cases hd : injection.process_id_for_name env.processes "dwm.exe" = 0
  · rw [if_pos hd, attemptsInjection_message]
    simp [hd]
  rw [if_neg hd]
  cases hl : injection.is_dll_loaded env.dwmSnapshots c.m_ownDllBaseName with
  | none => simp [attemptsInjection]
  | some b =>
    cases b with
    | true =>
      dsimp only
      rw [attemptsInjection_message]
      simp
    | false =>
      dsimp only
      have hr : (decide (injection.process_id_for_name env.processes "dwm.exe" ≠ 0)
          && decide (some false = some false)) = true := by simp [hd]
      rw [hr]
      split_ifs <;>
        simp only [SevenDwmSource_DwmCommunicator.onKeepAlive_message, List.singleton_append,
          List.cons_append, List.nil_append, attemptsInjection_cons_log]

/-- C17, evaluated on two consecutive ticks with no agent connected.  On the first the
compositor runs without the library: the injection is attempted, the `LoadLibraryW` call
starts its remote thread, and the thread for the entry point cannot be created, which the
tick does not look at.  On the next tick the compositor lists the library, and the tick does
nothing at all: no injection is attempted, although still no agent is connected. -/
theorem onKeepAlive_entry_failure_not_retried :
    (SevenDwmSource_DwmCommunicator.onKeepAlive sampleEntryFails sampleCommunicator).returned = true
    ∧ attemptsInjection
        (SevenDwmSource_DwmCommunicator.onKeepAlive sampleEntryFails sampleCommunicator).events = true
    ∧ ViewerEvent.remote (.CreateRemoteThread 100 0x76001000 0x00A00000)
        ∈ (SevenDwmSource_DwmCommunicator.onKeepAlive sampleEntryFails sampleCommunicator).events
    ∧ ViewerEvent.remote (.CreateRemoteThread 108 0x10001000 0x50)
        ∈ (SevenDwmSource_DwmCommunicator.onKeepAlive sampleEntryFails sampleCommunicator).events
    ∧ ViewerEvent.remote (.log "Failed to start remote thread: 8")
        ∈ (SevenDwmSource_DwmCommunicator.onKeepAlive sampleEntryFails sampleCommunicator).events
    ∧ (SevenDwmSource_DwmCommunicator.onKeepAlive sampleEntryFails sampleCommunicator).comm.m_dwmWindow
        = 0
    ∧ (SevenDwmSource_DwmCommunicator.onKeepAlive sampleNextTick
        (SevenDwmSource_DwmCommunicator.onKeepAlive sampleEntryFails sampleCommunicator).comm).returned
        = true
    ∧ (SevenDwmSource_DwmCommunicator.onKeepAlive sampleNextTick
        (SevenDwmSource_DwmCommunicator.onKeepAlive sampleEntryFails sampleCommunicator).comm).events
        = []
    ∧ attemptsInjection (SevenDwmSource_DwmCommunicator.onKeepAlive sampleNextTick
        (SevenDwmSource_DwmCommunicator.onKeepAlive sampleEntryFails sampleCommunicator).comm).events
        = false
    ∧ (SevenDwmSource_DwmCommunicator.onKeepAlive sampleNextTick
        (SevenDwmSource_DwmCommunicator.onKeepAlive sampleEntryFails
          sampleCommunicator).comm).comm.m_dwmWindow = 0 := by
  refine ⟨?_, ?_, ?_, ?_, ?_, ?_, ?_, ?_, ?_, ?_⟩ <;> decide

/-! ## Destruction of a view window -/

/-- C20: a window made by `make_destroyable` is in state `DESTROY_ALLOWED`.  When it receives
`WM_DESTROY`, the window procedure schedules exactly one deferred deletion and leaves the
object as it is; the deferred deletion sets the state to `DESTROYING`, so that the destructor
calls `DestroyWindow` not at all, schedules nothing and unregisters the class once.  A
`WM_DESTROY` received in state `DESTROYING` schedules no deletion, and so the destructor run
on the window directly calls `DestroyWindow` once and schedules nothing. -/
theorem window_destroyed_once (env : WindowEnv) (wp lp : Nat) :
    (window.make_destroyable env).1.m_destroyState = DestroyState.DESTROY_ALLOWED
    ∧ scheduledDeletions
        (window.WndProc (window.make_destroyable env).1 WM_DESTROY wp lp).2 = 1
    ∧ (window.WndProc (window.make_destroyable env).1 WM_DESTROY wp lp).1
        = (window.make_destroyable env).1
    ∧ (window.deferredDelete env
        (window.WndProc (window.make_destroyable env).1 WM_DESTROY wp lp).1).1.m_destroyState
        = DestroyState.DESTROYING
    ∧ destroyWindowCalls (window.deferredDelete env
        (window.WndProc (window.make_destroyable env).1 WM_DESTROY wp lp).1).2 = 0
    ∧ scheduledDeletions (window.deferredDelete env
        (window.WndProc (window.make_destroyable env).1 WM_DESTROY wp lp).1).2 = 0
    ∧ (window.deferredDelete env
        (window.WndProc (window.make_destroyable env).1 WM_DESTROY wp lp).1).2.count
          (WindowEvent.UnregisterClass (window.make_destroyable env).1.m_class) = 1
    ∧ (∀ d : window, scheduledDeletions
        (window.WndProc { d with m_destroyState := DestroyState.DESTROYING } WM_DESTROY wp lp).2 = 0)
    ∧ destroyWindowCalls (window.destroy env (window.make_destroyable env).1).2 = 1
    ∧ scheduledDeletions (window.destroy env (window.make_destroyable env).1).2 = 0 := by
  have hW : ∀ w : window, w.m_destroyState = DestroyState.DESTROY_ALLOWED →
      window.WndProc w WM_DESTROY wp lp
        = (w, [WindowEvent.call_soon_delete 0, WindowEvent.handleMessage WM_DESTROY wp lp]) := by
    intro w hw
    simp only [window.WndProc, if_true, hw]
  have hD : ∀ w : window, w.m_destroyState = DestroyState.DESTROYING → ∀ a b : Nat,
      window.WndProc w WM_DESTROY a b = (w, [WindowEvent.handleMessage WM_DESTROY a b]) := by
    intro w hw a b
    simp only [window.WndProc, if_true, hw]
  have hA : (window.make_destroyable env).1.m_destroyState = DestroyState.DESTROY_ALLOWED := rfl
  have hdel : ∀ w : window, window.deferredDelete env w
      = ({ w with m_destroyState := DestroyState.DESTROYING },
          [WindowEvent.UnregisterClass w.m_class]
            ++ (if env.UnregisterClass = false then
                  [WindowEvent.log ("FAILED: UnregisterClass: " ++ toString env.GetLastError)]
                else [])) := by
    intro w
    simp [window.deferredDelete, window.destroy]
  refine ⟨hA, ?_, ?_, ?_, ?_, ?_, ?_, ?_, ?_, ?_⟩
  · rw [hW _ hA]; rfl
  · rw [hW _ hA]
  · rw [hdel]
  · rw [hdel]
    split_ifs <;> rfl
  · rw [hdel]
    split_ifs <;> rfl
  · rw [hW _ hA, hdel]
    split_ifs <;> simp
  · intro d
    rw [hD _ rfl]
    rfl
  · simp only [window.destroy, hA]
    by_cases hh : (window.make_destroyable env).1.m_hwnd = 0
    · simp [hh, destroyWindowCalls]
    · simp [hh, destroyWindowCalls, hD]
  · simp only [window.destroy, hA]
    by_cases hh : (window.make_destroyable env).1.m_hwnd = 0
    · simp [hh, scheduledDeletions]
    · simp [hh, scheduledDeletions, hD]

/-! ## The hooked present: identification, forwarding, new textures -/

/-- C21, counterexample: an agent without a captured swap chain that still holds capture target
9, a state reached from the initial one by `sampleScreenChange` (the target was opened for
swap chain 5 before the monitor changed).  The present of a swap chain on the current
monitor records the swap chain and leaves the capture target as it is. -/
theorem trySetupCapturing_keeps_target :
    (Agent.run (fun _ => "") {} (sampleScreenChange.take 5)).1.g_capturedSwapChain = 0
    ∧ (Agent.run (fun _ => "") {} (sampleScreenChange.take 5)).1.g_captureTarget = 9
    ∧ (Agent.run (fun _ => "") {} sampleScreenChange).1.g_capturedSwapChain = 6
    ∧ (Agent.run (fun _ => "") {} sampleScreenChange).1.g_captureTarget = 9
    ∧ (Agent.OverriddenPresent (fun _ => "") (samplePresentEnv 100)
        { g_monitorRight := 1920, g_monitorBottom := 1080, g_captureTarget := 9 } 5 1 0).1
        = { g_monitorRight := 1920, g_monitorBottom := 1080, g_captureTarget := 9,
            g_capturedSwapChain := 5 } := by
  refine ⟨?_, ?_, ?_, ?_, ?_⟩ <;> decide

/-- C21, amended: in an agent without a captured swap chain, the hooked present of a swap chain
whose containing output is attached to the desktop and has exactly the desktop coordinates
of the current monitor rectangle records that swap chain as the captured one and changes
nothing else, the capture target included; it does nothing but forward the call. -/
theorem OverriddenPresent_identifies (describe : Nat → String) (env : PresentEnv) (a : Agent)
    (swap sync_interval flags : Nat) (output : Ptr) (desc : DXGI_OUTPUT_DESC)
    (hnone : a.g_capturedSwapChain = 0) (hswap : swap ≠ 0)
    (hout : env.GetContainingOutput = .ok output) (hdesc : env.OutputGetDesc = .ok desc)
    (hatt : desc.AttachedToDesktop = true)
    (hl : desc.left = a.g_monitorLeft) (ht : desc.top = a.g_monitorTop)
    (hr : desc.right = a.g_monitorRight) (hb : desc.bottom = a.g_monitorBottom) :
    Agent.OverriddenPresent describe env a swap sync_interval flags
      = ({ a with g_capturedSwapChain := swap },
          [AgentEvent.truePresent swap sync_interval flags], env.truePresent) := by
  have hne : ¬ (0 = swap) := fun h => hswap h.symm
  simp [Agent.OverriddenPresent, Agent.trySetupCapturing, hnone, hne, hout, hdesc, hatt,
    hl, ht, hr, hb]

/-- C21, amended, at a concrete agent: swap chain 5 on the monitor 1920x1080 at the origin is
recorded and the capture target 9 stays. -/
theorem OverriddenPresent_identifies_witness :
    Agent.OverriddenPresent (fun _ => "") (samplePresentEnv 100)
        { g_monitorRight := 1920, g_monitorBottom := 1080, g_captureTarget := 9 } 5 1 0
      = ({ g_monitorRight := 1920, g_monitorBottom := 1080, g_captureTarget := 9,
           g_capturedSwapChain := 5 }, [AgentEvent.truePresent 5 1 0], 0) :=
  OverriddenPresent_identifies (fun _ => "") (samplePresentEnv 100)
    { g_monitorRight := 1920, g_monitorBottom := 1080, g_captureTarget := 9 } 5 1 0 6
    { AttachedToDesktop := true, left := 0, top := 0, right := 1920, bottom := 1080 }
    rfl (by decide) rfl rfl rfl rfl rfl rfl rfl

theorem presentCalls_append (a b : List AgentEvent) :
    presentCalls (a ++ b) = presentCalls a ++ presentCalls b := by
  induction a with
  | nil => rfl
  | cons e rest ih => cases e <;> simp [presentCalls, ih]

theorem presentCalls_openCaptureTarget (describe : Nat → String) (env : PresentEnv) (a : Agent)
    (swap : Ptr) : presentCalls (Agent.openCaptureTarget describe env a swap).2 = [] := by
  unfold Agent.openCaptureTarget
  cases env.GetDevice <;> cases env.OpenSharedResource <;>
    simp only [] <;> split_ifs <;> rfl

theorem presentCalls_copyBackBuffer (describe : Nat → String) (env : PresentEnv)
    (swap target : Ptr) : presentCalls (Agent.copyBackBuffer describe env swap target) = [] := by
  unfold Agent.copyBackBuffer
  cases env.GetDevice <;> cases env.GetBuffer <;> cases env.GetDesc <;>
    simp only [] <;> (try split_ifs) <;> rfl

theorem presentCalls_trySetupCapturing (describe : Nat → String) (env : PresentEnv) (a : Agent)
    (swap : Ptr) : presentCalls (Agent.trySetupCapturing describe env a swap).2 = [] := by
  unfold Agent.trySetupCapturing
  cases env.GetContainingOutput <;> cases env.OutputGetDesc <;>
    simp only [] <;> (try split_ifs) <;> rfl

/-- C22: whatever the agent state and the answers of the runtime, `OverriddenPresent(swap, sync,
flags)` calls the original `Present` exactly once, with the same three arguments, as the
last thing it does, and returns its result. -/
theorem OverriddenPresent_forwards (describe : Nat → String) (env : PresentEnv) (a : Agent)
    (swap sync_interval flags : Nat) :
    presentCalls (Agent.OverriddenPresent describe env a swap sync_interval flags).2.1
      = [(swap, sync_interval, flags)]
    ∧ (Agent.OverriddenPresent describe env a swap sync_interval flags).2.1.getLast?
      = some (AgentEvent.truePresent swap sync_interval flags)
    ∧ (Agent.OverriddenPresent describe env a swap sync_interval flags).2.2 = env.truePresent := by
  refine ⟨?_, ?_, rfl⟩
  · simp only [Agent.OverriddenPresent, presentCalls_append]
    have ho := presentCalls_openCaptureTarget describe env a swap
    have ht := presentCalls_trySetupCapturing describe env a swap
    split_ifs <;>
      simp [presentCalls, presentCalls_append, presentCalls_copyBackBuffer, ho, ht]
  · simp [Agent.OverriddenPresent]

/-- With the sentinel `INVALID_HANDLE_VALUE` as the stored handle nothing is opened. -/
theorem openCaptureTarget_sentinel (describe : Nat → String) (env : PresentEnv) (a : Agent)
    (swap : Ptr) (h : a.g_sharedTextureHandle = INVALID_HANDLE_VALUE) :
    Agent.openCaptureTarget describe env a swap = (0, []) := by
  simp [Agent.openCaptureTarget, h]

/-- C25, counterexample: the bound sample source renders one frame (acquire, release) and
holds the desktop image 55 of that frame, not yet released by the source.  The next
`acquireFrame` times out: the image is released and the cached resource is null. -/
theorem acquireFrame_timeout_drops_cached :
    (sampleAfterFrame.map (fun r => r.1.m_duplDesktopImage.m_ptr)) = some 55
    ∧ (sampleAfterFrame.map (fun r => r.2.heap.releases 55)) = some 0
    ∧ ((sampleAfterFrame.bind (fun r => DuplicationSource.acquireFrame (fun _ => "") none
          sampleTimeoutAnswer r.1 r.2)).map (fun r => r.1.m_duplDesktopImage.m_ptr)) = some 0
    ∧ ((sampleAfterFrame.bind (fun r => DuplicationSource.acquireFrame (fun _ => "") none
          sampleTimeoutAnswer r.1 r.2)).map (fun r => r.2.heap.releases 55)) = some 1 := by
  refine ⟨?_, ?_, ?_, ?_⟩ <;> rfl

/-- C25, amended: on a bound source with a device, an `acquireFrame` whose `AcquireNextFrame`
returns `DXGI_ERROR_WAIT_TIMEOUT` returns without a log line, without a rebind and without
a `ReleaseFrame`; binding, `m_frameAcquired` and everything else stay, except that the frame
info is what the call left in it and the cached frame resource, released before the call
if there was one, is what the call stored. -/
theorem acquireFrame_timeout (describe : Nat → String) (outputs : Option (List DXGIOutput))
    (answer : AcquireAnswer) (s : DuplicationSource) (e : Effects)
    (hbound : s.m_duplication.m_ptr ≠ 0) (hdev : s.m_dev ≠ 0)
    (hto : answer.hr = DXGI_ERROR_WAIT_TIMEOUT) :
    ∃ r, DuplicationSource.acquireFrame describe outputs answer s e = some r
      ∧ r.1 = { s with m_duplInfo := answer.info.getD s.m_duplInfo,
                       m_duplDesktopImage := { m_ptr := answer.resource } }
      ∧ r.2.log = e.log
      ∧ r.2.duplicateCalls = e.duplicateCalls
      ∧ r.2.releaseFrames = e.releaseFrames
      ∧ r.2.acquires = e.acquires ++ [s.m_duplication.m_ptr]
      ∧ r.2.heap.addRefs = e.heap.addRefs
      ∧ r.2.heap.releases = (com_ptr.release e.heap s.m_duplDesktopImage).releases := by
  simp [DuplicationSource.acquireFrame, hbound, hdev, hto, com_ptr.pptr_cleared, com_ptr.clear,
    com_ptr.store_pptr, com_ptr.release]
  split_ifs <;> simp [ComHeap.Release]

/-- C25, amended, at the sample source after one frame: the timed-out acquire leaves the
binding 11 and `m_frameAcquired == false`, logs nothing, and the cached resource is null. -/
theorem acquireFrame_timeout_witness :
    ∃ r, DuplicationSource.acquireFrame (fun _ => "") none sampleTimeoutAnswer
          { sampleDuplicationSource with m_duplDesktopImage := { m_ptr := 55 } } Effects.none
        = some r
      ∧ r.1.m_duplication.m_ptr = 11 ∧ r.1.m_frameAcquired = false
      ∧ r.1.m_duplDesktopImage.m_ptr = 0 ∧ r.2.log = [] := by
  obtain ⟨r, h, h1, h2, _⟩ := acquireFrame_timeout (fun _ => "") none sampleTimeoutAnswer
    { sampleDuplicationSource with m_duplDesktopImage := { m_ptr := 55 } } Effects.none
    (by decide) (by decide) rfl
  exact ⟨r, h, by rw [h1]; rfl, by rw [h1]; rfl, by rw [h1]; rfl, h2⟩

/-! ## The cursor position of the legacy source -/

theorem toLONG_of_fits (n : Int) (hlo : -2 ^ 31 ≤ n) (hhi : n < 2 ^ 31) : toLONG n = n := by
  unfold toLONG
  have h1 : (0 : Int) ≤ n + 2 ^ 31 := by omega
  have h2 : n + 2 ^ 31 < 2 ^ 32 := by omega
  rw [Int.emod_eq_of_lt h1 h2]
  omega

/-- C26: on a successful poll with cursor position `(px, py)`, the source bound to the monitor
origin `(mx, my)` and the hotspot `(hx, hy)` current after the poll (an unsigned 32-bit
value), `updateCursor` sets `cursorX = px - mx - hx` and `cursorY = py - my - hy` as signed
integers, negative ones included, whenever these fit in 32 bits, and `cursorVisible` is
whether the cursor flags equal `CURSOR_SHOWING`.  The monitor origin is not changed.  The
current hotspot is the stored one when the cursor handle is the one last seen; for a new
cursor handle it is the hotspot `GetIconInfo` reports for that cursor, which is stored
together with the handle, and only when the shape cannot be queried (`GetIconInfo` or
`CreateCompatibleDC` fails) the stored hotspot is kept. -/
theorem updateCursor_position (GetIconInfo : Nat → Option ICONINFO) (CreateCompatibleDC : Bool)
    (position : POINT) (cursorinfo : CURSORINFO) (s : SevenDwmSource) (cursorTex : Ptr)
    (cursorX cursorY : Int) (cursorVisible : Bool)
    (hxlo : -2 ^ 31 ≤ position.x - s.m_desktopX -
      ((SevenDwmSource.updateCursor GetIconInfo CreateCompatibleDC (some position)
        (some cursorinfo) s cursorTex cursorX cursorY cursorVisible).source.m_xHotspot : Int))
    (hxhi : position.x - s.m_desktopX -
      ((SevenDwmSource.updateCursor GetIconInfo CreateCompatibleDC (some position)
        (some cursorinfo) s cursorTex cursorX cursorY cursorVisible).source.m_xHotspot : Int)
        < 2 ^ 31)
    (hylo : -2 ^ 31 ≤ position.y - s.m_desktopY -
      ((SevenDwmSource.updateCursor GetIconInfo CreateCompatibleDC (some position)
        (some cursorinfo) s cursorTex cursorX cursorY cursorVisible).source.m_yHotspot : Int))
    (hyhi : position.y - s.m_desktopY -
      ((SevenDwmSource.updateCursor GetIconInfo CreateCompatibleDC (some position)
        (some cursorinfo) s cursorTex cursorX cursorY cursorVisible).source.m_yHotspot : Int)
        < 2 ^ 31) :
    (SevenDwmSource.updateCursor GetIconInfo CreateCompatibleDC (some position)
        (some cursorinfo) s cursorTex cursorX cursorY cursorVisible).cursorX
      = position.x - s.m_desktopX -
        ((SevenDwmSource.updateCursor GetIconInfo CreateCompatibleDC (some position)
          (some cursorinfo) s cursorTex cursorX cursorY cursorVisible).source.m_xHotspot : Int)
    ∧ (SevenDwmSource.updateCursor GetIconInfo CreateCompatibleDC (some position)
        (some cursorinfo) s cursorTex cursorX cursorY cursorVisible).cursorY
      = position.y - s.m_desktopY -
        ((SevenDwmSource.updateCursor GetIconInfo CreateCompatibleDC (some position)
          (some cursorinfo) s cursorTex cursorX cursorY cursorVisible).source.m_yHotspot : Int)
    ∧ ((SevenDwmSource.updateCursor GetIconInfo CreateCompatibleDC (some position)
        (some cursorinfo) s cursorTex cursorX cursorY cursorVisible).cursorVisible = true
        ↔ cursorinfo.flags = CURSOR_SHOWING)
    ∧ (SevenDwmSource.updateCursor GetIconInfo CreateCompatibleDC (some position)
        (some cursorinfo) s cursorTex cursorX cursorY cursorVisible).source.m_desktopX
        = s.m_desktopX
    ∧ (SevenDwmSource.updateCursor GetIconInfo CreateCompatibleDC (some position)
        (some cursorinfo) s cursorTex cursorX cursorY cursorVisible).source.m_desktopY
        = s.m_desktopY
    ∧ (cursorinfo.hCursor = s.m_lastCursorSeen →
        (SevenDwmSource.updateCursor GetIconInfo CreateCompatibleDC (some position)
          (some cursorinfo) s cursorTex cursorX cursorY cursorVisible).source = s)
    ∧ (cursorinfo.hCursor ≠ s.m_lastCursorSeen → CreateCompatibleDC = true →
        ∀ info, GetIconInfo cursorinfo.hCursor = some info →
          (SevenDwmSource.updateCursor GetIconInfo CreateCompatibleDC (some position)
            (some cursorinfo) s cursorTex cursorX cursorY cursorVisible).source
            = { s with m_lastCursorSeen := cursorinfo.hCursor, m_xHotspot := info.xHotspot,
                       m_yHotspot := info.yHotspot }
          ∧ (SevenDwmSource.updateCursor GetIconInfo CreateCompatibleDC (some position)
              (some cursorinfo) s cursorTex cursorX cursorY cursorVisible).cursorX
            = position.x - s.m_desktopX - (info.xHotspot : Int)
          ∧ (SevenDwmSource.updateCursor GetIconInfo CreateCompatibleDC (some position)
              (some cursorinfo) s cursorTex cursorX cursorY cursorVisible).cursorY
            = position.y - s.m_desktopY - (info.yHotspot : Int))
    ∧ (cursorinfo.hCursor ≠ s.m_lastCursorSeen →
        (GetIconInfo cursorinfo.hCursor = none ∨ CreateCompatibleDC = false) →
        (SevenDwmSource.updateCursor GetIconInfo CreateCompatibleDC (some position)
          (some cursorinfo) s cursorTex cursorX cursorY cursorVisible).source
          = { s with m_lastCursorSeen := cursorinfo.hCursor }) := by
  have hdx : (SevenDwmSource.updateCursor GetIconInfo CreateCompatibleDC (some position)
      (some cursorinfo) s cursorTex cursorX cursorY cursorVisible).source.m_desktopX
      = s.m_desktopX := by
    simp only [SevenDwmSource.updateCursor]
    split_ifs <;> rfl
  have hdy : (SevenDwmSource.updateCursor GetIconInfo CreateCompatibleDC (some position)
      (some cursorinfo) s cursorTex cursorX cursorY cursorVisible).source.m_desktopY
      = s.m_desktopY := by
    simp only [SevenDwmSource.updateCursor]
    split_ifs <;> rfl
  have hcx : (SevenDwmSource.updateCursor GetIconInfo CreateCompatibleDC (some position)
      (some cursorinfo) s cursorTex cursorX cursorY cursorVisible).cursorX
      = position.x - s.m_desktopX -
        ((SevenDwmSource.updateCursor GetIconInfo CreateCompatibleDC (some position)
          (some cursorinfo) s cursorTex cursorX cursorY cursorVisible).source.m_xHotspot : Int) := by
    rw [← toLONG_of_fits _ hxlo hxhi, ← hdx]
    rfl
  have hcy : (SevenDwmSource.updateCursor GetIconInfo CreateCompatibleDC (some position)
      (some cursorinfo) s cursorTex cursorX cursorY cursorVisible).cursorY
      = position.y - s.m_desktopY -
        ((SevenDwmSource.updateCursor GetIconInfo CreateCompatibleDC (some position)
          (some cursorinfo) s cursorTex cursorX cursorY cursorVisible).source.m_yHotspot : Int) := by
    rw [← toLONG_of_fits _ hylo hyhi, ← hdy]
    rfl
  refine ⟨hcx, hcy, ?_, hdx, hdy, ?_, ?_, ?_⟩
  · simp [SevenDwmSource.updateCursor]
  · intro hsame
    simp [SevenDwmSource.updateCursor, hsame]
  · intro hnew hdc info hinfo
    have hsrc : (SevenDwmSource.updateCursor GetIconInfo CreateCompatibleDC (some position)
        (some cursorinfo) s cursorTex cursorX cursorY cursorVisible).source
        = { s with m_lastCursorSeen := cursorinfo.hCursor, m_xHotspot := info.xHotspot,
                   m_yHotspot := info.yHotspot } := by
      simp [SevenDwmSource.updateCursor, updateCursorShape, hnew, hdc, hinfo]
    refine ⟨hsrc, ?_, ?_⟩
    · rw [hcx, hsrc]
    · rw [hcy, hsrc]
  · intro hnew hfail
    rcases hfail with hnone | hdc
    · simp [SevenDwmSource.updateCursor, updateCursorShape, hnew, hnone]
    · simp only [SevenDwmSource.updateCursor, updateCursorShape, hdc]
      cases GetIconInfo cursorinfo.hCursor <;> simp [hnew]

/-- C26 at a concrete poll: the cursor 7, not seen before, has the hotspot (10, 10); at the
screen position (5, 3) on the monitor at the origin the position set is (-5, -7), and the
hotspot is stored. -/
theorem updateCursor_position_witness :
    (SevenDwmSource.updateCursor
        (fun c => if c = 7 then some { xHotspot := 10, yHotspot := 10, hbmMask := 1, hbmColor := 0 }
          else none)
        true (some { x := 5, y := 3 }) (some { flags := 1, hCursor := 7 }) {} 0 0 0 false).cursorX
      = -5
    ∧ (SevenDwmSource.updateCursor
        (fun c => if c = 7 then some { xHotspot := 10, yHotspot := 10, hbmMask := 1, hbmColor := 0 }
          else none)
        true (some { x := 5, y := 3 }) (some { flags := 1, hCursor := 7 }) {} 0 0 0 false).cursorY
      = -7 :=
  ⟨(updateCursor_position
      (fun c => if c = 7 then some { xHotspot := 10, yHotspot := 10, hbmMask := 1, hbmColor := 0 }
        else none)
      true { x := 5, y := 3 } { flags := 1, hCursor := 7 } {} 0 0 0 false
      (by decide) (by decide) (by decide) (by decide)).1,
   (updateCursor_position
      (fun c => if c = 7 then some { xHotspot := 10, yHotspot := 10, hbmMask := 1, hbmColor := 0 }
        else none)
      true { x := 5, y := 3 } { flags := 1, hCursor := 7 } {} 0 0 0 false
      (by decide) (by decide) (by decide) (by decide)).2.1⟩

/-! ## One rendered frame -/

/-- C27: with a device, a render target and a swap chain, and a source whose members return,
one `render` call does, in this order: `acquireFrame`, `updateDesktop`, `updateCursor`, the
cursor vertex update, `releaseFrame`, the clear, the desktop draw of 6 vertices, the cursor
draw of 6 vertices exactly when the cursor is visible after `updateCursor`, and `Present`
with sync interval 1.  An invisible cursor thus gives exactly one draw call, a visible one
two, and there is one `Present`. -/
theorem render_frame_order {σ : Type} (ops : SourceOps σ) (mapSucceeded : Bool) (r : Renderer)
    (src s1 s2 s3 s4 : σ) (cx cy : Int) (vis : Bool)
    (hdev : r.m_device.m_ptr ≠ 0) (htarget : r.m_renderTarget.m_ptr ≠ 0)
    (hswap : r.m_swap.m_ptr ≠ 0)
    (hacquire : ops.acquireFrame src = some s1)
    (hdesktop : ops.updateDesktop s1 r.m_desktopTexture.m_ptr = some s2)
    (hcursor : ops.updateCursor s2 r.m_cursorTexture.m_ptr r.m_cursorX r.m_cursorY
      r.m_cursorVisible = some (s3, cx, cy, vis))
    (hrelease : ops.releaseFrame s3 = some s4) :
    ∃ out, Renderer.render ops mapSucceeded r src = some out
      ∧ out.1 = { r with m_cursorX := cx, m_cursorY := cy, m_cursorVisible := vis }
      ∧ out.2.1 = s4
      ∧ out.2.2 =
          [RenderEvent.source_acquireFrame,
           RenderEvent.source_updateDesktop r.m_desktopTexture.m_ptr,
           RenderEvent.source_updateCursor r.m_cursorTexture.m_ptr,
           RenderEvent.updateCursorPosition
             (Renderer.updateCursorPosition
               { r with m_cursorX := cx, m_cursorY := cy, m_cursorVisible := vis } mapSucceeded),
           RenderEvent.source_releaseFrame,
           RenderEvent.ClearRenderTargetView r.m_renderTarget.m_ptr,
           RenderEvent.IASetVertexBuffers r.m_desktopVBuffer.m_ptr,
           RenderEvent.IASetPrimitiveTopology,
           RenderEvent.PSSetShaderResources r.m_desktopSrv.m_ptr,
           RenderEvent.Draw 6 0]
          ++ (if vis = true then
                [RenderEvent.IASetVertexBuffers r.m_cursorVBuffer.m_ptr,
                 RenderEvent.IASetPrimitiveTopology,
                 RenderEvent.PSSetShaderResources r.m_cursorSrv.m_ptr,
                 RenderEvent.Draw 6 0]
              else [])
          ++ [RenderEvent.Present 1 0]
      ∧ drawCalls out.2.2 = (if vis = true then [6, 6] else [6])
      ∧ presentSyncs out.2.2 = [1] := by
  have hne : ¬ (r.m_device.m_ptr = 0 ∨ r.m_renderTarget.m_ptr = 0) := by
    intro h
    cases h with
    | inl h => exact hdev h
    | inr h => exact htarget h
  have hrun : Renderer.render ops mapSucceeded r src
      = some ({ r with m_cursorX := cx, m_cursorY := cy, m_cursorVisible := vis }, s4,
          [RenderEvent.source_acquireFrame,
           RenderEvent.source_updateDesktop r.m_desktopTexture.m_ptr,
           RenderEvent.source_updateCursor r.m_cursorTexture.m_ptr,
           RenderEvent.updateCursorPosition
             (Renderer.updateCursorPosition
               { r with m_cursorX := cx, m_cursorY := cy, m_cursorVisible := vis } mapSucceeded),
           RenderEvent.source_releaseFrame,
           RenderEvent.ClearRenderTargetView r.m_renderTarget.m_ptr,
           RenderEvent.IASetVertexBuffers r.m_desktopVBuffer.m_ptr,
           RenderEvent.IASetPrimitiveTopology,
           RenderEvent.PSSetShaderResources r.m_desktopSrv.m_ptr,
           RenderEvent.Draw 6 0]
          ++ (if vis = true then
                [RenderEvent.IASetVertexBuffers r.m_cursorVBuffer.m_ptr,
                 RenderEvent.IASetPrimitiveTopology,
                 RenderEvent.PSSetShaderResources r.m_cursorSrv.m_ptr,
                 RenderEvent.Draw 6 0]
              else [])
          ++ [RenderEvent.Present 1 0]) := by
    simp only [Renderer.render, if_neg hne, hacquire, hdesktop, hcursor, hrelease, if_neg hswap]
  refine ⟨_, hrun, rfl, rfl, rfl, ?_, ?_⟩
  · cases vis <;> rfl
  · cases vis <;> rfl

/-- C27 at a concrete renderer: with a source that reports the cursor hidden, the frame has
exactly one draw call (6 vertices) and one `Present` with sync interval 1; with a source
that leaves the cursor visible it has two draw calls. -/
theorem render_frame_order_witness :
    (∃ out, Renderer.render (SourceOps.hidesCursor Unit) true sampleRenderer () = some out
      ∧ drawCalls out.2.2 = [6] ∧ presentSyncs out.2.2 = [1])
    ∧ (∃ out, Renderer.render (SourceOps.idle Unit) true sampleRenderer () = some out
      ∧ drawCalls out.2.2 = [6, 6] ∧ presentSyncs out.2.2 = [1]) := by
  obtain ⟨o1, h1, _, _, _, d1, p1⟩ := render_frame_order (SourceOps.hidesCursor Unit) true
    sampleRenderer () () () () () 0 0 false (by decide) (by decide) (by decide) rfl rfl rfl rfl
  obtain ⟨o2, h2, _, _, _, d2, p2⟩ := render_frame_order (SourceOps.idle Unit) true
    sampleRenderer () () () () () 0 0 true (by decide) (by decide) (by decide) rfl rfl rfl rfl
  exact ⟨⟨o1, h1, d1, p1⟩, ⟨o2, h2, d2, p2⟩⟩

/-! ## Pixels of an indexed row -/

theorem shift_mask_eq (b s n : Nat) : (b >>> s) &&& ((1 <<< n) - 1) = b / 2 ^ s % 2 ^ n := by
  rw [Nat.shiftRight_eq_div_pow, Nat.one_shiftLeft, Nat.and_pow_two_sub_one_eq_mod]

theorem get_pixel_from_row_arith (bpp : Nat) (row : Nat → Nat) (x : Nat)
    (hx : x * bpp < 2 ^ 32) :
    util.get_pixel_from_row bpp row x
      = row (x * bpp / 8) / 2 ^ (8 - bpp - (x % (8 / bpp)) * bpp) % 2 ^ bpp % 256 := by
  simp only [util.get_pixel_from_row, shift_mask_eq, Nat.mod_eq_of_lt hx]

/-- C28, counterexample: 8-bit pixel `2^29 + 3` of `sampleLongRow`.  The product `x * bpp` is
`2^32 + 24` and wraps to 24 in 32 bits, so byte 3 is read: the result is 0xAA, where the
pixel, the `x`-th group of 8 bits of the row, is 0x55 in byte `2^29 + 3`. -/
theorem get_pixel_from_row_wraps :
    util.get_pixel_from_row 8 sampleLongRow (2 ^ 29 + 3) = 0xAA
    ∧ bitGroup 8 sampleLongRow (2 ^ 29 + 3) = 0x55
    ∧ sampleLongRow ((2 ^ 29 + 3) * 8 / 8) = 0x55
    ∧ util.get_pixel_from_row 8 sampleLongRow 3 = 0xAA := by
  refine ⟨?_, ?_, ?_, ?_⟩ <;> decide

/-- C28, amended: for `bpp` in {1, 2, 4, 8} and every `x` whose bit offset `x * bpp` fits in 32
bits, `get_pixel_from_row<bpp>(row, x)` is the `x`-th group of `bpp` bits of the row counted
from the most significant bit; it is taken from the byte `x*bpp/8`, starting
`(x mod (8/bpp))*bpp` bits from the top, and it is below `2^bpp`. -/
theorem get_pixel_from_row_group (bpp : Nat) (row : Nat → Nat) (x : Nat)
    (hbpp : bpp = 1 ∨ bpp = 2 ∨ bpp = 4 ∨ bpp = 8) (hx : x * bpp < 2 ^ 32) :
    util.get_pixel_from_row bpp row x = bitGroup bpp row x
    ∧ util.get_pixel_from_row bpp row x
        = row (x * bpp / 8) / 2 ^ (8 - bpp - (x % (8 / bpp)) * bpp) % 2 ^ bpp
    ∧ util.get_pixel_from_row bpp row x < 2 ^ bpp := by
  rw [get_pixel_from_row_arith bpp row x hx]
  clear hx
  rcases hbpp with h | h | h | h <;> subst h
  · have hk : x % 8 < 8 := Nat.mod_lt _ (by decide)
    have e1 : (x * 1 + 0) / 8 = x * 1 / 8 := by omega
    have e2 : (x * 1 + 0) % 8 = x % 8 := by omega
    simp only [bitGroup, bitsValue, rowBit, e1, e2]
    generalize row (x * 1 / 8) = b
    norm_num
    generalize x % 8 = k at hk ⊢
    interval_cases k <;> norm_num <;> omega
  · have hk : x % 4 < 4 := Nat.mod_lt _ (by decide)
    have e1 : (x * 2 + 0) / 8 = x * 2 / 8 := by omega
    have e2 : (x * 2 + 1) / 8 = x * 2 / 8 := by omega
    have e3 : (x * 2 + 0) % 8 = x % 4 * 2 := by omega
    have e4 : (x * 2 + 1) % 8 = x % 4 * 2 + 1 := by omega
    simp only [bitGroup, bitsValue, rowBit, e1, e2, e3, e4]
    generalize row (x * 2 / 8) = b
    norm_num
    generalize x % 4 = k at hk ⊢
    interval_cases k <;> norm_num <;> omega
  · have hk : x % 2 < 2 := Nat.mod_lt _ (by decide)
    have e0 : (x * 4 + 0) / 8 = x * 4 / 8 := by omega
    have e1 : (x * 4 + 1) / 8 = x * 4 / 8 := by omega
    have e2 : (x * 4 + 2) / 8 = x * 4 / 8 := by omega
    have e3 : (x * 4 + 3) / 8 = x * 4 / 8 := by omega
    have f0 : (x * 4 + 0) % 8 = x % 2 * 4 := by omega
    have f1 : (x * 4 + 1) % 8 = x % 2 * 4 + 1 := by omega
    have f2 : (x * 4 + 2) % 8 = x % 2 * 4 + 2 := by omega
    have f3 : (x * 4 + 3) % 8 = x % 2 * 4 + 3 := by omega
    simp only [bitGroup, bitsValue, rowBit, e0, e1, e2, e3, f0, f1, f2, f3]
    generalize row (x * 4 / 8) = b
    norm_num
    generalize x % 2 = k at hk ⊢
    interval_cases k <;> norm_num <;> omega
  · have e0 : (x * 8 + 0) / 8 = x * 8 / 8 := by omega
    have e1 : (x * 8 + 1) / 8 = x * 8 / 8 := by omega
    have e2 : (x * 8 + 2) / 8 = x * 8 / 8 := by omega
    have e3 : (x * 8 + 3) / 8 = x * 8 / 8 := by omega
    have e4 : (x * 8 + 4) / 8 = x * 8 / 8 := by omega
    have e5 : (x * 8 + 5) / 8 = x * 8 / 8 := by omega
    have e6 : (x * 8 + 6) / 8 = x * 8 / 8 := by omega
    have e7 : (x * 8 + 7) / 8 = x * 8 / 8 := by omega
    have f0 : (x * 8 + 0) % 8 = 0 := by omega
    have f1 : (x * 8 + 1) % 8 = 1 := by omega
    have f2 : (x * 8 + 2) % 8 = 2 := by omega
    have f3 : (x * 8 + 3) % 8 = 3 := by omega
    have f4 : (x * 8 + 4) % 8 = 4 := by omega
    have f5 : (x * 8 + 5) % 8 = 5 := by omega
    have f6 : (x * 8 + 6) % 8 = 6 := by omega
    have f7 : (x * 8 + 7) % 8 = 7 := by omega
    simp only [bitGroup, bitsValue, rowBit, e0, e1, e2, e3, e4, e5, e6, e7,
      f0, f1, f2, f3, f4, f5, f6, f7]
    generalize row (x * 8 / 8) = b
    have t2 : b / 64 % 4 = 2 * (b / 128 % 2) + b / 64 % 2 := by omega
    have t3 : b / 32 % 8 = 2 * (b / 64 % 4) + b / 32 % 2 := by omega
    have t4 : b / 16 % 16 = 2 * (b / 32 % 8) + b / 16 % 2 := by omega
    have t5 : b / 8 % 32 = 2 * (b / 16 % 16) + b / 8 % 2 := by omega
    have t6 : b / 4 % 64 = 2 * (b / 8 % 32) + b / 4 % 2 := by omega
    have t7 : b / 2 % 128 = 2 * (b / 4 % 64) + b / 2 % 2 := by omega
    have t8 : b % 256 = 2 * (b / 2 % 128) + b % 2 := by omega
    refine ⟨?_, ?_, ?_⟩
    · norm_num
      rw [t8, t7, t6, t5, t4, t3, t2]
    · norm_num
    · norm_num
      omega

/-- C28, amended, at a concrete row: the bytes 0xB4 0x1E read as 1-bit pixel 2 (a one), 2-bit
pixel 1 (binary 11), 4-bit pixel 3 (0xE) and 8-bit pixel 1 (0x1E). -/
theorem get_pixel_from_row_group_witness :
    util.get_pixel_from_row 1 sampleRow 2 = 1
    ∧ util.get_pixel_from_row 2 sampleRow 1 = 3
    ∧ util.get_pixel_from_row 4 sampleRow 3 = 0xE
    ∧ util.get_pixel_from_row 8 sampleRow 1 = 0x1E :=
  ⟨(get_pixel_from_row_group 1 sampleRow 2 (Or.inl rfl) (by decide)).1.trans (by decide),
   (get_pixel_from_row_group 2 sampleRow 1 (Or.inr (Or.inl rfl)) (by decide)).1.trans (by decide),
   (get_pixel_from_row_group 4 sampleRow 3 (Or.inr (Or.inr (Or.inl rfl))) (by decide)).1.trans
      (by decide),
   (get_pixel_from_row_group 8 sampleRow 1 (Or.inr (Or.inr (Or.inr rfl))) (by decide)).1.trans
      (by decide)⟩

/-! ## The bit buffer of the legacy monochrome decoder -/

/-- From width 2 on the two bit planes fit into the buffer. -/
theorem updateCursorShape_planes_fit (w h : Nat) (hw : 2 ≤ w) (hsize : 4 * w * h < 2 ^ 32) :
    updateCursorShape_bitsFilled w h ≤ updateCursorShape_bitsSize w h := by
  rcases Nat.eq_zero_or_pos h with h0 | hpos
  · subst h0
    simp [updateCursorShape_bitsFilled]
  · have hle : 4 * w * 1 ≤ 4 * w * h := Nat.mul_le_mul_left _ hpos
    have hw32 : w < 2 ^ 32 := by omega
    have hmod : (w + 2 ^ 32 - 1) % 2 ^ 32 = w - 1 := by omega
    have hbpl : updateCursorShape_bpl w ≤ 2 * w := by
      simp only [updateCursorShape_bpl, hmod]
      omega
    have hfill : h * 2 * updateCursorShape_bpl w ≤ h * 2 * (2 * w) :=
      Nat.mul_le_mul_left _ hbpl
    have heq : h * 2 * (2 * w) = 4 * w * h := by ring
    simp only [updateCursorShape_bitsFilled, updateCursorShape_bitsSize,
      Nat.mod_eq_of_lt hsize]
    omega

/-- C29, evaluated: a monochrome mask of width 1 and per-plane height 1 (and of height 32).
The buffer has 4 bytes, one scan line has 4 bytes, so `GetDIBits` stores 8 bytes into it and
the decode loop reads the XOR plane at offset 4, the first byte behind the buffer.  For
height 32 the buffer has 128 bytes, 256 are stored, and every read of the XOR plane
(offsets 128, 132, ...) is behind the buffer. -/
theorem updateCursorShape_width_one_overflows :
    updateCursorShape_bitsSize 1 1 = 4
    ∧ updateCursorShape_bpl 1 = 4
    ∧ updateCursorShape_bitsFilled 1 1 = 8
    ∧ updateCursorShape_reads 1 1 = [0, 4]
    ∧ ¬ (4 < updateCursorShape_bitsSize 1 1)
    ∧ updateCursorShape_bitsSize 1 32 = 128
    ∧ updateCursorShape_bitsFilled 1 32 = 256
    ∧ (updateCursorShape_reads 1 32).filter (fun i => decide (updateCursorShape_bitsSize 1 32 ≤ i))
        = (List.range 32).map (fun row => 128 + row * 4) := by
  refine ⟨?_, ?_, ?_, ?_, ?_, ?_, ?_, ?_⟩ <;> decide

/-- Every byte the decode loop reads lies inside the two bit planes. -/
theorem updateCursorShape_reads_in_planes (w h : Nat) (hw : 1 ≤ w) (hw32 : w < 2 ^ 32) :
    ∀ i ∈ updateCursorShape_reads w h, i < updateCursorShape_bitsFilled w h := by
  intro i hi
  have hmod : (w + 2 ^ 32 - 1) % 2 ^ 32 = w - 1 := by omega
  simp only [updateCursorShape_reads, List.mem_flatMap, List.mem_range, List.mem_cons,
    List.mem_singleton, List.not_mem_nil, or_false] at hi
  obtain ⟨row, hrow, col, hcol, hi⟩ := hi
  have hrow1 : row + 1 ≤ h := by omega
  have hcolw : col < w := by omega
  have hbyte : col * 1 / 8 < updateCursorShape_bpl w := by
    simp only [updateCursorShape_bpl, hmod]
    omega
  have hmul : (row + 1) * updateCursorShape_bpl w ≤ h * updateCursorShape_bpl w :=
    Nat.mul_le_mul_right _ hrow1
  have hexp : (row + 1) * updateCursorShape_bpl w
      = row * updateCursorShape_bpl w + updateCursorShape_bpl w := by ring
  have hfilled : updateCursorShape_bitsFilled w h
      = h * updateCursorShape_bpl w + h * updateCursorShape_bpl w := by
    simp only [updateCursorShape_bitsFilled]
    ring
  have hcomm : updateCursorShape_bpl w * h = h * updateCursorShape_bpl w := Nat.mul_comm _ _
  rcases hi with hi | hi <;> omega

/-! ## Texture creation in the legacy source -/

/-- C30, evaluated: whenever `CreateTexture2D` fails in `createDesktopTexture`, whatever the
source, the communicator and the other answers, the function does not return: after the
log line it calls `texture->QueryInterface` on the null texture.  The sibling
`createCursorTexture` returns the null texture after the same log line; and when
`CreateTexture2D` succeeds, the texture is returned and its shared handle sent on. -/
theorem createDesktopTexture_failure_faults (describe : Nat → String) (hr : Nat)
    (QueryInterface : Except Nat Ptr) (GetSharedHandle : Except Nat Nat) (s : SevenDwmSource)
    (c : SevenDwmSource_DwmCommunicator) :
    SevenDwmSource.createDesktopTexture describe
        { CreateTexture2D := .error hr, QueryInterface := QueryInterface,
          GetSharedHandle := GetSharedHandle } s c = none
    ∧ SevenDwmSource.createCursorTexture (fun _ => "out of memory") (.error E_OUTOFMEMORY)
        { m_dev := 1 }
        = some (0, [ViewerEvent.log "Failed:CreateTexture2D: out of memory"])
    ∧ SevenDwmSource.createDesktopTexture (fun _ => "")
        { CreateTexture2D := .ok 4, QueryInterface := .ok 4, GetSharedHandle := .ok 0x1234 }
        { m_dev := 1 } { sampleCommunicator with m_dwmWindow := 0x60 }
        = some (4, { sampleCommunicator with m_dwmWindow := 0x60, m_textureForDwm := 0x1234 },
            [ViewerEvent.PostMessage 0x60 WM_APP_NEWTEXTURE 0 0x1234]) := by
  refine ⟨?_, ?_, ?_⟩
  · simp [SevenDwmSource.createDesktopTexture, outPtr]
  · decide
  · decide
